import Mathlib

/-!
# Pong: simulation core, button and menu of `game.cpp`

Shallow embedding of `src/game.cpp`.

* `float` values are rationals (`ℚ`): every comparison and every arithmetic expression
  of the source is kept as written. The simulation of the ball is followed in exact
  arithmetic; the paddle coordinates and the lag accumulator of `main`, where rounding
  changes what the code does, are also followed in binary32 (`roundF32`,
  `PongGame.movePaddlesF32`, `App.tickLoopF32`).
* `std::uint_fast8_t` counters are natural numbers reduced modulo `2 ^ 8` where the
  source increments them.
* Keyboard and mouse polling (`sf::Keyboard::isKeyPressed`, `sf::Mouse::isButtonPressed`)
  is an explicit input record passed to `Update`.
* Rendering members (render target, font, colours, label text) carry no simulation
  state and are left out.
-/

namespace Pong

/-! ## Constants (game.cpp lines 9-24) -/

def WINDOW_WIDTH : ℕ := 1600
def WINDOW_HEIGHT : ℕ := 900

def UPDATE_MS : ℚ := 33

def BALL_RADIUS : ℚ := 10
def BALL_VELOCITY : ℚ := 400
def BALL_VEL_INCR : ℚ := 60

def PADDLE_WIDTH : ℚ := 10
def PADDLE_LENGTH : ℚ := 50
def PADDLE_PADDING : ℚ := 20
def PADDLE_SPEED : ℚ := 400

def COURT_MARGIN : ℚ := 10
def COURT_OUTLINE_WIDTH : ℚ := 5

/-! ## Enumerations (lines 26-45) -/

inductive GAME_STATE where
  | MENU
  | IN_GAME
  | EXIT
  deriving DecidableEq, Repr

inductive PLAY_STATE where
  | SERVE_PLAYER_ONE
  | SERVE_PLAYER_TWO
  | TOWARD_PLAYER_ONE
  | TOWARD_PLAYER_TWO
  deriving DecidableEq, Repr

inductive MOUSE_STATE where
  | UP
  | DOWN
  deriving DecidableEq, Repr

/-! ## Geometry and entities (lines 47-149) -/

structure Vector2D where
  x : ℚ
  y : ℚ
  deriving DecidableEq

structure RectangleShape where
  x : ℚ
  y : ℚ
  width : ℚ
  height : ℚ
  deriving DecidableEq

structure Court where
  m_dimensions : RectangleShape
  deriving DecidableEq

def Court.GetDimensions (c : Court) : RectangleShape := c.m_dimensions

structure Paddle where
  m_rect : RectangleShape
  deriving DecidableEq

def Paddle.GetPositionSize (p : Paddle) : RectangleShape := p.m_rect

def Paddle.SetPositionSize (_p : Paddle) (newPositionSize : RectangleShape) : Paddle :=
  { m_rect := newPositionSize }

def Paddle.SetPosition (p : Paddle) (newPosition : Vector2D) : Paddle :=
  { m_rect := { p.m_rect with x := newPosition.x, y := newPosition.y } }

structure Ball where
  m_position : Vector2D
  m_radius : ℚ
  m_velocity : Vector2D
  deriving DecidableEq

/-- Constructor `Ball::Ball` (lines 112-118): the velocity starts at zero. -/
def Ball.new (startPosition : Vector2D) (radius : ℚ) : Ball :=
  { m_position := startPosition, m_radius := radius, m_velocity := ⟨0, 0⟩ }

def Ball.GetPosition (b : Ball) : Vector2D := b.m_position
def Ball.GetRadius (b : Ball) : ℚ := b.m_radius
def Ball.GetVelocity (b : Ball) : Vector2D := b.m_velocity

def Ball.SetPosition (b : Ball) (newPosition : Vector2D) : Ball :=
  { b with m_position := newPosition }

def Ball.SetVelocity (b : Ball) (newVelocity : Vector2D) : Ball :=
  { b with m_velocity := newVelocity }

/-! ## Input -/

/-- The five keys polled by `PongGame::Update` (lines 263-270, 281, 294). -/
structure Keys where
  Q : Bool
  Z : Bool
  P : Bool
  Period : Bool
  Space : Bool
  deriving DecidableEq

/-- No key held. -/
def Keys.none : Keys := ⟨false, false, false, false, false⟩

/-- Only the serve key held. -/
def Keys.serve : Keys := ⟨false, false, false, false, true⟩

/-! ## PongGame (lines 219-431) -/

/-- Width modulus of the `std::uint_fast8_t` score counters. -/
def SCORE_MOD : ℕ := 2 ^ 8

structure PongGame where
  m_playerOneScore : ℕ
  m_playerTwoScore : ℕ
  m_maxScore : ℕ
  m_court : Court
  m_ball : Ball
  m_playerOne : Paddle
  m_playerTwo : Paddle
  m_playState : PLAY_STATE
  deriving DecidableEq

/-- Constructor `PongGame::PongGame` (lines 222-254). The integer divisions
`WINDOW_WIDTH / 2` and `WINDOW_HEIGHT / 2` are done on naturals, as in the source. -/
def PongGame.new (scoreToWin : ℕ) : PongGame :=
  { m_playerOneScore := 0
    m_playerTwoScore := 0
    m_maxScore := scoreToWin
    m_court := ⟨⟨COURT_MARGIN, COURT_MARGIN,
      (WINDOW_WIDTH : ℚ) - COURT_MARGIN * 2, (WINDOW_HEIGHT : ℚ) - COURT_MARGIN * 2⟩⟩
    m_ball := Ball.new ⟨((WINDOW_WIDTH / 2 : ℕ) : ℚ), ((WINDOW_HEIGHT / 2 : ℕ) : ℚ)⟩ BALL_RADIUS
    m_playerOne := ⟨⟨COURT_MARGIN + PADDLE_PADDING,
      ((WINDOW_HEIGHT / 2 : ℕ) : ℚ) - PADDLE_LENGTH / 2, PADDLE_WIDTH, PADDLE_LENGTH⟩⟩
    m_playerTwo := ⟨⟨(WINDOW_WIDTH : ℚ) - COURT_MARGIN - PADDLE_PADDING - PADDLE_WIDTH,
      ((WINDOW_HEIGHT / 2 : ℕ) : ℚ) - PADDLE_LENGTH / 2, PADDLE_WIDTH, PADDLE_LENGTH⟩⟩
    m_playState := PLAY_STATE.SERVE_PLAYER_ONE }

/-- Paddle movement, lines 260-271. `paddle1` and `paddle2` are references into the
paddles, so the second test of each pair reads the y already written by the first. -/
def PongGame.movePaddles (g : PongGame) (timeMultiplier : ℚ) (keys : Keys) : PongGame :=
  let g1 : PongGame :=
    if keys.Q then
      { g with m_playerOne := (g.m_playerOne.SetPosition
          ⟨g.m_playerOne.GetPositionSize.x,
           g.m_playerOne.GetPositionSize.y - PADDLE_SPEED * timeMultiplier⟩) }
    else g
  let g2 : PongGame :=
    if keys.Z then
      { g1 with m_playerOne := (g1.m_playerOne.SetPosition
          ⟨g1.m_playerOne.GetPositionSize.x,
           g1.m_playerOne.GetPositionSize.y + PADDLE_SPEED * timeMultiplier⟩) }
    else g1
  let g3 : PongGame :=
    if keys.P then
      { g2 with m_playerTwo := (g2.m_playerTwo.SetPosition
          ⟨g2.m_playerTwo.GetPositionSize.x,
           g2.m_playerTwo.GetPositionSize.y - PADDLE_SPEED * timeMultiplier⟩) }
    else g2
  if keys.Period then
    { g3 with m_playerTwo := (g3.m_playerTwo.SetPosition
        ⟨g3.m_playerTwo.GetPositionSize.x,
         g3.m_playerTwo.GetPositionSize.y + PADDLE_SPEED * timeMultiplier⟩) }
  else g3

/-- First `switch (m_playState)`, lines 273-303: pin the ball to the serving paddle and
launch it when the serve key is held. -/
def PongGame.serveStep (g : PongGame) (keys : Keys) : PongGame :=
  match g.m_playState with
  | PLAY_STATE.SERVE_PLAYER_ONE =>
    let paddle := g.m_playerOne.GetPositionSize
    let b := (g.m_ball.SetVelocity ⟨0, 0⟩).SetPosition
      ⟨paddle.x + PADDLE_WIDTH, paddle.y + PADDLE_LENGTH / 2⟩
    if keys.Space then
      { g with m_ball := b.SetVelocity ⟨BALL_VELOCITY, 0⟩
               m_playState := PLAY_STATE.TOWARD_PLAYER_TWO }
    else { g with m_ball := b }
  | PLAY_STATE.SERVE_PLAYER_TWO =>
    let paddle := g.m_playerTwo.GetPositionSize
    let b := (g.m_ball.SetVelocity ⟨0, 0⟩).SetPosition
      ⟨paddle.x - BALL_RADIUS, paddle.y + PADDLE_LENGTH / 2⟩
    if keys.Space then
      { g with m_ball := b.SetVelocity ⟨-BALL_VELOCITY, 0⟩
               m_playState := PLAY_STATE.TOWARD_PLAYER_ONE }
    else { g with m_ball := b }
  | _ => g

/-- Vertical deflection on a paddle hit, lines 327-330 and 367-370: the new value of
`ballVelocity.y`. -/
def deflectY (ballPos : Vector2D) (paddle : RectangleShape) (vy : ℚ) : ℚ :=
  if ballPos.y + BALL_RADIUS ≤ paddle.y + PADDLE_LENGTH / 3 then
    vy - BALL_VELOCITY / 2
  else if ballPos.y - BALL_RADIUS ≥ paddle.y + PADDLE_LENGTH / 3 * 2 then
    vy + BALL_VELOCITY / 2
  else vy

/-- Amplification of both velocity components, lines 332-340 and 372-380. -/
def amplify (v : Vector2D) : Vector2D :=
  let vx := if v.x > 0 then v.x + BALL_VEL_INCR else v.x - BALL_VEL_INCR
  let vy := if v.y > 0 then v.y + BALL_VEL_INCR else v.y - BALL_VEL_INCR
  ⟨vx, vy⟩

/-- The velocity written on a paddle hit, lines 325-340 and 365-380: reflect x,
deflect y, then amplify. -/
def hitVelocity (ballPos : Vector2D) (paddle : RectangleShape) (ballVelocity : Vector2D) :
    Vector2D :=
  amplify ⟨-ballVelocity.x, deflectY ballPos paddle ballVelocity.y⟩

/-- Second `switch (m_playState)`, lines 314-398. `ballPos` and `ballVelocity` are the
locals of `Update`; the result carries the updated local `ballVelocity` (the local
`ballPos` is never written by this switch). -/
def PongGame.collideStep (g : PongGame) (ballPos ballVelocity : Vector2D) :
    PongGame × Vector2D :=
  let paddle1 := g.m_playerOne.GetPositionSize
  let paddle2 := g.m_playerTwo.GetPositionSize
  match g.m_playState with
  | PLAY_STATE.TOWARD_PLAYER_ONE =>
    if ballPos.x - BALL_RADIUS > paddle1.x + PADDLE_WIDTH then (g, ballVelocity)
    else if ballPos.y + BALL_RADIUS ≥ paddle1.y ∧
        ballPos.y - BALL_RADIUS ≤ paddle1.y + PADDLE_LENGTH then
      let v := hitVelocity ballPos paddle1 ballVelocity
      ({ g with m_ball := (g.m_ball.SetPosition
                  ⟨paddle1.x + PADDLE_WIDTH + BALL_RADIUS + 1, ballPos.y⟩).SetVelocity v
                m_playState := PLAY_STATE.TOWARD_PLAYER_TWO }, v)
    else if ballPos.x + BALL_RADIUS < paddle1.x then
      ({ g with m_playerTwoScore := (g.m_playerTwoScore + 1) % SCORE_MOD
                m_playState := PLAY_STATE.SERVE_PLAYER_ONE }, ballVelocity)
    else (g, ballVelocity)
  | PLAY_STATE.TOWARD_PLAYER_TWO =>
    if ballPos.x + BALL_RADIUS < paddle2.x then (g, ballVelocity)
    else if ballPos.y + BALL_RADIUS ≥ paddle2.y ∧
        ballPos.y - BALL_RADIUS ≤ paddle2.y + PADDLE_LENGTH then
      let v := hitVelocity ballPos paddle2 ballVelocity
      ({ g with m_ball := (g.m_ball.SetPosition
                  ⟨paddle2.x - BALL_RADIUS - 1, ballPos.y⟩).SetVelocity v
                m_playState := PLAY_STATE.TOWARD_PLAYER_ONE }, v)
    else if ballPos.x - BALL_RADIUS > paddle2.x + PADDLE_WIDTH then
      ({ g with m_playerOneScore := (g.m_playerOneScore + 1) % SCORE_MOD
                m_playState := PLAY_STATE.SERVE_PLAYER_TWO }, ballVelocity)
    else (g, ballVelocity)
  | _ => (g, ballVelocity)

/-- Wall bounce, lines 400-409, on the locals `ballPos` and `ballVelocity`. -/
def PongGame.wallStep (g : PongGame) (ballPos ballVelocity : Vector2D) : PongGame :=
  let courtShape := g.m_court.GetDimensions
  if ballPos.y ≤ courtShape.y then
    { g with m_ball := ((g.m_ball.SetPosition ⟨ballPos.x, courtShape.y⟩).SetVelocity
        ⟨ballVelocity.x, -ballVelocity.y⟩) }
  else if ballPos.y ≥ courtShape.y + courtShape.height then
    { g with m_ball := ((g.m_ball.SetPosition
        ⟨ballPos.x, courtShape.y + courtShape.height⟩).SetVelocity
        ⟨ballVelocity.x, -ballVelocity.y⟩) }
  else g

/-- State after paddle movement and the serve switch, lines 258-303. -/
def PongGame.served (g : PongGame) (elapsedMilliseconds : ℚ) (keys : Keys) : PongGame :=
  (g.movePaddles (elapsedMilliseconds / 1000) keys).serveStep keys

/-- The reference `paddle1` of `Update` (line 260) as read after the paddle movement. -/
def PongGame.paddle1 (g : PongGame) (elapsedMilliseconds : ℚ) (keys : Keys) : RectangleShape :=
  (g.served elapsedMilliseconds keys).m_playerOne.GetPositionSize

/-- The reference `paddle2` of `Update` (line 261) as read after the paddle movement. -/
def PongGame.paddle2 (g : PongGame) (elapsedMilliseconds : ℚ) (keys : Keys) : RectangleShape :=
  (g.served elapsedMilliseconds keys).m_playerTwo.GetPositionSize

/-- The local `ballPos` after integration, lines 305-310. -/
def PongGame.ballPos (g : PongGame) (elapsedMilliseconds : ℚ) (keys : Keys) : Vector2D :=
  let s := g.served elapsedMilliseconds keys
  ⟨s.m_ball.GetPosition.x + s.m_ball.GetVelocity.x * (elapsedMilliseconds / 1000),
   s.m_ball.GetPosition.y + s.m_ball.GetVelocity.y * (elapsedMilliseconds / 1000)⟩

/-- State and local `ballVelocity` after the collision and scoring switch, lines 305-398. -/
def PongGame.collided (g : PongGame) (elapsedMilliseconds : ℚ) (keys : Keys) :
    PongGame × Vector2D :=
  let s := g.served elapsedMilliseconds keys
  let ballPos := g.ballPos elapsedMilliseconds keys
  let ballVelocity := s.m_ball.GetVelocity
  PongGame.collideStep { s with m_ball := s.m_ball.SetPosition ballPos } ballPos ballVelocity

/-- Method `PongGame::Update` (lines 256-415): the new game object and the returned
application state. -/
def PongGame.Update (g : PongGame) (elapsedMilliseconds : ℚ) (keys : Keys) :
    PongGame × GAME_STATE :=
  let c := g.collided elapsedMilliseconds keys
  let w := c.1.wallStep (g.ballPos elapsedMilliseconds keys) c.2
  if w.m_playerOneScore ≥ w.m_maxScore ∨ w.m_playerTwoScore ≥ w.m_maxScore then
    (w, GAME_STATE.MENU)
  else (w, GAME_STATE.IN_GAME)

/-! ## Button (lines 433-552) -/

inductive Button.STATE where
  | UP
  | DOWN
  | HOVER
  deriving DecidableEq, Repr

/-- Class `Button`. The stored closure `m_callback` is installed once by the owning
menu; `HandleInput` reports whether it invoked the closure and the owner applies the
closure body (see `PongMenu.Update`). -/
structure Button where
  m_positionAndSize : RectangleShape
  m_state : Button.STATE
  deriving DecidableEq

/-- Constructor `Button::Button` (lines 445-455). -/
def Button.new (positionAndSize : RectangleShape) : Button :=
  { m_positionAndSize := positionAndSize, m_state := Button.STATE.UP }

def Button.GetPositionAndSize (b : Button) : RectangleShape := b.m_positionAndSize

def Button.GetState (b : Button) : Button.STATE := b.m_state

def Button.SetState (b : Button) (newState : Button.STATE) : Button :=
  { b with m_state := newState }

/-- The hit test of `Button::HandleInput`, lines 481-484. -/
def Button.hitTest (b : Button) (mousePosition : Vector2D) : Bool :=
  decide (mousePosition.x ≥ b.m_positionAndSize.x ∧
    mousePosition.x ≤ b.m_positionAndSize.x + b.m_positionAndSize.width ∧
    mousePosition.y ≥ b.m_positionAndSize.y ∧
    mousePosition.y ≤ b.m_positionAndSize.y + b.m_positionAndSize.height)

/-- Method `Button::HandleInput` (lines 479-499). The second component is the returned
`bool`; it is `true` exactly on the path that calls `m_callback()`. -/
def Button.HandleInput (b : Button) (mousePosition : Vector2D) (mouseState : MOUSE_STATE) :
    Button × Bool :=
  let b1 : Button :=
    if b.hitTest mousePosition then { b with m_state := Button.STATE.HOVER }
    else { b with m_state := Button.STATE.UP }
  if mouseState = MOUSE_STATE.DOWN ∧ b1.m_state = Button.STATE.HOVER then
    ({ b1 with m_state := Button.STATE.DOWN }, true)
  else (b1, false)

/-! ## PongMenu (lines 554-610) -/

/-- The three mouse buttons polled by `PongMenu::Update` (lines 573-575). -/
structure MouseButtons where
  Left : Bool
  Middle : Bool
  Right : Bool
  deriving DecidableEq

structure PongMenu where
  m_playButton : Button
  m_exitButton : Button
  m_shouldExit : Bool
  m_shouldStart : Bool
  deriving DecidableEq

/-- Constructor `PongMenu::PongMenu` (lines 557-568). -/
def PongMenu.new : PongMenu :=
  { m_playButton := Button.new
      ⟨((WINDOW_WIDTH / 2 : ℕ) : ℚ), ((WINDOW_HEIGHT / 2 : ℕ) : ℚ), 140, 65⟩
    m_exitButton := Button.new
      ⟨((WINDOW_WIDTH / 2 : ℕ) : ℚ), ((WINDOW_HEIGHT / 2 + 100 : ℕ) : ℚ), 130, 65⟩
    m_shouldExit := false
    m_shouldStart := false }

/-- The sampled `MOUSE_STATE` of `PongMenu::Update`, lines 572-576. -/
def MouseButtons.state (mouse : MouseButtons) : MOUSE_STATE :=
  if mouse.Left ∨ mouse.Middle ∨ mouse.Right then MOUSE_STATE.DOWN else MOUSE_STATE.UP

/-- Method `PongMenu::Update` (lines 570-586). The play button's closure sets
`m_shouldStart`, the exit button's closure sets `m_shouldExit` (lines 566-567); each
runs when its button's `HandleInput` fires. -/
def PongMenu.Update (m : PongMenu) (_elapsedMilliseconds : ℚ) (mousePos : Vector2D)
    (mouse : MouseButtons) : PongMenu × GAME_STATE :=
  let state := mouse.state
  let rp := m.m_playButton.HandleInput mousePos state
  let m1 : PongMenu :=
    { m with m_playButton := rp.1
             m_shouldStart := if rp.2 then true else m.m_shouldStart }
  let re := m1.m_exitButton.HandleInput mousePos state
  let m2 : PongMenu :=
    { m1 with m_exitButton := re.1
              m_shouldExit := if re.2 then true else m1.m_shouldExit }
  if m2.m_shouldExit then (m2, GAME_STATE.EXIT)
  else if m2.m_shouldStart then (m2, GAME_STATE.IN_GAME)
  else (m2, GAME_STATE.MENU)

/-- Method `PongMenu::Reset` (lines 594-598). -/
def PongMenu.Reset (m : PongMenu) : PongMenu :=
  { m with m_shouldExit := false, m_shouldStart := false }

/-! ## Concrete states used as instances -/

/-- A game with threshold 3 and scores (3,1), otherwise as constructed. -/
def game31 : PongGame := { PongGame.new 3 with m_playerOneScore := 3, m_playerTwoScore := 1 }

/-- A game with threshold 3 and scores (2,1), otherwise as constructed. -/
def game21 : PongGame := { PongGame.new 3 with m_playerOneScore := 2, m_playerTwoScore := 1 }

/-- A rally toward player one, the ball about to reach paddle one at mid height. -/
def gameHitOne : PongGame :=
  { PongGame.new 3 with
    m_ball := ⟨⟨45, 450⟩, BALL_RADIUS, ⟨-400, 0⟩⟩
    m_playState := PLAY_STATE.TOWARD_PLAYER_ONE }

/-- A rally toward player two, the ball about to reach paddle two at mid height. -/
def gameHitTwo : PongGame :=
  { PongGame.new 3 with
    m_ball := ⟨⟨1545, 450⟩, BALL_RADIUS, ⟨400, 0⟩⟩
    m_playState := PLAY_STATE.TOWARD_PLAYER_TWO }

/-- A rally toward player one, the ball passing above paddle one, player two's counter
at its maximum. -/
def gameMissOne : PongGame :=
  { PongGame.new 3 with
    m_playerTwoScore := 255
    m_ball := ⟨⟨15, 100⟩, BALL_RADIUS, ⟨-400, 0⟩⟩
    m_playState := PLAY_STATE.TOWARD_PLAYER_ONE }

/-- A rally toward player one, the ball passing above paddle one, scores (0,1). -/
def gamePassOne : PongGame :=
  { PongGame.new 3 with
    m_playerTwoScore := 1
    m_ball := ⟨⟨15, 100⟩, BALL_RADIUS, ⟨-400, 0⟩⟩
    m_playState := PLAY_STATE.TOWARD_PLAYER_ONE }

/-- A rally toward player two, the ball passing above paddle two, scores (1,0). -/
def gamePassTwo : PongGame :=
  { PongGame.new 3 with
    m_playerOneScore := 1
    m_ball := ⟨⟨1585, 100⟩, BALL_RADIUS, ⟨400, 0⟩⟩
    m_playState := PLAY_STATE.TOWARD_PLAYER_TWO }

/-- A rally toward player two in mid court, the ball about to cross the top edge. -/
def gameTop : PongGame :=
  { PongGame.new 3 with
    m_ball := ⟨⟨800, 12⟩, BALL_RADIUS, ⟨460, -260⟩⟩
    m_playState := PLAY_STATE.TOWARD_PLAYER_TWO }

/-- A rally toward player two in mid court, the ball about to cross the bottom edge. -/
def gameBottom : PongGame :=
  { PongGame.new 3 with
    m_ball := ⟨⟨800, 888⟩, BALL_RADIUS, ⟨460, 260⟩⟩
    m_playState := PLAY_STATE.TOWARD_PLAYER_TWO }

/-- The constructed game after player one held the up key for 40 ticks of 33 ms:
paddle one has left the court (y = 425 - 40 * 13.2 = -103), still serving. -/
def gameOffCourt : PongGame :=
  { PongGame.new 3 with m_playerOne := ⟨⟨30, -103, PADDLE_WIDTH, PADDLE_LENGTH⟩⟩ }

/-- The constructed game with player two serving. -/
def gameServeTwo : PongGame :=
  { PongGame.new 3 with m_playState := PLAY_STATE.SERVE_PLAYER_TWO }

/-- A rally toward player one after one deflected return (velocity (-460, -260)), with
paddle one moved up to y = 425 - 32 * 13.2 = 2.6: the ball reaches the paddle and the
top edge of the court in the same tick. -/
def gameCorner : PongGame :=
  { PongGame.new 3 with
    m_ball := ⟨⟨2309 / 50, 12⟩, BALL_RADIUS, ⟨-460, -260⟩⟩
    m_playerOne := ⟨⟨30, 13 / 5, PADDLE_WIDTH, PADDLE_LENGTH⟩⟩
    m_playState := PLAY_STATE.TOWARD_PLAYER_ONE }

/-- A rally toward player one, the ball arriving at the top third of paddle one. -/
def gameHitTop : PongGame :=
  { PongGame.new 3 with
    m_ball := ⟨⟨45, 420⟩, BALL_RADIUS, ⟨-400, 0⟩⟩
    m_playState := PLAY_STATE.TOWARD_PLAYER_ONE }

/-- A rally toward player two, the ball arriving at the bottom third of paddle two. -/
def gameHitLow : PongGame :=
  { PongGame.new 3 with
    m_ball := ⟨⟨1545, 480⟩, BALL_RADIUS, ⟨400, 0⟩⟩
    m_playState := PLAY_STATE.TOWARD_PLAYER_TWO }

/-- A rally toward player two in mid court. -/
def gameRallyTwo : PongGame :=
  { PongGame.new 3 with
    m_ball := ⟨⟨800, 450⟩, BALL_RADIUS, ⟨460, -260⟩⟩
    m_playState := PLAY_STATE.TOWARD_PLAYER_TWO }

/-- A rally toward player one in mid court. -/
def gameRallyOne : PongGame :=
  { PongGame.new 3 with
    m_ball := ⟨⟨800, 450⟩, BALL_RADIUS, ⟨-460, 260⟩⟩
    m_playState := PLAY_STATE.TOWARD_PLAYER_ONE }

/-! ## Application loop (`main`, lines 612-673) -/

/-- The top-level component that one tick of the loop updates. -/
inductive Component where
  | MENU
  | GAME
  deriving DecidableEq, Repr

/-- What one tick polls: the keyboard (inside `PongGame::Update`) and the mouse buttons
(inside `PongMenu::Update`). -/
structure TickInput where
  keys : Keys
  mouse : MouseButtons
  deriving DecidableEq

/-- The locals of `main` that the loop carries: `gameState`, `pong`, `menu`, `frameLag`. -/
structure App where
  gameState : GAME_STATE
  pong : PongGame
  menu : PongMenu
  frameLag : ℚ
  deriving DecidableEq

/-- State of `main` on entering the loop, lines 623-629. -/
def App.new : App :=
  { gameState := GAME_STATE.MENU, pong := PongGame.new 3, menu := PongMenu.new, frameLag := 0 }

/-- Body of the inner `while`, lines 649-657, with the component it updated. -/
def App.tick (a : App) (mousePos : Vector2D) (inp : TickInput) : App × Component :=
  let lag := a.frameLag - UPDATE_MS
  if a.gameState = GAME_STATE.MENU then
    let r := a.menu.Update UPDATE_MS mousePos inp.mouse
    ({ a with frameLag := lag, menu := r.1, gameState := r.2 }, Component.MENU)
  else
    let r := a.pong.Update UPDATE_MS inp.keys
    if r.2 = GAME_STATE.MENU then
      ({ a with frameLag := lag, pong := r.1, gameState := r.2, menu := a.menu.Reset },
        Component.GAME)
    else ({ a with frameLag := lag, pong := r.1, gameState := r.2 }, Component.GAME)

/-- The inner `while (frameLag >= UPDATE_MS)`, lines 647-658, in exact arithmetic: the
state on leaving the loop and the components updated, in order. `inputs i` is what tick
number `i` polls; `mousePos` is sampled once per frame (line 645). The accumulator is a
`float` in the source; `App.tickLoopF32` below follows it in binary32, and the two loops
agree whenever the lag on entry is a whole number of milliseconds below 2^24
(`App.tickLoopF32_eq_tickLoop`), where every subtraction is exact. -/
def App.tickLoop (a : App) (mousePos : Vector2D) (inputs : ℕ → TickInput) (i : ℕ) :
    App × List Component :=
  if a.frameLag ≥ UPDATE_MS then
    let r := a.tick mousePos (inputs i)
    let rest := App.tickLoop r.1 mousePos inputs (i + 1)
    (rest.1, r.2 :: rest.2)
  else (a, [])
termination_by (⌊a.frameLag / UPDATE_MS⌋).toNat
decreasing_by
  rename_i h
  have hl : (a.tick mousePos (inputs i)).1.frameLag = a.frameLag - UPDATE_MS := by
    unfold App.tick; dsimp only; split_ifs <;> rfl
  rw [hl]
  have e : (a.frameLag - UPDATE_MS) / UPDATE_MS = a.frameLag / UPDATE_MS - 1 := by
    unfold UPDATE_MS; ring
  have h1 : (1 : ℤ) ≤ ⌊a.frameLag / UPDATE_MS⌋ := by
    rw [Int.le_floor]; unfold UPDATE_MS at *; push_cast
    rw [le_div_iff₀ (by norm_num)]; linarith
  rw [e, Int.floor_sub_one]
  omega

/-- One iteration of the outer loop up to rendering, lines 640-658: add the elapsed
milliseconds to the accumulator, then run the tick loop. -/
def App.frame (a : App) (elapsed : ℤ) (mousePos : Vector2D) (inputs : ℕ → TickInput) :
    App × List Component :=
  App.tickLoop { a with frameLag := a.frameLag + (elapsed : ℚ) } mousePos inputs 0

/-- States of `main` at the boundaries of ticks: the initial state, the state after
adding a frame's elapsed time (the previous tick loop has ended and the outer loop
condition `gameState != EXIT` held), and the state after a tick of the inner loop. -/
inductive App.Reachable : App → Prop where
  | init : App.Reachable App.new
  | frame (a : App) (elapsed : ℤ) : App.Reachable a → a.frameLag < UPDATE_MS →
      a.gameState ≠ GAME_STATE.EXIT →
      App.Reachable { a with frameLag := a.frameLag + (elapsed : ℚ) }
  | tick (a : App) (mousePos : Vector2D) (inp : TickInput) : App.Reachable a →
      a.frameLag ≥ UPDATE_MS → App.Reachable (a.tick mousePos inp).1

/-! ## Runs of repeated calls -/

/-- Consecutive `HandleInput` calls on one button, with the number of calls that invoked
the callback. -/
def Button.presses (b : Button) : List (Vector2D × MOUSE_STATE) → Button × ℕ
  | [] => (b, 0)
  | inp :: rest =>
    let r := b.HandleInput inp.1 inp.2
    let r2 := Button.presses r.1 rest
    (r2.1, (if r.2 then 1 else 0) + r2.2)

/-- Consecutive `Update` calls on one game object, with the returned states in order. -/
def PongGame.run (g : PongGame) : List (ℚ × Keys) → PongGame × List GAME_STATE
  | [] => (g, [])
  | inp :: rest =>
    let r := g.Update inp.1 inp.2
    let r2 := PongGame.run r.1 rest
    (r2.1, r.2 :: r2.2)

/-- Whether the tick executes a paddle-hit branch (lines 321-346 or 361-386): those are
the only places where the second switch takes a Toward phase to the other Toward phase. -/
def PongGame.hit (g : PongGame) (t : ℚ) (k : Keys) : Bool :=
  decide (((g.served t k).m_playState = PLAY_STATE.TOWARD_PLAYER_ONE ∧
      (g.collided t k).1.m_playState = PLAY_STATE.TOWARD_PLAYER_TWO) ∨
    ((g.served t k).m_playState = PLAY_STATE.TOWARD_PLAYER_TWO ∧
      (g.collided t k).1.m_playState = PLAY_STATE.TOWARD_PLAYER_ONE))

/-- Paddle hits of the current rally after one more tick, given `n` hits before it: a
serve launched in this tick (the first switch changed the phase) starts the count at 0,
and a hit in this tick adds one. -/
def PongGame.rallyHits (g : PongGame) (n : ℕ) (t : ℚ) (k : Keys) : ℕ :=
  (if (g.served t k).m_playState = g.m_playState then n else 0) +
    (if g.hit t k then 1 else 0)

/-- Consecutive `Update` calls with the hit count of the current rally. -/
def PongGame.runRally (g : PongGame) (n : ℕ) : List (ℚ × Keys) → PongGame × ℕ
  | [] => (g, n)
  | inp :: rest =>
    PongGame.runRally (g.Update inp.1 inp.2).1 (g.rallyHits n inp.1 inp.2) rest

/-- Input of a tick in which nothing is held. -/
def TickInput.none : TickInput := ⟨Keys.none, ⟨false, false, false⟩⟩

/-- Input of a tick in which only the left mouse button is held. -/
def TickInput.leftPress : TickInput := ⟨Keys.none, ⟨true, false, false⟩⟩

/-- The loop state entered in the menu with 66 ms of accumulated lag (two ticks). -/
def appLag66 : App := { App.new with frameLag := 66 }

/-- A finished match (threshold 3) with player one's counter at 254, below its maximum,
the ball passing above paddle two. -/
def gameNearWrap : PongGame :=
  { PongGame.new 3 with
    m_playerOneScore := 254
    m_ball := ⟨⟨1585, 100⟩, BALL_RADIUS, ⟨400, 0⟩⟩
    m_playState := PLAY_STATE.TOWARD_PLAYER_TWO }

/-- A finished match (3,1) left in the serving phase, as the loop leaves it. -/
def appFinished : App :=
  { gameState := GAME_STATE.IN_GAME, pong := game31, menu := PongMenu.new, frameLag := 33 }

/-- Agreement of the horizontal velocity with the phase after `n` paddle hits of the
current rally. -/
def rallyInv (phase : PLAY_STATE) (vx : ℚ) (n : ℕ) : Prop :=
  (phase = PLAY_STATE.TOWARD_PLAYER_ONE → vx = -(BALL_VELOCITY + n * BALL_VEL_INCR)) ∧
  (phase = PLAY_STATE.TOWARD_PLAYER_TWO → vx = BALL_VELOCITY + n * BALL_VEL_INCR)

/-! ## Single-precision arithmetic

The `float` locals whose rounding is observable (the paddle coordinates and the lag
accumulator of `main`) are followed in IEEE 754 binary32, round to nearest, ties to
even, as a function on the rationals. Results beyond the largest finite binary32 value
(overflow to infinity) are outside the model. -/

/-- Nearest integer, ties to the even one. -/
def roundHalfEven (x : ℚ) : ℤ :=
  if x - ⌊x⌋ < 1 / 2 then ⌊x⌋
  else if x - ⌊x⌋ > 1 / 2 then ⌊x⌋ + 1
  else if ⌊x⌋ % 2 = 0 then ⌊x⌋
  else ⌊x⌋ + 1

/-- Spacing of the binary32 values around `q`: 24 significant bits, the exponent not
below that of the smallest normal number. -/
def ulpF32 (q : ℚ) : ℚ := 2 ^ (max (Int.log 2 |q|) (-126) - 23)

/-- The binary32 value nearest to `q`. -/
def roundF32 (q : ℚ) : ℚ :=
  if q = 0 then 0 else (roundHalfEven (q / ulpF32 q) : ℚ) * ulpF32 q

/-- Operator `-` on `float`. -/
def F32.sub (a b : ℚ) : ℚ := roundF32 (a - b)

/-- Body of the inner `while`, lines 649-657, with the accumulator in binary32
(`float frameLag`, line 629): as `App.tick`, the subtraction `frameLag -= UPDATE_MS`
rounded. -/
def App.tickF32 (a : App) (mousePos : Vector2D) (inp : TickInput) : App × Component :=
  let r := a.tick mousePos inp
  ({ r.1 with frameLag := F32.sub a.frameLag UPDATE_MS }, r.2)

/-- The inner `while (frameLag >= UPDATE_MS)`, lines 647-658, with the accumulator in
binary32. `fuel` bounds the number of evaluations of the loop condition; `none` means
the loop has not exited within that bound. -/
def App.tickLoopF32 : ℕ → App → Vector2D → (ℕ → TickInput) → ℕ →
    Option (App × List Component)
  | 0, _, _, _, _ => none
  | fuel + 1, a, mousePos, inputs, i =>
    if a.frameLag ≥ UPDATE_MS then
      match App.tickLoopF32 fuel (a.tickF32 mousePos (inputs i)).1 mousePos inputs (i + 1) with
      | some rest => some (rest.1, (a.tickF32 mousePos (inputs i)).2 :: rest.2)
      | none => none
    else some (a, [])

/-- The loop state entered with a lag of 2^30 + 128 ms (a binary32 value; about twelve
days, as after a suspend or a change of the system clock), otherwise initial. -/
def appLagHuge : App := { App.new with frameLag := 2 ^ 30 + 128 }

/-- The loop state entered with 70 ms of accumulated lag, otherwise initial. -/
def appLag70 : App := { App.new with frameLag := 70 }

/-! ## Reachable game states and a whole match -/

/-- States of a game object: as constructed, then after any number of `Update` calls
with any tick durations and key inputs. The members are private and `Update` is the
only method that writes them. -/
inductive PongGame.Reachable : PongGame → Prop where
  | init (scoreToWin : ℕ) : PongGame.Reachable (PongGame.new scoreToWin)
  | step (g : PongGame) (t : ℚ) (k : Keys) : PongGame.Reachable g →
      PongGame.Reachable (g.Update t k).1

/-- Only the down key of paddle two held. -/
def Keys.period : Keys := ⟨false, false, false, true, false⟩

/-- The serve key and the down key of paddle two held. -/
def Keys.servePeriod : Keys := ⟨false, false, false, true, true⟩

/-- The serve key and the up key of paddle two held. -/
def Keys.serveP : Keys := ⟨false, false, true, false, true⟩

/-- A state of the game constructed with threshold 3 in which paddle one has not moved
and the ball moves horizontally: the scores, the y of paddle two, the ball's position
and x velocity, the phase. -/
def matchState (s1 s2 : ℕ) (y2 x y vx : ℚ) (phase : PLAY_STATE) : PongGame :=
  { PongGame.new 3 with
    m_playerOneScore := s1
    m_playerTwoScore := s2
    m_playerTwo := ⟨⟨1560, y2, PADDLE_WIDTH, PADDLE_LENGTH⟩⟩
    m_ball := ⟨⟨x, y⟩, BALL_RADIUS, ⟨vx, 0⟩⟩
    m_playState := phase }

/-- Ticks of 33 ms with the given keys, as inputs of `PongGame.run`. -/
def ticks (ks : List Keys) : List (ℚ × Keys) := ks.map (fun k => (33, k))

/-- Keys of a serve by player one that paddle two lets pass, from the constructed game:
paddle two moves down for three ticks, the ball crosses the court and leaves paddle two
behind on the last tick. -/
def keysFirstAce : List Keys :=
  [Keys.servePeriod, Keys.period, Keys.period] ++ List.replicate 113 Keys.none ++ [Keys.none]

/-- Keys of a serve by player one up to the tick before the ball reaches paddle two,
which still stands at mid height. -/
def keysToPaddleTwo : List Keys := Keys.serve :: List.replicate 113 Keys.none

/-- Keys of a point lost by paddle two followed by player two's serve, paddle two
moving up by one step, up to the tick before the ball reaches paddle one. -/
def keysToPaddleOne : List Keys :=
  keysFirstAce ++ [Keys.serveP] ++ List.replicate 112 Keys.none

/-- The game on the tick before the first serve reaches paddle two. -/
def gameAtPaddleTwo : PongGame := ((PongGame.new 3).run (ticks keysToPaddleTwo)).1

/-- The game on the tick before player two's first serve reaches paddle one. -/
def gameAtPaddleOne : PongGame := ((PongGame.new 3).run (ticks keysToPaddleOne)).1

/-- Keys of a match of five serves none of which is returned, up to the tick before the
last point: player one and player two score in turn. -/
def keysMatch : List Keys :=
  keysFirstAce ++
  (Keys.serve :: List.replicate 114 Keys.none ++ [Keys.none]) ++
  (Keys.serve :: List.replicate 115 Keys.none ++ [Keys.none]) ++
  (Keys.serve :: List.replicate 114 Keys.none ++ [Keys.none]) ++
  (Keys.serve :: List.replicate 115 Keys.none)

/-- Consecutive frames of 33 ms, each entered without lag and so running one tick, with
the pointer at `mousePos`; `inputs` are what the ticks poll, in order. -/
def App.frames (a : App) (mousePos : Vector2D) : List TickInput → App
  | [] => a
  | inp :: rest => App.frames (a.frame 33 mousePos (fun _ => inp)).1 mousePos rest

/-- Inputs of a whole session: a press on the play button, then the keys of the match
with no mouse button held. -/
def inputsMatch : List TickInput :=
  TickInput.leftPress :: keysMatch.map (fun k => ⟨k, ⟨false, false, false⟩⟩)

/-- The loop state on the tick before the last point of the match: in the game, the
menu still holding the fired play flag. -/
def appMatchPoint : App := App.new.frames ⟨810, 460⟩ inputsMatch

/-- The loop state after the last point: the game has returned MENU and the loop has
reset the menu. -/
def appMatchEnd : App := appMatchPoint.frames ⟨810, 460⟩ [TickInput.none]

/-! ## Frame lemmas for the steps of `Update` -/

section Frames

variable (g : PongGame) (t : ℚ) (k : Keys) (p v : Vector2D)

@[simp] lemma movePaddles_playState : (g.movePaddles t k).m_playState = g.m_playState := by
  unfold PongGame.movePaddles; dsimp only; split_ifs <;> rfl

@[simp] lemma movePaddles_ball : (g.movePaddles t k).m_ball = g.m_ball := by
  unfold PongGame.movePaddles; dsimp only; split_ifs <;> rfl

@[simp] lemma movePaddles_court : (g.movePaddles t k).m_court = g.m_court := by
  unfold PongGame.movePaddles; dsimp only; split_ifs <;> rfl

@[simp] lemma movePaddles_maxScore : (g.movePaddles t k).m_maxScore = g.m_maxScore := by
  unfold PongGame.movePaddles; dsimp only; split_ifs <;> rfl

@[simp] lemma movePaddles_scoreOne :
    (g.movePaddles t k).m_playerOneScore = g.m_playerOneScore := by
  unfold PongGame.movePaddles; dsimp only; split_ifs <;> rfl

@[simp] lemma movePaddles_scoreTwo :
    (g.movePaddles t k).m_playerTwoScore = g.m_playerTwoScore := by
  unfold PongGame.movePaddles; dsimp only; split_ifs <;> rfl

@[simp] lemma serveStep_court : (g.serveStep k).m_court = g.m_court := by
  unfold PongGame.serveStep; split <;> (try dsimp only) <;> (try split_ifs) <;> rfl

@[simp] lemma serveStep_maxScore : (g.serveStep k).m_maxScore = g.m_maxScore := by
  unfold PongGame.serveStep; split <;> (try dsimp only) <;> (try split_ifs) <;> rfl

@[simp] lemma serveStep_scoreOne : (g.serveStep k).m_playerOneScore = g.m_playerOneScore := by
  unfold PongGame.serveStep; split <;> (try dsimp only) <;> (try split_ifs) <;> rfl

@[simp] lemma serveStep_scoreTwo : (g.serveStep k).m_playerTwoScore = g.m_playerTwoScore := by
  unfold PongGame.serveStep; split <;> (try dsimp only) <;> (try split_ifs) <;> rfl

@[simp] lemma serveStep_playerOne : (g.serveStep k).m_playerOne = g.m_playerOne := by
  unfold PongGame.serveStep; split <;> (try dsimp only) <;> (try split_ifs) <;> rfl

@[simp] lemma serveStep_playerTwo : (g.serveStep k).m_playerTwo = g.m_playerTwo := by
  unfold PongGame.serveStep; split <;> (try dsimp only) <;> (try split_ifs) <;> rfl

@[simp] lemma collideStep_court : (g.collideStep p v).1.m_court = g.m_court := by
  unfold PongGame.collideStep; dsimp only; split <;> (try split_ifs) <;> rfl

@[simp] lemma collideStep_maxScore : (g.collideStep p v).1.m_maxScore = g.m_maxScore := by
  unfold PongGame.collideStep; dsimp only; split <;> (try split_ifs) <;> rfl

@[simp] lemma collideStep_playerOne : (g.collideStep p v).1.m_playerOne = g.m_playerOne := by
  unfold PongGame.collideStep; dsimp only; split <;> (try split_ifs) <;> rfl

@[simp] lemma collideStep_playerTwo : (g.collideStep p v).1.m_playerTwo = g.m_playerTwo := by
  unfold PongGame.collideStep; dsimp only; split <;> (try split_ifs) <;> rfl

@[simp] lemma wallStep_court : (g.wallStep p v).m_court = g.m_court := by
  unfold PongGame.wallStep; dsimp only; split_ifs <;> rfl

@[simp] lemma wallStep_maxScore : (g.wallStep p v).m_maxScore = g.m_maxScore := by
  unfold PongGame.wallStep; dsimp only; split_ifs <;> rfl

@[simp] lemma wallStep_scoreOne : (g.wallStep p v).m_playerOneScore = g.m_playerOneScore := by
  unfold PongGame.wallStep; dsimp only; split_ifs <;> rfl

@[simp] lemma wallStep_scoreTwo : (g.wallStep p v).m_playerTwoScore = g.m_playerTwoScore := by
  unfold PongGame.wallStep; dsimp only; split_ifs <;> rfl

@[simp] lemma wallStep_playState : (g.wallStep p v).m_playState = g.m_playState := by
  unfold PongGame.wallStep; dsimp only; split_ifs <;> rfl

@[simp] lemma wallStep_playerOne : (g.wallStep p v).m_playerOne = g.m_playerOne := by
  unfold PongGame.wallStep; dsimp only; split_ifs <;> rfl

@[simp] lemma wallStep_playerTwo : (g.wallStep p v).m_playerTwo = g.m_playerTwo := by
  unfold PongGame.wallStep; dsimp only; split_ifs <;> rfl

/-- The game object returned by `Update` is the wall step applied to the collided state. -/
lemma Update_fst : (g.Update t k).1 =
    (g.collided t k).1.wallStep (g.ballPos t k) (g.collided t k).2 := by
  unfold PongGame.Update; simp only []; split_ifs <;> rfl

lemma Update_maxScore : (g.Update t k).1.m_maxScore = g.m_maxScore := by
  rw [Update_fst]; simp [PongGame.collided, PongGame.served]

end Frames

/-- C1: `Update` returns MENU exactly when, on the scores left by the tick, player one
or player two has reached the win threshold, returns IN_GAME otherwise and never EXIT;
with threshold 3 and no point scored in the tick, (3,1) gives MENU and (2,1) IN_GAME. -/
theorem Update_win_check (g : PongGame) (t : ℚ) (k : Keys) :
    ((g.Update t k).2 = GAME_STATE.MENU ↔
      ((g.Update t k).1.m_playerOneScore ≥ g.m_maxScore ∨
       (g.Update t k).1.m_playerTwoScore ≥ g.m_maxScore)) ∧
    ((g.Update t k).2 = GAME_STATE.IN_GAME ↔
      ¬ ((g.Update t k).1.m_playerOneScore ≥ g.m_maxScore ∨
         (g.Update t k).1.m_playerTwoScore ≥ g.m_maxScore)) ∧
    (g.Update t k).2 ≠ GAME_STATE.EXIT ∧
    (g.m_maxScore = 3 → g.m_playerOneScore = 3 → g.m_playerTwoScore = 1 →
      (g.Update t k).1.m_playerOneScore = g.m_playerOneScore →
      (g.Update t k).1.m_playerTwoScore = g.m_playerTwoScore →
      (g.Update t k).2 = GAME_STATE.MENU) ∧
    (g.m_maxScore = 3 → g.m_playerOneScore = 2 → g.m_playerTwoScore = 1 →
      (g.Update t k).1.m_playerOneScore = g.m_playerOneScore →
      (g.Update t k).1.m_playerTwoScore = g.m_playerTwoScore →
      (g.Update t k).2 = GAME_STATE.IN_GAME) := by
  have hmax := Update_maxScore g t k
  have key : ((g.Update t k).2 = GAME_STATE.MENU ↔
      ((g.Update t k).1.m_playerOneScore ≥ g.m_maxScore ∨
       (g.Update t k).1.m_playerTwoScore ≥ g.m_maxScore)) ∧
    ((g.Update t k).2 = GAME_STATE.IN_GAME ↔
      ¬ ((g.Update t k).1.m_playerOneScore ≥ g.m_maxScore ∨
         (g.Update t k).1.m_playerTwoScore ≥ g.m_maxScore)) ∧
    (g.Update t k).2 ≠ GAME_STATE.EXIT := by
    rw [← hmax]
    unfold PongGame.Update
    dsimp only
    split_ifs with h
    · simp only [wallStep_scoreOne, wallStep_scoreTwo, wallStep_maxScore] at h ⊢
      tauto
    · simp only [wallStep_scoreOne, wallStep_scoreTwo, wallStep_maxScore] at h ⊢
      tauto
  refine ⟨key.1, key.2.1, key.2.2, ?_, ?_⟩
  · intro h3 h1 _ e1 _
    exact key.1.mpr (Or.inl (by omega))
  · intro h3 h1 h2 e1 e2
    exact key.2.1.mpr (by omega)

/-! ## Lemmas on the steps of one tick -/

section Steps

variable (g s : PongGame) (t : ℚ) (k : Keys) (p v : Vector2D)

lemma served_toward_one (h : g.m_playState = PLAY_STATE.TOWARD_PLAYER_ONE) :
    g.served t k = g.movePaddles (t / 1000) k := by
  unfold PongGame.served PongGame.serveStep; simp [h]

lemma served_toward_two (h : g.m_playState = PLAY_STATE.TOWARD_PLAYER_TWO) :
    g.served t k = g.movePaddles (t / 1000) k := by
  unfold PongGame.served PongGame.serveStep; simp [h]

lemma collideStep_hit_one (hp : s.m_playState = PLAY_STATE.TOWARD_PLAYER_ONE)
    (hr : p.x - BALL_RADIUS ≤ s.m_playerOne.GetPositionSize.x + PADDLE_WIDTH)
    (h1 : p.y + BALL_RADIUS ≥ s.m_playerOne.GetPositionSize.y)
    (h2 : p.y - BALL_RADIUS ≤ s.m_playerOne.GetPositionSize.y + PADDLE_LENGTH) :
    s.collideStep p v =
      ({ s with m_ball := ((s.m_ball.SetPosition
                  ⟨s.m_playerOne.GetPositionSize.x + PADDLE_WIDTH + BALL_RADIUS + 1,
                   p.y⟩).SetVelocity (hitVelocity p s.m_playerOne.GetPositionSize v))
                m_playState := PLAY_STATE.TOWARD_PLAYER_TWO },
       hitVelocity p s.m_playerOne.GetPositionSize v) := by
  unfold PongGame.collideStep
  simp only [hp]
  rw [if_neg (not_lt.mpr hr), if_pos ⟨h1, h2⟩]

lemma collideStep_hit_two (hp : s.m_playState = PLAY_STATE.TOWARD_PLAYER_TWO)
    (hr : p.x + BALL_RADIUS ≥ s.m_playerTwo.GetPositionSize.x)
    (h1 : p.y + BALL_RADIUS ≥ s.m_playerTwo.GetPositionSize.y)
    (h2 : p.y - BALL_RADIUS ≤ s.m_playerTwo.GetPositionSize.y + PADDLE_LENGTH) :
    s.collideStep p v =
      ({ s with m_ball := ((s.m_ball.SetPosition
                  ⟨s.m_playerTwo.GetPositionSize.x - BALL_RADIUS - 1,
                   p.y⟩).SetVelocity (hitVelocity p s.m_playerTwo.GetPositionSize v))
                m_playState := PLAY_STATE.TOWARD_PLAYER_ONE },
       hitVelocity p s.m_playerTwo.GetPositionSize v) := by
  unfold PongGame.collideStep
  simp only [hp]
  rw [if_neg (not_lt.mpr hr), if_pos ⟨h1, h2⟩]

/-- After the collision switch the ball's stored velocity is the local `ballVelocity`. -/
lemma collideStep_velocity (h : s.m_ball.m_velocity = v) :
    (s.collideStep p v).1.m_ball.m_velocity = (s.collideStep p v).2 := by
  unfold PongGame.collideStep; dsimp only
  split <;> (try split_ifs) <;> simp [h, Ball.SetVelocity]

lemma collided_velocity :
    (g.collided t k).1.m_ball.m_velocity = (g.collided t k).2 := by
  unfold PongGame.collided; dsimp only
  exact collideStep_velocity _ _ _ rfl

/-- The wall step either leaves the ball alone or writes the local velocity with its
y component negated. -/
lemma wallStep_velocity (h : s.m_ball.m_velocity = v) :
    (s.wallStep p v).m_ball.m_velocity.x = v.x ∧
    ((s.wallStep p v).m_ball.m_velocity.y = v.y ∨
     (s.wallStep p v).m_ball.m_velocity.y = -v.y) := by
  unfold PongGame.wallStep; dsimp only
  split_ifs <;> simp [h, Ball.SetVelocity, Ball.SetPosition]

lemma amplify_x_abs : |(amplify v).x| = |v.x| + BALL_VEL_INCR := by
  unfold amplify BALL_VEL_INCR; dsimp only
  split_ifs with h
  · rw [abs_of_pos h, abs_of_pos (by linarith)]
  · have h0 : v.x ≤ 0 := not_lt.mp h
    rw [abs_of_nonpos h0, abs_of_neg (by linarith)]; ring

lemma amplify_y_abs : |(amplify v).y| = |v.y| + BALL_VEL_INCR := by
  unfold amplify BALL_VEL_INCR; dsimp only
  split_ifs with h
  · rw [abs_of_pos h, abs_of_pos (by linarith)]
  · have h0 : v.y ≤ 0 := not_lt.mp h
    rw [abs_of_nonpos h0, abs_of_neg (by linarith)]; ring

lemma amplify_x_pos (h : 0 < v.x) : 0 < (amplify v).x := by
  unfold amplify BALL_VEL_INCR; dsimp only; rw [if_pos h]; linarith

lemma amplify_x_nonpos (h : v.x ≤ 0) : (amplify v).x = v.x - BALL_VEL_INCR := by
  unfold amplify; dsimp only; rw [if_neg (not_lt.mpr h)]

/-- The deflected y velocity is the old one plus one of the three deflection terms. -/
lemma deflectY_cases (r : RectangleShape) (vy : ℚ) :
    ∃ d : ℚ, (d = -(BALL_VELOCITY / 2) ∨ d = 0 ∨ d = BALL_VELOCITY / 2) ∧
      deflectY p r vy = vy + d := by
  unfold deflectY
  split_ifs
  · exact ⟨-(BALL_VELOCITY / 2), Or.inl rfl, by ring⟩
  · exact ⟨BALL_VELOCITY / 2, Or.inr (Or.inr rfl), rfl⟩
  · exact ⟨0, Or.inr (Or.inl rfl), by ring⟩

@[simp] lemma served_scoreOne : (g.served t k).m_playerOneScore = g.m_playerOneScore := by
  simp [PongGame.served]

@[simp] lemma served_scoreTwo : (g.served t k).m_playerTwoScore = g.m_playerTwoScore := by
  simp [PongGame.served]

@[simp] lemma served_maxScore : (g.served t k).m_maxScore = g.m_maxScore := by
  simp [PongGame.served]

@[simp] lemma served_court : (g.served t k).m_court = g.m_court := by
  simp [PongGame.served]

lemma served_playState_toward_one (h : g.m_playState = PLAY_STATE.TOWARD_PLAYER_ONE) :
    (g.served t k).m_playState = PLAY_STATE.TOWARD_PLAYER_ONE := by
  rw [served_toward_one g t k h]; simp [h]

lemma served_playState_toward_two (h : g.m_playState = PLAY_STATE.TOWARD_PLAYER_TWO) :
    (g.served t k).m_playState = PLAY_STATE.TOWARD_PLAYER_TWO := by
  rw [served_toward_two g t k h]; simp [h]

lemma served_ball_toward_one (h : g.m_playState = PLAY_STATE.TOWARD_PLAYER_ONE) :
    (g.served t k).m_ball = g.m_ball := by
  rw [served_toward_one g t k h]; simp

lemma served_ball_toward_two (h : g.m_playState = PLAY_STATE.TOWARD_PLAYER_TWO) :
    (g.served t k).m_ball = g.m_ball := by
  rw [served_toward_two g t k h]; simp

/-- A paddle-one hit, seen from `Update`: local velocity, phase, stored position and
scores after the collision switch. -/
lemma collided_hit_one (hp : g.m_playState = PLAY_STATE.TOWARD_PLAYER_ONE)
    (hr : (g.ballPos t k).x - BALL_RADIUS ≤ (g.paddle1 t k).x + PADDLE_WIDTH)
    (h1 : (g.ballPos t k).y + BALL_RADIUS ≥ (g.paddle1 t k).y)
    (h2 : (g.ballPos t k).y - BALL_RADIUS ≤ (g.paddle1 t k).y + PADDLE_LENGTH) :
    (g.collided t k).2 = hitVelocity (g.ballPos t k) (g.paddle1 t k) g.m_ball.GetVelocity ∧
    (g.collided t k).1.m_playState = PLAY_STATE.TOWARD_PLAYER_TWO ∧
    (g.collided t k).1.m_ball.m_position =
      ⟨(g.paddle1 t k).x + PADDLE_WIDTH + BALL_RADIUS + 1, (g.ballPos t k).y⟩ ∧
    (g.collided t k).1.m_playerOneScore = g.m_playerOneScore ∧
    (g.collided t k).1.m_playerTwoScore = g.m_playerTwoScore := by
  have key := collideStep_hit_one
    { g.served t k with m_ball := (g.served t k).m_ball.SetPosition (g.ballPos t k) }
    (g.ballPos t k) (g.served t k).m_ball.GetVelocity
    (served_playState_toward_one g t k hp) hr h1 h2
  unfold PongGame.collided; dsimp only
  rw [key]
  simp only [served_ball_toward_one g t k hp]
  simp [PongGame.paddle1, Ball.SetPosition, Ball.SetVelocity]

/-- A paddle-two hit, seen from `Update`. -/
lemma collided_hit_two (hp : g.m_playState = PLAY_STATE.TOWARD_PLAYER_TWO)
    (hr : (g.ballPos t k).x + BALL_RADIUS ≥ (g.paddle2 t k).x)
    (h1 : (g.ballPos t k).y + BALL_RADIUS ≥ (g.paddle2 t k).y)
    (h2 : (g.ballPos t k).y - BALL_RADIUS ≤ (g.paddle2 t k).y + PADDLE_LENGTH) :
    (g.collided t k).2 = hitVelocity (g.ballPos t k) (g.paddle2 t k) g.m_ball.GetVelocity ∧
    (g.collided t k).1.m_playState = PLAY_STATE.TOWARD_PLAYER_ONE ∧
    (g.collided t k).1.m_ball.m_position =
      ⟨(g.paddle2 t k).x - BALL_RADIUS - 1, (g.ballPos t k).y⟩ ∧
    (g.collided t k).1.m_playerOneScore = g.m_playerOneScore ∧
    (g.collided t k).1.m_playerTwoScore = g.m_playerTwoScore := by
  have key := collideStep_hit_two
    { g.served t k with m_ball := (g.served t k).m_ball.SetPosition (g.ballPos t k) }
    (g.ballPos t k) (g.served t k).m_ball.GetVelocity
    (served_playState_toward_two g t k hp) hr h1 h2
  unfold PongGame.collided; dsimp only
  rw [key]
  simp only [served_ball_toward_two g t k hp]
  simp [PongGame.paddle2, Ball.SetPosition, Ball.SetVelocity]

/-- Velocity left by `Update` in terms of the local velocity of the collision switch. -/
lemma Update_velocity :
    (g.Update t k).1.m_ball.GetVelocity.x = (g.collided t k).2.x ∧
    ((g.Update t k).1.m_ball.GetVelocity.y = (g.collided t k).2.y ∨
     (g.Update t k).1.m_ball.GetVelocity.y = -(g.collided t k).2.y) := by
  rw [Update_fst]
  exact wallStep_velocity _ _ _ (collided_velocity g t k)

lemma Update_playState : (g.Update t k).1.m_playState = (g.collided t k).1.m_playState := by
  rw [Update_fst]; simp

lemma Update_scoreOne :
    (g.Update t k).1.m_playerOneScore = (g.collided t k).1.m_playerOneScore := by
  rw [Update_fst]; simp

lemma Update_scoreTwo :
    (g.Update t k).1.m_playerTwoScore = (g.collided t k).1.m_playerTwoScore := by
  rw [Update_fst]; simp

/-- What a hit leaves in the velocity, for either paddle `r`. -/
lemma hitVelocity_spec (r : RectangleShape) :
    (v.x < 0 → 0 < (hitVelocity p r v).x) ∧
    (0 < v.x → (hitVelocity p r v).x < 0) ∧
    (v.x = 0 → (hitVelocity p r v).x = -BALL_VEL_INCR) ∧
    |(hitVelocity p r v).x| = |v.x| + BALL_VEL_INCR ∧
    ∃ d : ℚ, (d = -(BALL_VELOCITY / 2) ∨ d = 0 ∨ d = BALL_VELOCITY / 2) ∧
      |(hitVelocity p r v).y| = |v.y + d| + BALL_VEL_INCR := by
  unfold hitVelocity
  refine ⟨?_, ?_, ?_, ?_, ?_⟩
  · intro h; exact amplify_x_pos _ (by simpa using h)
  · intro h
    rw [amplify_x_nonpos _ (by simp; linarith)]
    simp [BALL_VEL_INCR]; linarith
  · intro h
    rw [amplify_x_nonpos _ (by simp [h])]
    simp [h]
  · rw [amplify_x_abs]; simp
  · obtain ⟨d, hd, he⟩ := deflectY_cases p r v.y
    exact ⟨d, hd, by rw [amplify_y_abs]; simp [he]⟩

lemma collideStep_miss_one (hp : s.m_playState = PLAY_STATE.TOWARD_PLAYER_ONE)
    (hx : p.x + BALL_RADIUS < s.m_playerOne.GetPositionSize.x)
    (hno : ¬ (p.y + BALL_RADIUS ≥ s.m_playerOne.GetPositionSize.y ∧
      p.y - BALL_RADIUS ≤ s.m_playerOne.GetPositionSize.y + PADDLE_LENGTH)) :
    s.collideStep p v =
      ({ s with m_playerTwoScore := (s.m_playerTwoScore + 1) % SCORE_MOD
                m_playState := PLAY_STATE.SERVE_PLAYER_ONE }, v) := by
  have hr : ¬ (p.x - BALL_RADIUS > s.m_playerOne.GetPositionSize.x + PADDLE_WIDTH) := by
    unfold BALL_RADIUS PADDLE_WIDTH at *; linarith
  unfold PongGame.collideStep
  simp only [hp]
  rw [if_neg hr, if_neg hno, if_pos hx]

lemma collideStep_miss_two (hp : s.m_playState = PLAY_STATE.TOWARD_PLAYER_TWO)
    (hx : p.x - BALL_RADIUS > s.m_playerTwo.GetPositionSize.x + PADDLE_WIDTH)
    (hno : ¬ (p.y + BALL_RADIUS ≥ s.m_playerTwo.GetPositionSize.y ∧
      p.y - BALL_RADIUS ≤ s.m_playerTwo.GetPositionSize.y + PADDLE_LENGTH)) :
    s.collideStep p v =
      ({ s with m_playerOneScore := (s.m_playerOneScore + 1) % SCORE_MOD
                m_playState := PLAY_STATE.SERVE_PLAYER_TWO }, v) := by
  have hr : ¬ (p.x + BALL_RADIUS < s.m_playerTwo.GetPositionSize.x) := by
    unfold BALL_RADIUS PADDLE_WIDTH at *; linarith
  unfold PongGame.collideStep
  simp only [hp]
  rw [if_neg hr, if_neg hno, if_pos hx]

/-- A miss at paddle one, seen from `Update`: scores and phase after the tick. -/
lemma Update_miss_one (hp : g.m_playState = PLAY_STATE.TOWARD_PLAYER_ONE)
    (hx : (g.ballPos t k).x + BALL_RADIUS < (g.paddle1 t k).x)
    (hno : ¬ ((g.ballPos t k).y + BALL_RADIUS ≥ (g.paddle1 t k).y ∧
      (g.ballPos t k).y - BALL_RADIUS ≤ (g.paddle1 t k).y + PADDLE_LENGTH)) :
    (g.Update t k).1.m_playerTwoScore = (g.m_playerTwoScore + 1) % SCORE_MOD ∧
    (g.Update t k).1.m_playerOneScore = g.m_playerOneScore ∧
    (g.Update t k).1.m_playState = PLAY_STATE.SERVE_PLAYER_ONE := by
  have key := collideStep_miss_one
    { g.served t k with m_ball := (g.served t k).m_ball.SetPosition (g.ballPos t k) }
    (g.ballPos t k) (g.served t k).m_ball.GetVelocity
    (served_playState_toward_one g t k hp) hx hno
  rw [Update_scoreTwo, Update_scoreOne, Update_playState]
  unfold PongGame.collided; dsimp only
  rw [key]
  simp

/-- A miss at paddle two, seen from `Update`. -/
lemma Update_miss_two (hp : g.m_playState = PLAY_STATE.TOWARD_PLAYER_TWO)
    (hx : (g.ballPos t k).x - BALL_RADIUS > (g.paddle2 t k).x + PADDLE_WIDTH)
    (hno : ¬ ((g.ballPos t k).y + BALL_RADIUS ≥ (g.paddle2 t k).y ∧
      (g.ballPos t k).y - BALL_RADIUS ≤ (g.paddle2 t k).y + PADDLE_LENGTH)) :
    (g.Update t k).1.m_playerOneScore = (g.m_playerOneScore + 1) % SCORE_MOD ∧
    (g.Update t k).1.m_playerTwoScore = g.m_playerTwoScore ∧
    (g.Update t k).1.m_playState = PLAY_STATE.SERVE_PLAYER_TWO := by
  have key := collideStep_miss_two
    { g.served t k with m_ball := (g.served t k).m_ball.SetPosition (g.ballPos t k) }
    (g.ballPos t k) (g.served t k).m_ball.GetVelocity
    (served_playState_toward_two g t k hp) hx hno
  rw [Update_scoreOne, Update_scoreTwo, Update_playState]
  unfold PongGame.collided; dsimp only
  rw [key]
  simp

lemma wallStep_top (h : p.y ≤ s.m_court.GetDimensions.y) :
    (s.wallStep p v).m_ball =
      (s.m_ball.SetPosition ⟨p.x, s.m_court.GetDimensions.y⟩).SetVelocity ⟨v.x, -v.y⟩ := by
  unfold PongGame.wallStep; dsimp only; rw [if_pos h]

lemma wallStep_bottom (hn : ¬ p.y ≤ s.m_court.GetDimensions.y)
    (h : p.y ≥ s.m_court.GetDimensions.y + s.m_court.GetDimensions.height) :
    (s.wallStep p v).m_ball =
      (s.m_ball.SetPosition
        ⟨p.x, s.m_court.GetDimensions.y + s.m_court.GetDimensions.height⟩).SetVelocity
        ⟨v.x, -v.y⟩ := by
  unfold PongGame.wallStep; dsimp only; rw [if_neg hn, if_pos h]

lemma wallStep_inside (hn : ¬ p.y ≤ s.m_court.GetDimensions.y)
    (h : ¬ p.y ≥ s.m_court.GetDimensions.y + s.m_court.GetDimensions.height) :
    s.wallStep p v = s := by
  unfold PongGame.wallStep; dsimp only; rw [if_neg hn, if_neg h]

@[simp] lemma collided_court : (g.collided t k).1.m_court = g.m_court := by
  unfold PongGame.collided; simp

@[simp] lemma movePaddles_playerOne_x :
    (g.movePaddles t k).m_playerOne.GetPositionSize.x = g.m_playerOne.GetPositionSize.x := by
  unfold PongGame.movePaddles; dsimp only; split_ifs <;> rfl

@[simp] lemma movePaddles_playerTwo_x :
    (g.movePaddles t k).m_playerTwo.GetPositionSize.x = g.m_playerTwo.GetPositionSize.x := by
  unfold PongGame.movePaddles; dsimp only; split_ifs <;> rfl

lemma collideStep_serving
    (hp : s.m_playState = PLAY_STATE.SERVE_PLAYER_ONE ∨
      s.m_playState = PLAY_STATE.SERVE_PLAYER_TWO) :
    s.collideStep p v = (s, v) := by
  unfold PongGame.collideStep
  rcases hp with h | h <;> simp [h]

lemma collideStep_not_reached_one (hp : s.m_playState = PLAY_STATE.TOWARD_PLAYER_ONE)
    (h : p.x - BALL_RADIUS > s.m_playerOne.GetPositionSize.x + PADDLE_WIDTH) :
    s.collideStep p v = (s, v) := by
  unfold PongGame.collideStep
  simp only [hp]
  rw [if_pos h]

lemma collideStep_not_reached_two (hp : s.m_playState = PLAY_STATE.TOWARD_PLAYER_TWO)
    (h : p.x + BALL_RADIUS < s.m_playerTwo.GetPositionSize.x) :
    s.collideStep p v = (s, v) := by
  unfold PongGame.collideStep
  simp only [hp]
  rw [if_pos h]

lemma Update_playerOne : (g.Update t k).1.m_playerOne = (g.served t k).m_playerOne := by
  rw [Update_fst]; simp [PongGame.collided]

lemma Update_playerTwo : (g.Update t k).1.m_playerTwo = (g.served t k).m_playerTwo := by
  rw [Update_fst]; simp [PongGame.collided]

/-- Position left by the wall step when the stored position is the local `ballPos`. -/
lemma wallStep_position (h : s.m_ball.m_position = p) :
    (s.wallStep p v).m_ball.m_position.x = p.x ∧
    (p.y ≤ s.m_court.GetDimensions.y →
      (s.wallStep p v).m_ball.m_position.y = s.m_court.GetDimensions.y) ∧
    (¬ p.y ≤ s.m_court.GetDimensions.y →
      p.y ≥ s.m_court.GetDimensions.y + s.m_court.GetDimensions.height →
      (s.wallStep p v).m_ball.m_position.y =
        s.m_court.GetDimensions.y + s.m_court.GetDimensions.height) ∧
    (¬ p.y ≤ s.m_court.GetDimensions.y →
      ¬ p.y ≥ s.m_court.GetDimensions.y + s.m_court.GetDimensions.height →
      (s.wallStep p v).m_ball.m_position.y = p.y) := by
  refine ⟨?_, ?_, ?_, ?_⟩
  · unfold PongGame.wallStep; dsimp only
    split_ifs <;> simp [h, Ball.SetVelocity, Ball.SetPosition]
  · intro h1; rw [wallStep_top _ _ _ h1]; simp [Ball.SetVelocity, Ball.SetPosition]
  · intro h1 h2; rw [wallStep_bottom _ _ _ h1 h2]; simp [Ball.SetVelocity, Ball.SetPosition]
  · intro h1 h2; rw [wallStep_inside _ _ _ h1 h2, h]

/-- A tick that starts in SERVE_PLAYER_ONE without the serve key: the state after the
serve switch. -/
lemma served_hold_one (hp : g.m_playState = PLAY_STATE.SERVE_PLAYER_ONE)
    (hk : k.Space = false) :
    (g.served t k).m_playState = PLAY_STATE.SERVE_PLAYER_ONE ∧
    (g.served t k).m_ball.m_velocity = ⟨0, 0⟩ ∧
    (g.served t k).m_ball.m_position =
      ⟨(g.served t k).m_playerOne.GetPositionSize.x + PADDLE_WIDTH,
       (g.served t k).m_playerOne.GetPositionSize.y + PADDLE_LENGTH / 2⟩ := by
  unfold PongGame.served PongGame.serveStep
  simp [hp, hk, Ball.SetVelocity, Ball.SetPosition]

/-- A tick that starts in SERVE_PLAYER_TWO without the serve key. -/
lemma served_hold_two (hp : g.m_playState = PLAY_STATE.SERVE_PLAYER_TWO)
    (hk : k.Space = false) :
    (g.served t k).m_playState = PLAY_STATE.SERVE_PLAYER_TWO ∧
    (g.served t k).m_ball.m_velocity = ⟨0, 0⟩ ∧
    (g.served t k).m_ball.m_position =
      ⟨(g.served t k).m_playerTwo.GetPositionSize.x - BALL_RADIUS,
       (g.served t k).m_playerTwo.GetPositionSize.y + PADDLE_LENGTH / 2⟩ := by
  unfold PongGame.served PongGame.serveStep
  simp [hp, hk, Ball.SetVelocity, Ball.SetPosition]

/-- A tick that starts in SERVE_PLAYER_ONE with the serve key held. -/
lemma served_launch_one (hp : g.m_playState = PLAY_STATE.SERVE_PLAYER_ONE)
    (hk : k.Space = true) :
    (g.served t k).m_playState = PLAY_STATE.TOWARD_PLAYER_TWO ∧
    (g.served t k).m_ball.m_velocity = ⟨BALL_VELOCITY, 0⟩ ∧
    (g.served t k).m_ball.m_position =
      ⟨(g.served t k).m_playerOne.GetPositionSize.x + PADDLE_WIDTH,
       (g.served t k).m_playerOne.GetPositionSize.y + PADDLE_LENGTH / 2⟩ := by
  unfold PongGame.served PongGame.serveStep
  simp [hp, hk, Ball.SetVelocity, Ball.SetPosition]

/-- A tick that starts in SERVE_PLAYER_TWO with the serve key held. -/
lemma served_launch_two (hp : g.m_playState = PLAY_STATE.SERVE_PLAYER_TWO)
    (hk : k.Space = true) :
    (g.served t k).m_playState = PLAY_STATE.TOWARD_PLAYER_ONE ∧
    (g.served t k).m_ball.m_velocity = ⟨-BALL_VELOCITY, 0⟩ ∧
    (g.served t k).m_ball.m_position =
      ⟨(g.served t k).m_playerTwo.GetPositionSize.x - BALL_RADIUS,
       (g.served t k).m_playerTwo.GetPositionSize.y + PADDLE_LENGTH / 2⟩ := by
  unfold PongGame.served PongGame.serveStep
  simp [hp, hk, Ball.SetVelocity, Ball.SetPosition]

/-- When the collision switch takes no action, `Update` is the wall step on the
integrated state. -/
lemma Update_of_no_action
    (h : PongGame.collideStep
        { g.served t k with m_ball := (g.served t k).m_ball.SetPosition (g.ballPos t k) }
        (g.ballPos t k) (g.served t k).m_ball.GetVelocity =
      ({ g.served t k with m_ball := (g.served t k).m_ball.SetPosition (g.ballPos t k) },
        (g.served t k).m_ball.GetVelocity)) :
    (g.Update t k).1 =
      PongGame.wallStep
        { g.served t k with m_ball := (g.served t k).m_ball.SetPosition (g.ballPos t k) }
        (g.ballPos t k) (g.served t k).m_ball.GetVelocity := by
  rw [Update_fst]
  unfold PongGame.collided; dsimp only
  rw [h]

lemma Vector2D.eq_zero_of (w : Vector2D) (hx : w.x = 0) (hy : w.y = 0 ∨ w.y = -0) :
    w = ⟨0, 0⟩ := by
  cases w
  simp only [neg_zero, or_self] at hy
  simp_all

/-- A serving tick without the serve key, for either server: the pinned point is the
integrated position, and `Update` is the wall step applied to it. -/
lemma Update_serving_hold (pin : Vector2D)
    (hps : (g.served t k).m_playState = PLAY_STATE.SERVE_PLAYER_ONE ∨
      (g.served t k).m_playState = PLAY_STATE.SERVE_PLAYER_TWO)
    (hvel : (g.served t k).m_ball.m_velocity = ⟨0, 0⟩)
    (hpos : (g.served t k).m_ball.m_position = pin) :
    (g.Update t k).1.m_playState = (g.served t k).m_playState ∧
    (g.Update t k).1.m_ball.GetVelocity = ⟨0, 0⟩ ∧
    (g.Update t k).1.m_ball.GetPosition.x = pin.x ∧
    (pin.y ≤ g.m_court.GetDimensions.y →
      (g.Update t k).1.m_ball.GetPosition.y = g.m_court.GetDimensions.y) ∧
    (¬ pin.y ≤ g.m_court.GetDimensions.y →
      pin.y ≥ g.m_court.GetDimensions.y + g.m_court.GetDimensions.height →
      (g.Update t k).1.m_ball.GetPosition.y =
        g.m_court.GetDimensions.y + g.m_court.GetDimensions.height) ∧
    (¬ pin.y ≤ g.m_court.GetDimensions.y →
      ¬ pin.y ≥ g.m_court.GetDimensions.y + g.m_court.GetDimensions.height →
      (g.Update t k).1.m_ball.GetPosition.y = pin.y) := by
  have hbp : g.ballPos t k = pin := by
    unfold PongGame.ballPos; dsimp only
    simp only [Ball.GetPosition, Ball.GetVelocity, hvel, hpos]
    cases pin; simp
  have hno := collideStep_serving
    { g.served t k with m_ball := (g.served t k).m_ball.SetPosition (g.ballPos t k) }
    (g.ballPos t k) (g.served t k).m_ball.GetVelocity hps
  have hU := Update_of_no_action g t k hno
  obtain ⟨wx, wtop, wbot, win⟩ := wallStep_position
    { g.served t k with m_ball := (g.served t k).m_ball.SetPosition (g.ballPos t k) }
    (g.ballPos t k) (g.served t k).m_ball.GetVelocity rfl
  obtain ⟨vx, vy⟩ := wallStep_velocity
    { g.served t k with m_ball := (g.served t k).m_ball.SetPosition (g.ballPos t k) }
    (g.ballPos t k) (g.served t k).m_ball.GetVelocity rfl
  rw [← hU] at wx wtop wbot win vx vy
  simp only [served_court, Ball.GetVelocity, hvel, hbp] at wx wtop wbot win vx vy
  refine ⟨?_, ?_, wx, wtop, wbot, win⟩
  · rw [hU]; simp
  · exact Vector2D.eq_zero_of _ vx vy

@[simp] lemma served_playerOne_x :
    (g.served t k).m_playerOne.GetPositionSize.x = g.m_playerOne.GetPositionSize.x := by
  simp [PongGame.served]

@[simp] lemma served_playerTwo_x :
    (g.served t k).m_playerTwo.GetPositionSize.x = g.m_playerTwo.GetPositionSize.x := by
  simp [PongGame.served]

/-- Phase and velocity left by `Update` when the collision switch takes no action. -/
lemma Update_no_action_velocity
    (h : PongGame.collideStep
        { g.served t k with m_ball := (g.served t k).m_ball.SetPosition (g.ballPos t k) }
        (g.ballPos t k) (g.served t k).m_ball.GetVelocity =
      ({ g.served t k with m_ball := (g.served t k).m_ball.SetPosition (g.ballPos t k) },
        (g.served t k).m_ball.GetVelocity)) :
    (g.Update t k).1.m_playState = (g.served t k).m_playState ∧
    (g.Update t k).1.m_ball.GetVelocity.x = (g.served t k).m_ball.GetVelocity.x ∧
    ((g.Update t k).1.m_ball.GetVelocity.y = (g.served t k).m_ball.GetVelocity.y ∨
     (g.Update t k).1.m_ball.GetVelocity.y = -(g.served t k).m_ball.GetVelocity.y) := by
  have hU := Update_of_no_action g t k h
  obtain ⟨vx, vy⟩ := wallStep_velocity
    { g.served t k with m_ball := (g.served t k).m_ball.SetPosition (g.ballPos t k) }
    (g.ballPos t k) (g.served t k).m_ball.GetVelocity rfl
  rw [← hU] at vx vy
  refine ⟨?_, vx, vy⟩
  rw [hU]; simp

lemma Vector2D.eq_of (w : Vector2D) (a : ℚ) (hx : w.x = a) (hy : w.y = 0 ∨ w.y = -0) :
    w = ⟨a, 0⟩ := by
  cases w
  simp only [neg_zero, or_self] at hy
  simp_all

/-- The deflection term of a hit and the tests that select it. -/
lemma deflectY_spec (r : RectangleShape) (vy : ℚ) :
    ∃ d : ℚ, deflectY p r vy = vy + d ∧
      (d = -(BALL_VELOCITY / 2) ↔ p.y + BALL_RADIUS ≤ r.y + PADDLE_LENGTH / 3) ∧
      (d = BALL_VELOCITY / 2 ↔
        ¬ (p.y + BALL_RADIUS ≤ r.y + PADDLE_LENGTH / 3) ∧
          p.y - BALL_RADIUS ≥ r.y + 2 * PADDLE_LENGTH / 3) ∧
      (p.y + BALL_RADIUS > r.y + PADDLE_LENGTH / 3 →
        p.y - BALL_RADIUS < r.y + 2 * PADDLE_LENGTH / 3 → d = 0) := by
  have e : r.y + PADDLE_LENGTH / 3 * 2 = r.y + 2 * PADDLE_LENGTH / 3 := by ring
  unfold deflectY
  rw [e]
  by_cases h1 : p.y + BALL_RADIUS ≤ r.y + PADDLE_LENGTH / 3
  · rw [if_pos h1]
    refine ⟨-(BALL_VELOCITY / 2), by ring, by simp [h1], ?_, ?_⟩
    · simp [h1, BALL_VELOCITY]; norm_num
    · intro h; exact absurd h1 (not_le.mpr h)
  · rw [if_neg h1]
    by_cases h2 : p.y - BALL_RADIUS ≥ r.y + 2 * PADDLE_LENGTH / 3
    · rw [if_pos h2]
      refine ⟨BALL_VELOCITY / 2, rfl, ?_, by simp [h1, h2], ?_⟩
      · simp [h1, BALL_VELOCITY]; norm_num
      · intro _ h; exact absurd h2 (not_le.mpr h)
    · rw [if_neg h2]
      refine ⟨0, by ring, ?_, ?_, fun _ _ => rfl⟩
      · simp [h1, BALL_VELOCITY]
      · simp [h2, BALL_VELOCITY]; norm_num

end Steps

/-- Instance of C1: the constructed game with scores (3,1) returns MENU and with
scores (2,1) returns IN_GAME on a tick without keys. -/
theorem Update_win_check_witness :
    (game31.Update 33 Keys.none).2 = GAME_STATE.MENU ∧
    (game21.Update 33 Keys.none).2 = GAME_STATE.IN_GAME :=
  ⟨(Update_win_check game31 33 Keys.none).2.2.2.1 rfl rfl rfl
      (by norm_num [game31, PongGame.new, PongGame.Update, PongGame.collided, PongGame.ballPos,
    PongGame.served, PongGame.paddle1, PongGame.paddle2, PongGame.movePaddles,
    PongGame.serveStep, PongGame.collideStep, PongGame.wallStep, hitVelocity, amplify,
    deflectY, Keys.none, Keys.serve, Ball.new, Ball.SetPosition, Ball.SetVelocity,
    Ball.GetPosition, Ball.GetVelocity, Paddle.GetPositionSize, Paddle.SetPosition,
    Court.GetDimensions, COURT_MARGIN, WINDOW_WIDTH, WINDOW_HEIGHT, BALL_RADIUS,
    PADDLE_WIDTH, PADDLE_LENGTH, PADDLE_PADDING, PADDLE_SPEED, BALL_VELOCITY,
    BALL_VEL_INCR, SCORE_MOD])
      (by norm_num [game31, PongGame.new, PongGame.Update, PongGame.collided, PongGame.ballPos,
    PongGame.served, PongGame.paddle1, PongGame.paddle2, PongGame.movePaddles,
    PongGame.serveStep, PongGame.collideStep, PongGame.wallStep, hitVelocity, amplify,
    deflectY, Keys.none, Keys.serve, Ball.new, Ball.SetPosition, Ball.SetVelocity,
    Ball.GetPosition, Ball.GetVelocity, Paddle.GetPositionSize, Paddle.SetPosition,
    Court.GetDimensions, COURT_MARGIN, WINDOW_WIDTH, WINDOW_HEIGHT, BALL_RADIUS,
    PADDLE_WIDTH, PADDLE_LENGTH, PADDLE_PADDING, PADDLE_SPEED, BALL_VELOCITY,
    BALL_VEL_INCR, SCORE_MOD]),
   (Update_win_check game21 33 Keys.none).2.2.2.2 rfl rfl rfl
      (by norm_num [game21, PongGame.new, PongGame.Update, PongGame.collided, PongGame.ballPos,
    PongGame.served, PongGame.paddle1, PongGame.paddle2, PongGame.movePaddles,
    PongGame.serveStep, PongGame.collideStep, PongGame.wallStep, hitVelocity, amplify,
    deflectY, Keys.none, Keys.serve, Ball.new, Ball.SetPosition, Ball.SetVelocity,
    Ball.GetPosition, Ball.GetVelocity, Paddle.GetPositionSize, Paddle.SetPosition,
    Court.GetDimensions, COURT_MARGIN, WINDOW_WIDTH, WINDOW_HEIGHT, BALL_RADIUS,
    PADDLE_WIDTH, PADDLE_LENGTH, PADDLE_PADDING, PADDLE_SPEED, BALL_VELOCITY,
    BALL_VEL_INCR, SCORE_MOD])
      (by norm_num [game21, PongGame.new, PongGame.Update, PongGame.collided, PongGame.ballPos,
    PongGame.served, PongGame.paddle1, PongGame.paddle2, PongGame.movePaddles,
    PongGame.serveStep, PongGame.collideStep, PongGame.wallStep, hitVelocity, amplify,
    deflectY, Keys.none, Keys.serve, Ball.new, Ball.SetPosition, Ball.SetVelocity,
    Ball.GetPosition, Ball.GetVelocity, Paddle.GetPositionSize, Paddle.SetPosition,
    Court.GetDimensions, COURT_MARGIN, WINDOW_WIDTH, WINDOW_HEIGHT, BALL_RADIUS,
    PADDLE_WIDTH, PADDLE_LENGTH, PADDLE_PADDING, PADDLE_SPEED, BALL_VELOCITY,
    BALL_VEL_INCR, SCORE_MOD])⟩

/-- The velocity and phase written by a paddle hit, for any state of a Toward phase:
the x velocity left by `Update` is positive when the pre-collision one was negative,
negative when it was positive and -BALL_VEL_INCR when it was zero, with
|vx'| = |vx| + BALL_VEL_INCR and |vy'| = |vy + d| + BALL_VEL_INCR for a deflection d
among -BALL_VELOCITY/2, 0, +BALL_VELOCITY/2, and the phase becomes the other Toward
phase. -/
lemma Update_hit_velocity (g : PongGame) (t : ℚ) (k : Keys) :
    (g.m_playState = PLAY_STATE.TOWARD_PLAYER_ONE →
      (g.ballPos t k).x - BALL_RADIUS ≤ (g.paddle1 t k).x + PADDLE_WIDTH →
      (g.ballPos t k).y + BALL_RADIUS ≥ (g.paddle1 t k).y →
      (g.ballPos t k).y - BALL_RADIUS ≤ (g.paddle1 t k).y + PADDLE_LENGTH →
      (g.m_ball.GetVelocity.x < 0 → 0 < (g.Update t k).1.m_ball.GetVelocity.x) ∧
      (0 < g.m_ball.GetVelocity.x → (g.Update t k).1.m_ball.GetVelocity.x < 0) ∧
      (g.m_ball.GetVelocity.x = 0 →
        (g.Update t k).1.m_ball.GetVelocity.x = -BALL_VEL_INCR) ∧
      |(g.Update t k).1.m_ball.GetVelocity.x| = |g.m_ball.GetVelocity.x| + BALL_VEL_INCR ∧
      (∃ d : ℚ, (d = -(BALL_VELOCITY / 2) ∨ d = 0 ∨ d = BALL_VELOCITY / 2) ∧
        |(g.Update t k).1.m_ball.GetVelocity.y| =
          |g.m_ball.GetVelocity.y + d| + BALL_VEL_INCR) ∧
      (g.Update t k).1.m_playState = PLAY_STATE.TOWARD_PLAYER_TWO) ∧
    (g.m_playState = PLAY_STATE.TOWARD_PLAYER_TWO →
      (g.ballPos t k).x + BALL_RADIUS ≥ (g.paddle2 t k).x →
      (g.ballPos t k).y + BALL_RADIUS ≥ (g.paddle2 t k).y →
      (g.ballPos t k).y - BALL_RADIUS ≤ (g.paddle2 t k).y + PADDLE_LENGTH →
      (g.m_ball.GetVelocity.x < 0 → 0 < (g.Update t k).1.m_ball.GetVelocity.x) ∧
      (0 < g.m_ball.GetVelocity.x → (g.Update t k).1.m_ball.GetVelocity.x < 0) ∧
      (g.m_ball.GetVelocity.x = 0 →
        (g.Update t k).1.m_ball.GetVelocity.x = -BALL_VEL_INCR) ∧
      |(g.Update t k).1.m_ball.GetVelocity.x| = |g.m_ball.GetVelocity.x| + BALL_VEL_INCR ∧
      (∃ d : ℚ, (d = -(BALL_VELOCITY / 2) ∨ d = 0 ∨ d = BALL_VELOCITY / 2) ∧
        |(g.Update t k).1.m_ball.GetVelocity.y| =
          |g.m_ball.GetVelocity.y + d| + BALL_VEL_INCR) ∧
      (g.Update t k).1.m_playState = PLAY_STATE.TOWARD_PLAYER_ONE) := by
  obtain ⟨hx, hy⟩ := Update_velocity g t k
  have hyabs : |(g.Update t k).1.m_ball.GetVelocity.y| = |(g.collided t k).2.y| := by
    rcases hy with h | h
    · rw [h]
    · rw [h, abs_neg]
  constructor
  · intro hp hr h1 h2
    obtain ⟨hv, hs, _⟩ := collided_hit_one g t k hp hr h1 h2
    obtain ⟨a, b, c, d, e⟩ :=
      hitVelocity_spec (g.ballPos t k) g.m_ball.GetVelocity (g.paddle1 t k)
    rw [hx, hyabs, Update_playState, hv, hs]
    exact ⟨a, b, c, d, e, rfl⟩
  · intro hp hr h1 h2
    obtain ⟨hv, hs, _⟩ := collided_hit_two g t k hp hr h1 h2
    obtain ⟨a, b, c, d, e⟩ :=
      hitVelocity_spec (g.ballPos t k) g.m_ball.GetVelocity (g.paddle2 t k)
    rw [hx, hyabs, Update_playState, hv, hs]
    exact ⟨a, b, c, d, e, rfl⟩

/-- C3 (as stated) fails when the scoring counter is at its maximum: a miss at paddle
one with player two's score at 255 leaves that score at 0, not at 256. -/
theorem Update_miss_wrap_counterexample :
    gameMissOne.m_playState = PLAY_STATE.TOWARD_PLAYER_ONE ∧
    (gameMissOne.ballPos 33 Keys.none).x + BALL_RADIUS < (gameMissOne.paddle1 33 Keys.none).x ∧
    ¬ ((gameMissOne.ballPos 33 Keys.none).y + BALL_RADIUS ≥
          (gameMissOne.paddle1 33 Keys.none).y ∧
       (gameMissOne.ballPos 33 Keys.none).y - BALL_RADIUS ≤
          (gameMissOne.paddle1 33 Keys.none).y + PADDLE_LENGTH) ∧
    gameMissOne.m_playerTwoScore = 255 ∧
    (gameMissOne.Update 33 Keys.none).1.m_playerTwoScore = 0 ∧
    (gameMissOne.Update 33 Keys.none).1.m_playerTwoScore ≠
      gameMissOne.m_playerTwoScore + 1 := by
  have h0 : (gameMissOne.Update 33 Keys.none).1.m_playerTwoScore = 0 := by
    norm_num [gameMissOne, PongGame.new, PongGame.Update, PongGame.collided, PongGame.ballPos,
    PongGame.served, PongGame.paddle1, PongGame.paddle2, PongGame.movePaddles,
    PongGame.serveStep, PongGame.collideStep, PongGame.wallStep, hitVelocity, amplify,
    deflectY, Keys.none, Keys.serve, Ball.new, Ball.SetPosition, Ball.SetVelocity,
    Ball.GetPosition, Ball.GetVelocity, Paddle.GetPositionSize, Paddle.SetPosition,
    Court.GetDimensions, COURT_MARGIN, WINDOW_WIDTH, WINDOW_HEIGHT, BALL_RADIUS,
    PADDLE_WIDTH, PADDLE_LENGTH, PADDLE_PADDING, PADDLE_SPEED, BALL_VELOCITY,
    BALL_VEL_INCR, SCORE_MOD]
  refine ⟨rfl, ?_, ?_, rfl, h0, ?_⟩
  · norm_num [gameMissOne, PongGame.new, PongGame.Update, PongGame.collided, PongGame.ballPos,
    PongGame.served, PongGame.paddle1, PongGame.paddle2, PongGame.movePaddles,
    PongGame.serveStep, PongGame.collideStep, PongGame.wallStep, hitVelocity, amplify,
    deflectY, Keys.none, Keys.serve, Ball.new, Ball.SetPosition, Ball.SetVelocity,
    Ball.GetPosition, Ball.GetVelocity, Paddle.GetPositionSize, Paddle.SetPosition,
    Court.GetDimensions, COURT_MARGIN, WINDOW_WIDTH, WINDOW_HEIGHT, BALL_RADIUS,
    PADDLE_WIDTH, PADDLE_LENGTH, PADDLE_PADDING, PADDLE_SPEED, BALL_VELOCITY,
    BALL_VEL_INCR, SCORE_MOD]
  · norm_num [gameMissOne, PongGame.new, PongGame.Update, PongGame.collided, PongGame.ballPos,
    PongGame.served, PongGame.paddle1, PongGame.paddle2, PongGame.movePaddles,
    PongGame.serveStep, PongGame.collideStep, PongGame.wallStep, hitVelocity, amplify,
    deflectY, Keys.none, Keys.serve, Ball.new, Ball.SetPosition, Ball.SetVelocity,
    Ball.GetPosition, Ball.GetVelocity, Paddle.GetPositionSize, Paddle.SetPosition,
    Court.GetDimensions, COURT_MARGIN, WINDOW_WIDTH, WINDOW_HEIGHT, BALL_RADIUS,
    PADDLE_WIDTH, PADDLE_LENGTH, PADDLE_PADDING, PADDLE_SPEED, BALL_VELOCITY,
    BALL_VEL_INCR, SCORE_MOD]
  · rw [h0]; decide

/-- C3 (amended): in phase TOWARD_PLAYER_ONE with the ball entirely beyond paddle one
(ball.x + BALL_RADIUS < paddle.x) and no vertical overlap, `Update` leaves player two's
score at (score + 1) mod 256, which is score + 1 whenever the score is below the
counter's maximum 255, leaves player one's score unchanged and sets the phase to
SERVE_PLAYER_ONE; symmetrically for TOWARD_PLAYER_TWO with
ball.x - BALL_RADIUS > paddle.x + PADDLE_WIDTH, player one scoring and phase
SERVE_PLAYER_TWO. -/
theorem Update_miss_scores (g : PongGame) (t : ℚ) (k : Keys) :
    (g.m_playState = PLAY_STATE.TOWARD_PLAYER_ONE →
      (g.ballPos t k).x + BALL_RADIUS < (g.paddle1 t k).x →
      ¬ ((g.ballPos t k).y + BALL_RADIUS ≥ (g.paddle1 t k).y ∧
         (g.ballPos t k).y - BALL_RADIUS ≤ (g.paddle1 t k).y + PADDLE_LENGTH) →
      (g.Update t k).1.m_playerTwoScore = (g.m_playerTwoScore + 1) % 256 ∧
      (g.m_playerTwoScore < 255 →
        (g.Update t k).1.m_playerTwoScore = g.m_playerTwoScore + 1) ∧
      (g.Update t k).1.m_playerOneScore = g.m_playerOneScore ∧
      (g.Update t k).1.m_playState = PLAY_STATE.SERVE_PLAYER_ONE) ∧
    (g.m_playState = PLAY_STATE.TOWARD_PLAYER_TWO →
      (g.ballPos t k).x - BALL_RADIUS > (g.paddle2 t k).x + PADDLE_WIDTH →
      ¬ ((g.ballPos t k).y + BALL_RADIUS ≥ (g.paddle2 t k).y ∧
         (g.ballPos t k).y - BALL_RADIUS ≤ (g.paddle2 t k).y + PADDLE_LENGTH) →
      (g.Update t k).1.m_playerOneScore = (g.m_playerOneScore + 1) % 256 ∧
      (g.m_playerOneScore < 255 →
        (g.Update t k).1.m_playerOneScore = g.m_playerOneScore + 1) ∧
      (g.Update t k).1.m_playerTwoScore = g.m_playerTwoScore ∧
      (g.Update t k).1.m_playState = PLAY_STATE.SERVE_PLAYER_TWO) := by
  constructor
  · intro hp hx hno
    obtain ⟨a, b, c⟩ := Update_miss_one g t k hp hx hno
    have a2 : (g.Update t k).1.m_playerTwoScore = (g.m_playerTwoScore + 1) % 256 := by
      rw [a]; rfl
    exact ⟨a2, fun hlt => by rw [a2]; omega, b, c⟩
  · intro hp hx hno
    obtain ⟨a, b, c⟩ := Update_miss_two g t k hp hx hno
    have a2 : (g.Update t k).1.m_playerOneScore = (g.m_playerOneScore + 1) % 256 := by
      rw [a]; rfl
    exact ⟨a2, fun hlt => by rw [a2]; omega, b, c⟩

/-- Instance of C3: from scores (0,1) a miss at paddle one gives (0,2) and phase
SERVE_PLAYER_ONE; from (1,0) a miss at paddle two gives (2,0) and SERVE_PLAYER_TWO. -/
theorem Update_miss_scores_witness :
    ((gamePassOne.Update 33 Keys.none).1.m_playerTwoScore = 2 ∧
      (gamePassOne.Update 33 Keys.none).1.m_playerOneScore = 0 ∧
      (gamePassOne.Update 33 Keys.none).1.m_playState = PLAY_STATE.SERVE_PLAYER_ONE) ∧
    ((gamePassTwo.Update 33 Keys.none).1.m_playerOneScore = 2 ∧
      (gamePassTwo.Update 33 Keys.none).1.m_playerTwoScore = 0 ∧
      (gamePassTwo.Update 33 Keys.none).1.m_playState = PLAY_STATE.SERVE_PLAYER_TWO) := by
  have h1 := (Update_miss_scores gamePassOne 33 Keys.none).1 rfl
    (by norm_num [gamePassOne, PongGame.new, PongGame.Update, PongGame.collided, PongGame.ballPos,
    PongGame.served, PongGame.paddle1, PongGame.paddle2, PongGame.movePaddles,
    PongGame.serveStep, PongGame.collideStep, PongGame.wallStep, hitVelocity, amplify,
    deflectY, Keys.none, Keys.serve, Ball.new, Ball.SetPosition, Ball.SetVelocity,
    Ball.GetPosition, Ball.GetVelocity, Paddle.GetPositionSize, Paddle.SetPosition,
    Court.GetDimensions, COURT_MARGIN, WINDOW_WIDTH, WINDOW_HEIGHT, BALL_RADIUS,
    PADDLE_WIDTH, PADDLE_LENGTH, PADDLE_PADDING, PADDLE_SPEED, BALL_VELOCITY,
    BALL_VEL_INCR, SCORE_MOD])
    (by norm_num [gamePassOne, PongGame.new, PongGame.Update, PongGame.collided, PongGame.ballPos,
    PongGame.served, PongGame.paddle1, PongGame.paddle2, PongGame.movePaddles,
    PongGame.serveStep, PongGame.collideStep, PongGame.wallStep, hitVelocity, amplify,
    deflectY, Keys.none, Keys.serve, Ball.new, Ball.SetPosition, Ball.SetVelocity,
    Ball.GetPosition, Ball.GetVelocity, Paddle.GetPositionSize, Paddle.SetPosition,
    Court.GetDimensions, COURT_MARGIN, WINDOW_WIDTH, WINDOW_HEIGHT, BALL_RADIUS,
    PADDLE_WIDTH, PADDLE_LENGTH, PADDLE_PADDING, PADDLE_SPEED, BALL_VELOCITY,
    BALL_VEL_INCR, SCORE_MOD])
  have h2 := (Update_miss_scores gamePassTwo 33 Keys.none).2 rfl
    (by norm_num [gamePassTwo, PongGame.new, PongGame.Update, PongGame.collided, PongGame.ballPos,
    PongGame.served, PongGame.paddle1, PongGame.paddle2, PongGame.movePaddles,
    PongGame.serveStep, PongGame.collideStep, PongGame.wallStep, hitVelocity, amplify,
    deflectY, Keys.none, Keys.serve, Ball.new, Ball.SetPosition, Ball.SetVelocity,
    Ball.GetPosition, Ball.GetVelocity, Paddle.GetPositionSize, Paddle.SetPosition,
    Court.GetDimensions, COURT_MARGIN, WINDOW_WIDTH, WINDOW_HEIGHT, BALL_RADIUS,
    PADDLE_WIDTH, PADDLE_LENGTH, PADDLE_PADDING, PADDLE_SPEED, BALL_VELOCITY,
    BALL_VEL_INCR, SCORE_MOD])
    (by norm_num [gamePassTwo, PongGame.new, PongGame.Update, PongGame.collided, PongGame.ballPos,
    PongGame.served, PongGame.paddle1, PongGame.paddle2, PongGame.movePaddles,
    PongGame.serveStep, PongGame.collideStep, PongGame.wallStep, hitVelocity, amplify,
    deflectY, Keys.none, Keys.serve, Ball.new, Ball.SetPosition, Ball.SetVelocity,
    Ball.GetPosition, Ball.GetVelocity, Paddle.GetPositionSize, Paddle.SetPosition,
    Court.GetDimensions, COURT_MARGIN, WINDOW_WIDTH, WINDOW_HEIGHT, BALL_RADIUS,
    PADDLE_WIDTH, PADDLE_LENGTH, PADDLE_PADDING, PADDLE_SPEED, BALL_VELOCITY,
    BALL_VEL_INCR, SCORE_MOD])
  exact ⟨⟨h1.2.1 (by decide), h1.2.2.1, h1.2.2.2⟩, ⟨h2.2.1 (by decide), h2.2.2.1, h2.2.2.2⟩⟩

/-- C4: in every phase and for every input, on a court of non-negative height, a ball
whose integrated y is at or above the top edge ends the tick with y = court.y, one at or
below the bottom edge with y = court.y + court.height; in both cases the final vertical
velocity is the negation of the one left by the paddle/scoring step and the horizontal
velocity is the one left by that step. -/
theorem Update_wall_bounce (g : PongGame) (t : ℚ) (k : Keys)
    (hh : 0 ≤ g.m_court.GetDimensions.height) :
    ((g.ballPos t k).y ≤ g.m_court.GetDimensions.y →
      (g.Update t k).1.m_ball.GetPosition.y = g.m_court.GetDimensions.y ∧
      (g.Update t k).1.m_ball.GetVelocity.y = -(g.collided t k).1.m_ball.GetVelocity.y ∧
      (g.Update t k).1.m_ball.GetVelocity.x = (g.collided t k).1.m_ball.GetVelocity.x) ∧
    ((g.ballPos t k).y ≥ g.m_court.GetDimensions.y + g.m_court.GetDimensions.height →
      (g.Update t k).1.m_ball.GetPosition.y =
        g.m_court.GetDimensions.y + g.m_court.GetDimensions.height ∧
      (g.Update t k).1.m_ball.GetVelocity.y = -(g.collided t k).1.m_ball.GetVelocity.y ∧
      (g.Update t k).1.m_ball.GetVelocity.x = (g.collided t k).1.m_ball.GetVelocity.x) := by
  have hv : (g.collided t k).1.m_ball.GetVelocity = (g.collided t k).2 :=
    collided_velocity g t k
  have htop : (g.ballPos t k).y ≤ g.m_court.GetDimensions.y →
      (g.Update t k).1.m_ball.GetPosition.y = g.m_court.GetDimensions.y ∧
      (g.Update t k).1.m_ball.GetVelocity.y = -(g.collided t k).1.m_ball.GetVelocity.y ∧
      (g.Update t k).1.m_ball.GetVelocity.x = (g.collided t k).1.m_ball.GetVelocity.x := by
    intro h
    have h2 : (g.ballPos t k).y ≤ (g.collided t k).1.m_court.GetDimensions.y := by
      simpa using h
    rw [Update_fst, wallStep_top _ _ _ h2, hv]
    simp [Ball.SetPosition, Ball.SetVelocity, Ball.GetPosition, Ball.GetVelocity]
  refine ⟨htop, ?_⟩
  intro h
  by_cases hc : (g.ballPos t k).y ≤ g.m_court.GetDimensions.y
  · obtain ⟨a, b, c⟩ := htop hc
    refine ⟨?_, b, c⟩
    rw [a]; linarith
  · have hc2 : ¬ (g.ballPos t k).y ≤ (g.collided t k).1.m_court.GetDimensions.y := by
      simpa using hc
    have h2 : (g.ballPos t k).y ≥ (g.collided t k).1.m_court.GetDimensions.y +
        (g.collided t k).1.m_court.GetDimensions.height := by
      simpa using h
    rw [Update_fst, wallStep_bottom _ _ _ hc2 h2, hv]
    simp [Ball.SetPosition, Ball.SetVelocity, Ball.GetPosition, Ball.GetVelocity]

/-- Instance of C4: on the constructed court a ball crossing the top edge ends at
y = 10 with vertical velocity +260, one crossing the bottom edge at y = 890 with -260. -/
theorem Update_wall_bounce_witness :
    ((gameTop.Update 33 Keys.none).1.m_ball.GetPosition.y = 10 ∧
      (gameTop.Update 33 Keys.none).1.m_ball.GetVelocity.y = 260) ∧
    ((gameBottom.Update 33 Keys.none).1.m_ball.GetPosition.y = 890 ∧
      (gameBottom.Update 33 Keys.none).1.m_ball.GetVelocity.y = -260) := by
  have h1 := (Update_wall_bounce gameTop 33 Keys.none
    (by norm_num [gameTop, PongGame.new, PongGame.Update, PongGame.collided, PongGame.ballPos,
    PongGame.served, PongGame.paddle1, PongGame.paddle2, PongGame.movePaddles,
    PongGame.serveStep, PongGame.collideStep, PongGame.wallStep, hitVelocity, amplify,
    deflectY, Keys.none, Keys.serve, Ball.new, Ball.SetPosition, Ball.SetVelocity,
    Ball.GetPosition, Ball.GetVelocity, Paddle.GetPositionSize, Paddle.SetPosition,
    Court.GetDimensions, COURT_MARGIN, WINDOW_WIDTH, WINDOW_HEIGHT, BALL_RADIUS,
    PADDLE_WIDTH, PADDLE_LENGTH, PADDLE_PADDING, PADDLE_SPEED, BALL_VELOCITY,
    BALL_VEL_INCR, SCORE_MOD])).1 (by norm_num [gameTop, PongGame.new, PongGame.Update, PongGame.collided, PongGame.ballPos,
    PongGame.served, PongGame.paddle1, PongGame.paddle2, PongGame.movePaddles,
    PongGame.serveStep, PongGame.collideStep, PongGame.wallStep, hitVelocity, amplify,
    deflectY, Keys.none, Keys.serve, Ball.new, Ball.SetPosition, Ball.SetVelocity,
    Ball.GetPosition, Ball.GetVelocity, Paddle.GetPositionSize, Paddle.SetPosition,
    Court.GetDimensions, COURT_MARGIN, WINDOW_WIDTH, WINDOW_HEIGHT, BALL_RADIUS,
    PADDLE_WIDTH, PADDLE_LENGTH, PADDLE_PADDING, PADDLE_SPEED, BALL_VELOCITY,
    BALL_VEL_INCR, SCORE_MOD])
  have h2 := (Update_wall_bounce gameBottom 33 Keys.none
    (by norm_num [gameBottom, PongGame.new, PongGame.Update, PongGame.collided, PongGame.ballPos,
    PongGame.served, PongGame.paddle1, PongGame.paddle2, PongGame.movePaddles,
    PongGame.serveStep, PongGame.collideStep, PongGame.wallStep, hitVelocity, amplify,
    deflectY, Keys.none, Keys.serve, Ball.new, Ball.SetPosition, Ball.SetVelocity,
    Ball.GetPosition, Ball.GetVelocity, Paddle.GetPositionSize, Paddle.SetPosition,
    Court.GetDimensions, COURT_MARGIN, WINDOW_WIDTH, WINDOW_HEIGHT, BALL_RADIUS,
    PADDLE_WIDTH, PADDLE_LENGTH, PADDLE_PADDING, PADDLE_SPEED, BALL_VELOCITY,
    BALL_VEL_INCR, SCORE_MOD])).2 (by norm_num [gameBottom, PongGame.new, PongGame.Update, PongGame.collided, PongGame.ballPos,
    PongGame.served, PongGame.paddle1, PongGame.paddle2, PongGame.movePaddles,
    PongGame.serveStep, PongGame.collideStep, PongGame.wallStep, hitVelocity, amplify,
    deflectY, Keys.none, Keys.serve, Ball.new, Ball.SetPosition, Ball.SetVelocity,
    Ball.GetPosition, Ball.GetVelocity, Paddle.GetPositionSize, Paddle.SetPosition,
    Court.GetDimensions, COURT_MARGIN, WINDOW_WIDTH, WINDOW_HEIGHT, BALL_RADIUS,
    PADDLE_WIDTH, PADDLE_LENGTH, PADDLE_PADDING, PADDLE_SPEED, BALL_VELOCITY,
    BALL_VEL_INCR, SCORE_MOD])
  refine ⟨⟨?_, ?_⟩, ⟨?_, ?_⟩⟩
  · rw [h1.1]; norm_num [gameTop, PongGame.new, PongGame.Update, PongGame.collided, PongGame.ballPos,
    PongGame.served, PongGame.paddle1, PongGame.paddle2, PongGame.movePaddles,
    PongGame.serveStep, PongGame.collideStep, PongGame.wallStep, hitVelocity, amplify,
    deflectY, Keys.none, Keys.serve, Ball.new, Ball.SetPosition, Ball.SetVelocity,
    Ball.GetPosition, Ball.GetVelocity, Paddle.GetPositionSize, Paddle.SetPosition,
    Court.GetDimensions, COURT_MARGIN, WINDOW_WIDTH, WINDOW_HEIGHT, BALL_RADIUS,
    PADDLE_WIDTH, PADDLE_LENGTH, PADDLE_PADDING, PADDLE_SPEED, BALL_VELOCITY,
    BALL_VEL_INCR, SCORE_MOD]
  · rw [h1.2.1]; norm_num [gameTop, PongGame.new, PongGame.Update, PongGame.collided, PongGame.ballPos,
    PongGame.served, PongGame.paddle1, PongGame.paddle2, PongGame.movePaddles,
    PongGame.serveStep, PongGame.collideStep, PongGame.wallStep, hitVelocity, amplify,
    deflectY, Keys.none, Keys.serve, Ball.new, Ball.SetPosition, Ball.SetVelocity,
    Ball.GetPosition, Ball.GetVelocity, Paddle.GetPositionSize, Paddle.SetPosition,
    Court.GetDimensions, COURT_MARGIN, WINDOW_WIDTH, WINDOW_HEIGHT, BALL_RADIUS,
    PADDLE_WIDTH, PADDLE_LENGTH, PADDLE_PADDING, PADDLE_SPEED, BALL_VELOCITY,
    BALL_VEL_INCR, SCORE_MOD]
  · rw [h2.1]; norm_num [gameBottom, PongGame.new, PongGame.Update, PongGame.collided, PongGame.ballPos,
    PongGame.served, PongGame.paddle1, PongGame.paddle2, PongGame.movePaddles,
    PongGame.serveStep, PongGame.collideStep, PongGame.wallStep, hitVelocity, amplify,
    deflectY, Keys.none, Keys.serve, Ball.new, Ball.SetPosition, Ball.SetVelocity,
    Ball.GetPosition, Ball.GetVelocity, Paddle.GetPositionSize, Paddle.SetPosition,
    Court.GetDimensions, COURT_MARGIN, WINDOW_WIDTH, WINDOW_HEIGHT, BALL_RADIUS,
    PADDLE_WIDTH, PADDLE_LENGTH, PADDLE_PADDING, PADDLE_SPEED, BALL_VELOCITY,
    BALL_VEL_INCR, SCORE_MOD]
  · rw [h2.2.1]; norm_num [gameBottom, PongGame.new, PongGame.Update, PongGame.collided, PongGame.ballPos,
    PongGame.served, PongGame.paddle1, PongGame.paddle2, PongGame.movePaddles,
    PongGame.serveStep, PongGame.collideStep, PongGame.wallStep, hitVelocity, amplify,
    deflectY, Keys.none, Keys.serve, Ball.new, Ball.SetPosition, Ball.SetVelocity,
    Ball.GetPosition, Ball.GetVelocity, Paddle.GetPositionSize, Paddle.SetPosition,
    Court.GetDimensions, COURT_MARGIN, WINDOW_WIDTH, WINDOW_HEIGHT, BALL_RADIUS,
    PADDLE_WIDTH, PADDLE_LENGTH, PADDLE_PADDING, PADDLE_SPEED, BALL_VELOCITY,
    BALL_VEL_INCR, SCORE_MOD]

/-- C5 (as stated) fails once the serving paddle has left the court: with paddle one at
y = -103 and no key held, the ball ends the tick at (40, 10), on the court's top edge,
not at the paddle's edge point (40, -78). -/
theorem Update_serving_pin_counterexample :
    gameOffCourt.m_playState = PLAY_STATE.SERVE_PLAYER_ONE ∧
    Keys.none.Space = false ∧
    (gameOffCourt.Update 33 Keys.none).1.m_ball.GetPosition = ⟨40, 10⟩ ∧
    (gameOffCourt.Update 33 Keys.none).1.m_ball.GetPosition ≠
      ⟨(gameOffCourt.Update 33 Keys.none).1.m_playerOne.GetPositionSize.x + PADDLE_WIDTH,
       (gameOffCourt.Update 33 Keys.none).1.m_playerOne.GetPositionSize.y +
         PADDLE_LENGTH / 2⟩ := by
  have hpos : (gameOffCourt.Update 33 Keys.none).1.m_ball.GetPosition = ⟨40, 10⟩ := by
    norm_num [gameOffCourt, PongGame.new, PongGame.Update, PongGame.collided, PongGame.ballPos,
    PongGame.served, PongGame.paddle1, PongGame.paddle2, PongGame.movePaddles,
    PongGame.serveStep, PongGame.collideStep, PongGame.wallStep, hitVelocity, amplify,
    deflectY, Keys.none, Keys.serve, Ball.new, Ball.SetPosition, Ball.SetVelocity,
    Ball.GetPosition, Ball.GetVelocity, Paddle.GetPositionSize, Paddle.SetPosition,
    Court.GetDimensions, COURT_MARGIN, WINDOW_WIDTH, WINDOW_HEIGHT, BALL_RADIUS,
    PADDLE_WIDTH, PADDLE_LENGTH, PADDLE_PADDING, PADDLE_SPEED, BALL_VELOCITY,
    BALL_VEL_INCR, SCORE_MOD]
  refine ⟨rfl, rfl, hpos, ?_⟩
  rw [hpos]
  norm_num [gameOffCourt, PongGame.new, PongGame.Update, PongGame.collided, PongGame.ballPos,
    PongGame.served, PongGame.paddle1, PongGame.paddle2, PongGame.movePaddles,
    PongGame.serveStep, PongGame.collideStep, PongGame.wallStep, hitVelocity, amplify,
    deflectY, Keys.none, Keys.serve, Ball.new, Ball.SetPosition, Ball.SetVelocity,
    Ball.GetPosition, Ball.GetVelocity, Paddle.GetPositionSize, Paddle.SetPosition,
    Court.GetDimensions, COURT_MARGIN, WINDOW_WIDTH, WINDOW_HEIGHT, BALL_RADIUS,
    PADDLE_WIDTH, PADDLE_LENGTH, PADDLE_PADDING, PADDLE_SPEED, BALL_VELOCITY,
    BALL_VEL_INCR, SCORE_MOD]

/-- C5 (amended): a tick that starts in SERVE_PLAYER_ONE without the serve key ends in
SERVE_PLAYER_ONE with ball velocity (0,0) and ball x = paddle.x + PADDLE_WIDTH (paddle
one as positioned after the tick); the ball's y is paddle.y + PADDLE_LENGTH/2 when that
value lies strictly between the court's top and bottom edges, the top edge when it is
at or above it, and otherwise the bottom edge; symmetrically for SERVE_PLAYER_TWO with
x = paddle.x - BALL_RADIUS on paddle two. -/
theorem Update_serving_pin (g : PongGame) (t : ℚ) (k : Keys) :
    (g.m_playState = PLAY_STATE.SERVE_PLAYER_ONE → k.Space = false →
      (g.Update t k).1.m_playState = PLAY_STATE.SERVE_PLAYER_ONE ∧
      (g.Update t k).1.m_ball.GetVelocity = ⟨0, 0⟩ ∧
      (g.Update t k).1.m_ball.GetPosition.x =
        (g.Update t k).1.m_playerOne.GetPositionSize.x + PADDLE_WIDTH ∧
      (g.m_court.GetDimensions.y <
          (g.Update t k).1.m_playerOne.GetPositionSize.y + PADDLE_LENGTH / 2 →
        (g.Update t k).1.m_playerOne.GetPositionSize.y + PADDLE_LENGTH / 2 <
          g.m_court.GetDimensions.y + g.m_court.GetDimensions.height →
        (g.Update t k).1.m_ball.GetPosition.y =
          (g.Update t k).1.m_playerOne.GetPositionSize.y + PADDLE_LENGTH / 2) ∧
      ((g.Update t k).1.m_playerOne.GetPositionSize.y + PADDLE_LENGTH / 2 ≤
          g.m_court.GetDimensions.y →
        (g.Update t k).1.m_ball.GetPosition.y = g.m_court.GetDimensions.y) ∧
      (g.m_court.GetDimensions.y <
          (g.Update t k).1.m_playerOne.GetPositionSize.y + PADDLE_LENGTH / 2 →
        g.m_court.GetDimensions.y + g.m_court.GetDimensions.height ≤
          (g.Update t k).1.m_playerOne.GetPositionSize.y + PADDLE_LENGTH / 2 →
        (g.Update t k).1.m_ball.GetPosition.y =
          g.m_court.GetDimensions.y + g.m_court.GetDimensions.height)) ∧
    (g.m_playState = PLAY_STATE.SERVE_PLAYER_TWO → k.Space = false →
      (g.Update t k).1.m_playState = PLAY_STATE.SERVE_PLAYER_TWO ∧
      (g.Update t k).1.m_ball.GetVelocity = ⟨0, 0⟩ ∧
      (g.Update t k).1.m_ball.GetPosition.x =
        (g.Update t k).1.m_playerTwo.GetPositionSize.x - BALL_RADIUS ∧
      (g.m_court.GetDimensions.y <
          (g.Update t k).1.m_playerTwo.GetPositionSize.y + PADDLE_LENGTH / 2 →
        (g.Update t k).1.m_playerTwo.GetPositionSize.y + PADDLE_LENGTH / 2 <
          g.m_court.GetDimensions.y + g.m_court.GetDimensions.height →
        (g.Update t k).1.m_ball.GetPosition.y =
          (g.Update t k).1.m_playerTwo.GetPositionSize.y + PADDLE_LENGTH / 2) ∧
      ((g.Update t k).1.m_playerTwo.GetPositionSize.y + PADDLE_LENGTH / 2 ≤
          g.m_court.GetDimensions.y →
        (g.Update t k).1.m_ball.GetPosition.y = g.m_court.GetDimensions.y) ∧
      (g.m_court.GetDimensions.y <
          (g.Update t k).1.m_playerTwo.GetPositionSize.y + PADDLE_LENGTH / 2 →
        g.m_court.GetDimensions.y + g.m_court.GetDimensions.height ≤
          (g.Update t k).1.m_playerTwo.GetPositionSize.y + PADDLE_LENGTH / 2 →
        (g.Update t k).1.m_ball.GetPosition.y =
          g.m_court.GetDimensions.y + g.m_court.GetDimensions.height)) := by
  constructor
  · intro hp hk
    obtain ⟨hps, hvel, hpos⟩ := served_hold_one g t k hp hk
    obtain ⟨a, b, c, d, e, f⟩ := Update_serving_hold g t k _ (Or.inl hps) hvel hpos
    rw [Update_playerOne]
    refine ⟨a.trans hps, b, c, ?_, d, ?_⟩
    · intro h1 h2; exact f (not_le.mpr h1) (not_le.mpr h2)
    · intro h1 h2; exact e (not_le.mpr h1) h2
  · intro hp hk
    obtain ⟨hps, hvel, hpos⟩ := served_hold_two g t k hp hk
    obtain ⟨a, b, c, d, e, f⟩ := Update_serving_hold g t k _ (Or.inr hps) hvel hpos
    rw [Update_playerTwo]
    refine ⟨a.trans hps, b, c, ?_, d, ?_⟩
    · intro h1 h2; exact f (not_le.mpr h1) (not_le.mpr h2)
    · intro h1 h2; exact e (not_le.mpr h1) h2

/-- Instance of C5: the constructed game (player one serving, paddle at y = 425) and the
same game with player two serving keep the ball pinned at (40, 450) and (1550, 450). -/
theorem Update_serving_pin_witness :
    ((PongGame.new 3).Update 33 Keys.none).1.m_ball.GetPosition.y = 450 ∧
    (gameServeTwo.Update 33 Keys.none).1.m_ball.GetPosition.y = 450 := by
  have h1 := ((Update_serving_pin (PongGame.new 3) 33 Keys.none).1 rfl rfl).2.2.2.1
    (by norm_num [PongGame.new, PongGame.Update, PongGame.collided, PongGame.ballPos,
    PongGame.served, PongGame.paddle1, PongGame.paddle2, PongGame.movePaddles,
    PongGame.serveStep, PongGame.collideStep, PongGame.wallStep, hitVelocity, amplify,
    deflectY, Keys.none, Keys.serve, Ball.new, Ball.SetPosition, Ball.SetVelocity,
    Ball.GetPosition, Ball.GetVelocity, Paddle.GetPositionSize, Paddle.SetPosition,
    Court.GetDimensions, COURT_MARGIN, WINDOW_WIDTH, WINDOW_HEIGHT, BALL_RADIUS,
    PADDLE_WIDTH, PADDLE_LENGTH, PADDLE_PADDING, PADDLE_SPEED, BALL_VELOCITY,
    BALL_VEL_INCR, SCORE_MOD]) (by norm_num [PongGame.new, PongGame.Update, PongGame.collided, PongGame.ballPos,
    PongGame.served, PongGame.paddle1, PongGame.paddle2, PongGame.movePaddles,
    PongGame.serveStep, PongGame.collideStep, PongGame.wallStep, hitVelocity, amplify,
    deflectY, Keys.none, Keys.serve, Ball.new, Ball.SetPosition, Ball.SetVelocity,
    Ball.GetPosition, Ball.GetVelocity, Paddle.GetPositionSize, Paddle.SetPosition,
    Court.GetDimensions, COURT_MARGIN, WINDOW_WIDTH, WINDOW_HEIGHT, BALL_RADIUS,
    PADDLE_WIDTH, PADDLE_LENGTH, PADDLE_PADDING, PADDLE_SPEED, BALL_VELOCITY,
    BALL_VEL_INCR, SCORE_MOD])
  have h2 := ((Update_serving_pin gameServeTwo 33 Keys.none).2 rfl rfl).2.2.2.1
    (by norm_num [gameServeTwo, PongGame.new, PongGame.Update, PongGame.collided, PongGame.ballPos,
    PongGame.served, PongGame.paddle1, PongGame.paddle2, PongGame.movePaddles,
    PongGame.serveStep, PongGame.collideStep, PongGame.wallStep, hitVelocity, amplify,
    deflectY, Keys.none, Keys.serve, Ball.new, Ball.SetPosition, Ball.SetVelocity,
    Ball.GetPosition, Ball.GetVelocity, Paddle.GetPositionSize, Paddle.SetPosition,
    Court.GetDimensions, COURT_MARGIN, WINDOW_WIDTH, WINDOW_HEIGHT, BALL_RADIUS,
    PADDLE_WIDTH, PADDLE_LENGTH, PADDLE_PADDING, PADDLE_SPEED, BALL_VELOCITY,
    BALL_VEL_INCR, SCORE_MOD]) (by norm_num [gameServeTwo, PongGame.new, PongGame.Update, PongGame.collided, PongGame.ballPos,
    PongGame.served, PongGame.paddle1, PongGame.paddle2, PongGame.movePaddles,
    PongGame.serveStep, PongGame.collideStep, PongGame.wallStep, hitVelocity, amplify,
    deflectY, Keys.none, Keys.serve, Ball.new, Ball.SetPosition, Ball.SetVelocity,
    Ball.GetPosition, Ball.GetVelocity, Paddle.GetPositionSize, Paddle.SetPosition,
    Court.GetDimensions, COURT_MARGIN, WINDOW_WIDTH, WINDOW_HEIGHT, BALL_RADIUS,
    PADDLE_WIDTH, PADDLE_LENGTH, PADDLE_PADDING, PADDLE_SPEED, BALL_VELOCITY,
    BALL_VEL_INCR, SCORE_MOD])
  constructor
  · rw [h1]; norm_num [PongGame.new, PongGame.Update, PongGame.collided, PongGame.ballPos,
    PongGame.served, PongGame.paddle1, PongGame.paddle2, PongGame.movePaddles,
    PongGame.serveStep, PongGame.collideStep, PongGame.wallStep, hitVelocity, amplify,
    deflectY, Keys.none, Keys.serve, Ball.new, Ball.SetPosition, Ball.SetVelocity,
    Ball.GetPosition, Ball.GetVelocity, Paddle.GetPositionSize, Paddle.SetPosition,
    Court.GetDimensions, COURT_MARGIN, WINDOW_WIDTH, WINDOW_HEIGHT, BALL_RADIUS,
    PADDLE_WIDTH, PADDLE_LENGTH, PADDLE_PADDING, PADDLE_SPEED, BALL_VELOCITY,
    BALL_VEL_INCR, SCORE_MOD]
  · rw [h2]; norm_num [gameServeTwo, PongGame.new, PongGame.Update, PongGame.collided, PongGame.ballPos,
    PongGame.served, PongGame.paddle1, PongGame.paddle2, PongGame.movePaddles,
    PongGame.serveStep, PongGame.collideStep, PongGame.wallStep, hitVelocity, amplify,
    deflectY, Keys.none, Keys.serve, Ball.new, Ball.SetPosition, Ball.SetVelocity,
    Ball.GetPosition, Ball.GetVelocity, Paddle.GetPositionSize, Paddle.SetPosition,
    Court.GetDimensions, COURT_MARGIN, WINDOW_WIDTH, WINDOW_HEIGHT, BALL_RADIUS,
    PADDLE_WIDTH, PADDLE_LENGTH, PADDLE_PADDING, PADDLE_SPEED, BALL_VELOCITY,
    BALL_VEL_INCR, SCORE_MOD]

/-- C6: with the paddles at their constructed x-coordinates (30 and 1560), an `Update`
at the fixed tick of 33 ms with the serve key held takes SERVE_PLAYER_ONE to ball
velocity (+BALL_VELOCITY, 0) and phase TOWARD_PLAYER_TWO, and SERVE_PLAYER_TWO to
velocity (-BALL_VELOCITY, 0) and phase TOWARD_PLAYER_ONE. -/
theorem Update_serve_trigger (g : PongGame) (k : Keys)
    (hx1 : g.m_playerOne.GetPositionSize.x = 30)
    (hx2 : g.m_playerTwo.GetPositionSize.x = 1560) (hk : k.Space = true) :
    (g.m_playState = PLAY_STATE.SERVE_PLAYER_ONE →
      (g.Update UPDATE_MS k).1.m_ball.GetVelocity = ⟨BALL_VELOCITY, 0⟩ ∧
      (g.Update UPDATE_MS k).1.m_playState = PLAY_STATE.TOWARD_PLAYER_TWO) ∧
    (g.m_playState = PLAY_STATE.SERVE_PLAYER_TWO →
      (g.Update UPDATE_MS k).1.m_ball.GetVelocity = ⟨-BALL_VELOCITY, 0⟩ ∧
      (g.Update UPDATE_MS k).1.m_playState = PLAY_STATE.TOWARD_PLAYER_ONE) := by
  constructor
  · intro hp
    obtain ⟨hps, hvel, hpos⟩ := served_launch_one g UPDATE_MS k hp hk
    have hbx : (g.ballPos UPDATE_MS k).x + BALL_RADIUS <
        (g.served UPDATE_MS k).m_playerTwo.GetPositionSize.x := by
      unfold PongGame.ballPos; dsimp only
      simp only [Ball.GetPosition, Ball.GetVelocity, hvel, hpos, served_playerOne_x,
        served_playerTwo_x, hx1, hx2]
      norm_num [UPDATE_MS, BALL_VELOCITY, BALL_RADIUS, PADDLE_WIDTH]
    have hno := collideStep_not_reached_two
      { g.served UPDATE_MS k with
        m_ball := (g.served UPDATE_MS k).m_ball.SetPosition (g.ballPos UPDATE_MS k) }
      (g.ballPos UPDATE_MS k) (g.served UPDATE_MS k).m_ball.GetVelocity hps hbx
    obtain ⟨a, b, c⟩ := Update_no_action_velocity g UPDATE_MS k hno
    simp only [Ball.GetVelocity, hvel] at b c
    exact ⟨Vector2D.eq_of _ _ b c, a.trans hps⟩
  · intro hp
    obtain ⟨hps, hvel, hpos⟩ := served_launch_two g UPDATE_MS k hp hk
    have hbx : (g.ballPos UPDATE_MS k).x - BALL_RADIUS >
        (g.served UPDATE_MS k).m_playerOne.GetPositionSize.x + PADDLE_WIDTH := by
      unfold PongGame.ballPos; dsimp only
      simp only [Ball.GetPosition, Ball.GetVelocity, hvel, hpos, served_playerOne_x,
        served_playerTwo_x, hx1, hx2]
      norm_num [UPDATE_MS, BALL_VELOCITY, BALL_RADIUS, PADDLE_WIDTH]
    have hno := collideStep_not_reached_one
      { g.served UPDATE_MS k with
        m_ball := (g.served UPDATE_MS k).m_ball.SetPosition (g.ballPos UPDATE_MS k) }
      (g.ballPos UPDATE_MS k) (g.served UPDATE_MS k).m_ball.GetVelocity hps hbx
    obtain ⟨a, b, c⟩ := Update_no_action_velocity g UPDATE_MS k hno
    simp only [Ball.GetVelocity, hvel] at b c
    exact ⟨Vector2D.eq_of _ _ b c, a.trans hps⟩

/-- Instance of C6: the constructed game served by player one, and the same game served
by player two. -/
theorem Update_serve_trigger_witness :
    (((PongGame.new 3).Update UPDATE_MS Keys.serve).1.m_ball.GetVelocity = ⟨400, 0⟩ ∧
      ((PongGame.new 3).Update UPDATE_MS Keys.serve).1.m_playState =
        PLAY_STATE.TOWARD_PLAYER_TWO) ∧
    ((gameServeTwo.Update UPDATE_MS Keys.serve).1.m_ball.GetVelocity = ⟨-400, 0⟩ ∧
      (gameServeTwo.Update UPDATE_MS Keys.serve).1.m_playState =
        PLAY_STATE.TOWARD_PLAYER_ONE) :=
  ⟨(Update_serve_trigger (PongGame.new 3) Keys.serve
      (by norm_num [PongGame.new, PongGame.Update, PongGame.collided, PongGame.ballPos,
    PongGame.served, PongGame.paddle1, PongGame.paddle2, PongGame.movePaddles,
    PongGame.serveStep, PongGame.collideStep, PongGame.wallStep, hitVelocity, amplify,
    deflectY, Keys.none, Keys.serve, Ball.new, Ball.SetPosition, Ball.SetVelocity,
    Ball.GetPosition, Ball.GetVelocity, Paddle.GetPositionSize, Paddle.SetPosition,
    Court.GetDimensions, COURT_MARGIN, WINDOW_WIDTH, WINDOW_HEIGHT, BALL_RADIUS,
    PADDLE_WIDTH, PADDLE_LENGTH, PADDLE_PADDING, PADDLE_SPEED, BALL_VELOCITY,
    BALL_VEL_INCR, SCORE_MOD]) (by norm_num [PongGame.new, PongGame.Update, PongGame.collided, PongGame.ballPos,
    PongGame.served, PongGame.paddle1, PongGame.paddle2, PongGame.movePaddles,
    PongGame.serveStep, PongGame.collideStep, PongGame.wallStep, hitVelocity, amplify,
    deflectY, Keys.none, Keys.serve, Ball.new, Ball.SetPosition, Ball.SetVelocity,
    Ball.GetPosition, Ball.GetVelocity, Paddle.GetPositionSize, Paddle.SetPosition,
    Court.GetDimensions, COURT_MARGIN, WINDOW_WIDTH, WINDOW_HEIGHT, BALL_RADIUS,
    PADDLE_WIDTH, PADDLE_LENGTH, PADDLE_PADDING, PADDLE_SPEED, BALL_VELOCITY,
    BALL_VEL_INCR, SCORE_MOD]) rfl).1 rfl,
   (Update_serve_trigger gameServeTwo Keys.serve
      (by norm_num [gameServeTwo, PongGame.new, PongGame.Update, PongGame.collided, PongGame.ballPos,
    PongGame.served, PongGame.paddle1, PongGame.paddle2, PongGame.movePaddles,
    PongGame.serveStep, PongGame.collideStep, PongGame.wallStep, hitVelocity, amplify,
    deflectY, Keys.none, Keys.serve, Ball.new, Ball.SetPosition, Ball.SetVelocity,
    Ball.GetPosition, Ball.GetVelocity, Paddle.GetPositionSize, Paddle.SetPosition,
    Court.GetDimensions, COURT_MARGIN, WINDOW_WIDTH, WINDOW_HEIGHT, BALL_RADIUS,
    PADDLE_WIDTH, PADDLE_LENGTH, PADDLE_PADDING, PADDLE_SPEED, BALL_VELOCITY,
    BALL_VEL_INCR, SCORE_MOD]) (by norm_num [gameServeTwo, PongGame.new, PongGame.Update, PongGame.collided, PongGame.ballPos,
    PongGame.served, PongGame.paddle1, PongGame.paddle2, PongGame.movePaddles,
    PongGame.serveStep, PongGame.collideStep, PongGame.wallStep, hitVelocity, amplify,
    deflectY, Keys.none, Keys.serve, Ball.new, Ball.SetPosition, Ball.SetVelocity,
    Ball.GetPosition, Ball.GetVelocity, Paddle.GetPositionSize, Paddle.SetPosition,
    Court.GetDimensions, COURT_MARGIN, WINDOW_WIDTH, WINDOW_HEIGHT, BALL_RADIUS,
    PADDLE_WIDTH, PADDLE_LENGTH, PADDLE_PADDING, PADDLE_SPEED, BALL_VELOCITY,
    BALL_VEL_INCR, SCORE_MOD]) rfl).2 rfl⟩

/-- C7: on a hit of either paddle the velocity stored by the paddle step is the
amplification of (-vx, vy + d), where the deflection d is -BALL_VELOCITY/2 exactly when
ball.y + BALL_RADIUS <= paddle.y + PADDLE_LENGTH/3, +BALL_VELOCITY/2 exactly when that
test fails and ball.y - BALL_RADIUS >= paddle.y + 2*PADDLE_LENGTH/3, and 0 when the
contact is strictly between the two thresholds. -/
theorem Update_deflection (g : PongGame) (t : ℚ) (k : Keys) :
    (g.m_playState = PLAY_STATE.TOWARD_PLAYER_ONE →
      (g.ballPos t k).x - BALL_RADIUS ≤ (g.paddle1 t k).x + PADDLE_WIDTH →
      (g.ballPos t k).y + BALL_RADIUS ≥ (g.paddle1 t k).y →
      (g.ballPos t k).y - BALL_RADIUS ≤ (g.paddle1 t k).y + PADDLE_LENGTH →
      ∃ d : ℚ,
        (g.collided t k).1.m_ball.GetVelocity =
          amplify ⟨-g.m_ball.GetVelocity.x, g.m_ball.GetVelocity.y + d⟩ ∧
        (d = -(BALL_VELOCITY / 2) ↔
          (g.ballPos t k).y + BALL_RADIUS ≤ (g.paddle1 t k).y + PADDLE_LENGTH / 3) ∧
        (d = BALL_VELOCITY / 2 ↔
          ¬ ((g.ballPos t k).y + BALL_RADIUS ≤ (g.paddle1 t k).y + PADDLE_LENGTH / 3) ∧
            (g.ballPos t k).y - BALL_RADIUS ≥ (g.paddle1 t k).y + 2 * PADDLE_LENGTH / 3) ∧
        ((g.ballPos t k).y + BALL_RADIUS > (g.paddle1 t k).y + PADDLE_LENGTH / 3 →
          (g.ballPos t k).y - BALL_RADIUS < (g.paddle1 t k).y + 2 * PADDLE_LENGTH / 3 →
          d = 0)) ∧
    (g.m_playState = PLAY_STATE.TOWARD_PLAYER_TWO →
      (g.ballPos t k).x + BALL_RADIUS ≥ (g.paddle2 t k).x →
      (g.ballPos t k).y + BALL_RADIUS ≥ (g.paddle2 t k).y →
      (g.ballPos t k).y - BALL_RADIUS ≤ (g.paddle2 t k).y + PADDLE_LENGTH →
      ∃ d : ℚ,
        (g.collided t k).1.m_ball.GetVelocity =
          amplify ⟨-g.m_ball.GetVelocity.x, g.m_ball.GetVelocity.y + d⟩ ∧
        (d = -(BALL_VELOCITY / 2) ↔
          (g.ballPos t k).y + BALL_RADIUS ≤ (g.paddle2 t k).y + PADDLE_LENGTH / 3) ∧
        (d = BALL_VELOCITY / 2 ↔
          ¬ ((g.ballPos t k).y + BALL_RADIUS ≤ (g.paddle2 t k).y + PADDLE_LENGTH / 3) ∧
            (g.ballPos t k).y - BALL_RADIUS ≥ (g.paddle2 t k).y + 2 * PADDLE_LENGTH / 3) ∧
        ((g.ballPos t k).y + BALL_RADIUS > (g.paddle2 t k).y + PADDLE_LENGTH / 3 →
          (g.ballPos t k).y - BALL_RADIUS < (g.paddle2 t k).y + 2 * PADDLE_LENGTH / 3 →
          d = 0)) := by
  have hv : (g.collided t k).1.m_ball.GetVelocity = (g.collided t k).2 :=
    collided_velocity g t k
  constructor
  · intro hp hr h1 h2
    obtain ⟨hc, _⟩ := collided_hit_one g t k hp hr h1 h2
    obtain ⟨d, hd, a, b, c⟩ := deflectY_spec (g.ballPos t k) (g.paddle1 t k)
      g.m_ball.GetVelocity.y
    refine ⟨d, ?_, a, b, c⟩
    rw [hv, hc, hitVelocity, hd]
  · intro hp hr h1 h2
    obtain ⟨hc, _⟩ := collided_hit_two g t k hp hr h1 h2
    obtain ⟨d, hd, a, b, c⟩ := deflectY_spec (g.ballPos t k) (g.paddle2 t k)
      g.m_ball.GetVelocity.y
    refine ⟨d, ?_, a, b, c⟩
    rw [hv, hc, hitVelocity, hd]

/-- Instance of C7: a hit in the top third of paddle one and a hit in the bottom third
of paddle two both satisfy the hit conditions, so a deflection term exists for each. -/
theorem Update_deflection_witness :
    (∃ d : ℚ,
      (gameHitTop.collided 33 Keys.none).1.m_ball.GetVelocity =
        amplify ⟨-gameHitTop.m_ball.GetVelocity.x, gameHitTop.m_ball.GetVelocity.y + d⟩ ∧
      d = -(BALL_VELOCITY / 2)) ∧
    (∃ d : ℚ,
      (gameHitLow.collided 33 Keys.none).1.m_ball.GetVelocity =
        amplify ⟨-gameHitLow.m_ball.GetVelocity.x, gameHitLow.m_ball.GetVelocity.y + d⟩ ∧
      d = BALL_VELOCITY / 2) := by
  obtain ⟨d1, a1, b1, _⟩ := (Update_deflection gameHitTop 33 Keys.none).1 rfl
    (by norm_num [gameHitTop, PongGame.new, PongGame.Update, PongGame.collided, PongGame.ballPos,
    PongGame.served, PongGame.paddle1, PongGame.paddle2, PongGame.movePaddles,
    PongGame.serveStep, PongGame.collideStep, PongGame.wallStep, hitVelocity, amplify,
    deflectY, Keys.none, Keys.serve, Ball.new, Ball.SetPosition, Ball.SetVelocity,
    Ball.GetPosition, Ball.GetVelocity, Paddle.GetPositionSize, Paddle.SetPosition,
    Court.GetDimensions, COURT_MARGIN, WINDOW_WIDTH, WINDOW_HEIGHT, BALL_RADIUS,
    PADDLE_WIDTH, PADDLE_LENGTH, PADDLE_PADDING, PADDLE_SPEED, BALL_VELOCITY,
    BALL_VEL_INCR, SCORE_MOD])
    (by norm_num [gameHitTop, PongGame.new, PongGame.Update, PongGame.collided, PongGame.ballPos,
    PongGame.served, PongGame.paddle1, PongGame.paddle2, PongGame.movePaddles,
    PongGame.serveStep, PongGame.collideStep, PongGame.wallStep, hitVelocity, amplify,
    deflectY, Keys.none, Keys.serve, Ball.new, Ball.SetPosition, Ball.SetVelocity,
    Ball.GetPosition, Ball.GetVelocity, Paddle.GetPositionSize, Paddle.SetPosition,
    Court.GetDimensions, COURT_MARGIN, WINDOW_WIDTH, WINDOW_HEIGHT, BALL_RADIUS,
    PADDLE_WIDTH, PADDLE_LENGTH, PADDLE_PADDING, PADDLE_SPEED, BALL_VELOCITY,
    BALL_VEL_INCR, SCORE_MOD])
    (by norm_num [gameHitTop, PongGame.new, PongGame.Update, PongGame.collided, PongGame.ballPos,
    PongGame.served, PongGame.paddle1, PongGame.paddle2, PongGame.movePaddles,
    PongGame.serveStep, PongGame.collideStep, PongGame.wallStep, hitVelocity, amplify,
    deflectY, Keys.none, Keys.serve, Ball.new, Ball.SetPosition, Ball.SetVelocity,
    Ball.GetPosition, Ball.GetVelocity, Paddle.GetPositionSize, Paddle.SetPosition,
    Court.GetDimensions, COURT_MARGIN, WINDOW_WIDTH, WINDOW_HEIGHT, BALL_RADIUS,
    PADDLE_WIDTH, PADDLE_LENGTH, PADDLE_PADDING, PADDLE_SPEED, BALL_VELOCITY,
    BALL_VEL_INCR, SCORE_MOD])
  obtain ⟨d2, a2, _, c2, _⟩ := (Update_deflection gameHitLow 33 Keys.none).2 rfl
    (by norm_num [gameHitLow, PongGame.new, PongGame.Update, PongGame.collided, PongGame.ballPos,
    PongGame.served, PongGame.paddle1, PongGame.paddle2, PongGame.movePaddles,
    PongGame.serveStep, PongGame.collideStep, PongGame.wallStep, hitVelocity, amplify,
    deflectY, Keys.none, Keys.serve, Ball.new, Ball.SetPosition, Ball.SetVelocity,
    Ball.GetPosition, Ball.GetVelocity, Paddle.GetPositionSize, Paddle.SetPosition,
    Court.GetDimensions, COURT_MARGIN, WINDOW_WIDTH, WINDOW_HEIGHT, BALL_RADIUS,
    PADDLE_WIDTH, PADDLE_LENGTH, PADDLE_PADDING, PADDLE_SPEED, BALL_VELOCITY,
    BALL_VEL_INCR, SCORE_MOD])
    (by norm_num [gameHitLow, PongGame.new, PongGame.Update, PongGame.collided, PongGame.ballPos,
    PongGame.served, PongGame.paddle1, PongGame.paddle2, PongGame.movePaddles,
    PongGame.serveStep, PongGame.collideStep, PongGame.wallStep, hitVelocity, amplify,
    deflectY, Keys.none, Keys.serve, Ball.new, Ball.SetPosition, Ball.SetVelocity,
    Ball.GetPosition, Ball.GetVelocity, Paddle.GetPositionSize, Paddle.SetPosition,
    Court.GetDimensions, COURT_MARGIN, WINDOW_WIDTH, WINDOW_HEIGHT, BALL_RADIUS,
    PADDLE_WIDTH, PADDLE_LENGTH, PADDLE_PADDING, PADDLE_SPEED, BALL_VELOCITY,
    BALL_VEL_INCR, SCORE_MOD])
    (by norm_num [gameHitLow, PongGame.new, PongGame.Update, PongGame.collided, PongGame.ballPos,
    PongGame.served, PongGame.paddle1, PongGame.paddle2, PongGame.movePaddles,
    PongGame.serveStep, PongGame.collideStep, PongGame.wallStep, hitVelocity, amplify,
    deflectY, Keys.none, Keys.serve, Ball.new, Ball.SetPosition, Ball.SetVelocity,
    Ball.GetPosition, Ball.GetVelocity, Paddle.GetPositionSize, Paddle.SetPosition,
    Court.GetDimensions, COURT_MARGIN, WINDOW_WIDTH, WINDOW_HEIGHT, BALL_RADIUS,
    PADDLE_WIDTH, PADDLE_LENGTH, PADDLE_PADDING, PADDLE_SPEED, BALL_VELOCITY,
    BALL_VEL_INCR, SCORE_MOD])
  exact ⟨⟨d1, a1, b1.mpr (by norm_num [gameHitTop, PongGame.new, PongGame.Update, PongGame.collided, PongGame.ballPos,
    PongGame.served, PongGame.paddle1, PongGame.paddle2, PongGame.movePaddles,
    PongGame.serveStep, PongGame.collideStep, PongGame.wallStep, hitVelocity, amplify,
    deflectY, Keys.none, Keys.serve, Ball.new, Ball.SetPosition, Ball.SetVelocity,
    Ball.GetPosition, Ball.GetVelocity, Paddle.GetPositionSize, Paddle.SetPosition,
    Court.GetDimensions, COURT_MARGIN, WINDOW_WIDTH, WINDOW_HEIGHT, BALL_RADIUS,
    PADDLE_WIDTH, PADDLE_LENGTH, PADDLE_PADDING, PADDLE_SPEED, BALL_VELOCITY,
    BALL_VEL_INCR, SCORE_MOD])⟩,
    ⟨d2, a2, c2.mpr (by norm_num [gameHitLow, PongGame.new, PongGame.Update, PongGame.collided, PongGame.ballPos,
    PongGame.served, PongGame.paddle1, PongGame.paddle2, PongGame.movePaddles,
    PongGame.serveStep, PongGame.collideStep, PongGame.wallStep, hitVelocity, amplify,
    deflectY, Keys.none, Keys.serve, Ball.new, Ball.SetPosition, Ball.SetVelocity,
    Ball.GetPosition, Ball.GetVelocity, Paddle.GetPositionSize, Paddle.SetPosition,
    Court.GetDimensions, COURT_MARGIN, WINDOW_WIDTH, WINDOW_HEIGHT, BALL_RADIUS,
    PADDLE_WIDTH, PADDLE_LENGTH, PADDLE_PADDING, PADDLE_SPEED, BALL_VELOCITY,
    BALL_VEL_INCR, SCORE_MOD])⟩⟩

/-- C8 fails on the code when a hit and a wall bounce fall in the same tick: the ball
reaches paddle one (at x = 30) while crossing the top edge, the hit stores
x = paddle.x + PADDLE_WIDTH + BALL_RADIUS + 1 = 51 and flips the phase, and the wall
step then rewrites the position from the stale local `ballPos`, leaving x = 31. -/
theorem Update_hit_clamp_overwritten :
    gameCorner.m_playState = PLAY_STATE.TOWARD_PLAYER_ONE ∧
    (gameCorner.ballPos 33 Keys.none).x - BALL_RADIUS ≤
      (gameCorner.paddle1 33 Keys.none).x + PADDLE_WIDTH ∧
    (gameCorner.ballPos 33 Keys.none).y + BALL_RADIUS ≥ (gameCorner.paddle1 33 Keys.none).y ∧
    (gameCorner.ballPos 33 Keys.none).y - BALL_RADIUS ≤
      (gameCorner.paddle1 33 Keys.none).y + PADDLE_LENGTH ∧
    (gameCorner.collided 33 Keys.none).1.m_ball.GetPosition.x = 51 ∧
    (gameCorner.Update 33 Keys.none).1.m_playState = PLAY_STATE.TOWARD_PLAYER_TWO ∧
    (gameCorner.Update 33 Keys.none).1.m_ball.GetPosition = ⟨31, 10⟩ ∧
    (gameCorner.Update 33 Keys.none).1.m_ball.GetPosition.x ≠
      (gameCorner.Update 33 Keys.none).1.m_playerOne.GetPositionSize.x + PADDLE_WIDTH +
        BALL_RADIUS + 1 := by
  have hpos : (gameCorner.Update 33 Keys.none).1.m_ball.GetPosition = ⟨31, 10⟩ := by
    norm_num [gameCorner, PongGame.new, PongGame.Update, PongGame.collided, PongGame.ballPos,
    PongGame.served, PongGame.paddle1, PongGame.paddle2, PongGame.movePaddles,
    PongGame.serveStep, PongGame.collideStep, PongGame.wallStep, hitVelocity, amplify,
    deflectY, Keys.none, Keys.serve, Ball.new, Ball.SetPosition, Ball.SetVelocity,
    Ball.GetPosition, Ball.GetVelocity, Paddle.GetPositionSize, Paddle.SetPosition,
    Court.GetDimensions, COURT_MARGIN, WINDOW_WIDTH, WINDOW_HEIGHT, BALL_RADIUS,
    PADDLE_WIDTH, PADDLE_LENGTH, PADDLE_PADDING, PADDLE_SPEED, BALL_VELOCITY,
    BALL_VEL_INCR, SCORE_MOD]
  refine ⟨rfl, ?_, ?_, ?_, ?_, ?_, hpos, ?_⟩
  · norm_num [gameCorner, PongGame.new, PongGame.Update, PongGame.collided, PongGame.ballPos,
    PongGame.served, PongGame.paddle1, PongGame.paddle2, PongGame.movePaddles,
    PongGame.serveStep, PongGame.collideStep, PongGame.wallStep, hitVelocity, amplify,
    deflectY, Keys.none, Keys.serve, Ball.new, Ball.SetPosition, Ball.SetVelocity,
    Ball.GetPosition, Ball.GetVelocity, Paddle.GetPositionSize, Paddle.SetPosition,
    Court.GetDimensions, COURT_MARGIN, WINDOW_WIDTH, WINDOW_HEIGHT, BALL_RADIUS,
    PADDLE_WIDTH, PADDLE_LENGTH, PADDLE_PADDING, PADDLE_SPEED, BALL_VELOCITY,
    BALL_VEL_INCR, SCORE_MOD]
  · norm_num [gameCorner, PongGame.new, PongGame.Update, PongGame.collided, PongGame.ballPos,
    PongGame.served, PongGame.paddle1, PongGame.paddle2, PongGame.movePaddles,
    PongGame.serveStep, PongGame.collideStep, PongGame.wallStep, hitVelocity, amplify,
    deflectY, Keys.none, Keys.serve, Ball.new, Ball.SetPosition, Ball.SetVelocity,
    Ball.GetPosition, Ball.GetVelocity, Paddle.GetPositionSize, Paddle.SetPosition,
    Court.GetDimensions, COURT_MARGIN, WINDOW_WIDTH, WINDOW_HEIGHT, BALL_RADIUS,
    PADDLE_WIDTH, PADDLE_LENGTH, PADDLE_PADDING, PADDLE_SPEED, BALL_VELOCITY,
    BALL_VEL_INCR, SCORE_MOD]
  · norm_num [gameCorner, PongGame.new, PongGame.Update, PongGame.collided, PongGame.ballPos,
    PongGame.served, PongGame.paddle1, PongGame.paddle2, PongGame.movePaddles,
    PongGame.serveStep, PongGame.collideStep, PongGame.wallStep, hitVelocity, amplify,
    deflectY, Keys.none, Keys.serve, Ball.new, Ball.SetPosition, Ball.SetVelocity,
    Ball.GetPosition, Ball.GetVelocity, Paddle.GetPositionSize, Paddle.SetPosition,
    Court.GetDimensions, COURT_MARGIN, WINDOW_WIDTH, WINDOW_HEIGHT, BALL_RADIUS,
    PADDLE_WIDTH, PADDLE_LENGTH, PADDLE_PADDING, PADDLE_SPEED, BALL_VELOCITY,
    BALL_VEL_INCR, SCORE_MOD]
  · norm_num [gameCorner, PongGame.new, PongGame.Update, PongGame.collided, PongGame.ballPos,
    PongGame.served, PongGame.paddle1, PongGame.paddle2, PongGame.movePaddles,
    PongGame.serveStep, PongGame.collideStep, PongGame.wallStep, hitVelocity, amplify,
    deflectY, Keys.none, Keys.serve, Ball.new, Ball.SetPosition, Ball.SetVelocity,
    Ball.GetPosition, Ball.GetVelocity, Paddle.GetPositionSize, Paddle.SetPosition,
    Court.GetDimensions, COURT_MARGIN, WINDOW_WIDTH, WINDOW_HEIGHT, BALL_RADIUS,
    PADDLE_WIDTH, PADDLE_LENGTH, PADDLE_PADDING, PADDLE_SPEED, BALL_VELOCITY,
    BALL_VEL_INCR, SCORE_MOD]
  · norm_num [gameCorner, PongGame.new, PongGame.Update, PongGame.collided, PongGame.ballPos,
    PongGame.served, PongGame.paddle1, PongGame.paddle2, PongGame.movePaddles,
    PongGame.serveStep, PongGame.collideStep, PongGame.wallStep, hitVelocity, amplify,
    deflectY, Keys.none, Keys.serve, Ball.new, Ball.SetPosition, Ball.SetVelocity,
    Ball.GetPosition, Ball.GetVelocity, Paddle.GetPositionSize, Paddle.SetPosition,
    Court.GetDimensions, COURT_MARGIN, WINDOW_WIDTH, WINDOW_HEIGHT, BALL_RADIUS,
    PADDLE_WIDTH, PADDLE_LENGTH, PADDLE_PADDING, PADDLE_SPEED, BALL_VELOCITY,
    BALL_VEL_INCR, SCORE_MOD]
  · rw [hpos]; norm_num [gameCorner, PongGame.new, PongGame.Update, PongGame.collided, PongGame.ballPos,
    PongGame.served, PongGame.paddle1, PongGame.paddle2, PongGame.movePaddles,
    PongGame.serveStep, PongGame.collideStep, PongGame.wallStep, hitVelocity, amplify,
    deflectY, Keys.none, Keys.serve, Ball.new, Ball.SetPosition, Ball.SetVelocity,
    Ball.GetPosition, Ball.GetVelocity, Paddle.GetPositionSize, Paddle.SetPosition,
    Court.GetDimensions, COURT_MARGIN, WINDOW_WIDTH, WINDOW_HEIGHT, BALL_RADIUS,
    PADDLE_WIDTH, PADDLE_LENGTH, PADDLE_PADDING, PADDLE_SPEED, BALL_VELOCITY,
    BALL_VEL_INCR, SCORE_MOD]

/-! ## Button and menu -/

lemma Button.hitTest_iff (b : Button) (q : Vector2D) :
    b.hitTest q = true ↔
      (b.m_positionAndSize.x ≤ q.x ∧
       q.x ≤ b.m_positionAndSize.x + b.m_positionAndSize.width ∧
       b.m_positionAndSize.y ≤ q.y ∧
       q.y ≤ b.m_positionAndSize.y + b.m_positionAndSize.height) := by
  unfold Button.hitTest
  simp

lemma Button.HandleInput_fired (b : Button) (q : Vector2D) (ms : MOUSE_STATE) :
    (b.HandleInput q ms).2 = true ↔ (ms = MOUSE_STATE.DOWN ∧ b.hitTest q = true) := by
  unfold Button.HandleInput; dsimp only
  by_cases hq : b.hitTest q = true <;> by_cases hm : ms = MOUSE_STATE.DOWN <;>
    simp [hq, hm]

lemma Button.HandleInput_state (b : Button) (q : Vector2D) (ms : MOUSE_STATE) :
    (b.HandleInput q ms).1.m_state =
      if ms = MOUSE_STATE.DOWN ∧ b.hitTest q = true then Button.STATE.DOWN
      else if b.hitTest q = true then Button.STATE.HOVER else Button.STATE.UP := by
  unfold Button.HandleInput; dsimp only
  by_cases hq : b.hitTest q = true <;> by_cases hm : ms = MOUSE_STATE.DOWN <;>
    simp [hq, hm]

/-- C9: for a button of non-negative width and height, `HandleInput` returns true and
leaves the state DOWN exactly when the mouse state is DOWN and the pointer satisfies
x <= px <= x + width and y <= py <= y + height; otherwise it returns false with state
HOVER if the pointer is inside those inclusive bounds and UP if not. The four corners
are inside, and a pointer one unit outside any edge is outside. -/
theorem Button.HandleInput_spec (b : Button) (q : Vector2D) (ms : MOUSE_STATE)
    (hw : 0 ≤ b.m_positionAndSize.width) (hh : 0 ≤ b.m_positionAndSize.height) :
    ((b.HandleInput q ms).2 = true ↔
      (ms = MOUSE_STATE.DOWN ∧
        b.m_positionAndSize.x ≤ q.x ∧
        q.x ≤ b.m_positionAndSize.x + b.m_positionAndSize.width ∧
        b.m_positionAndSize.y ≤ q.y ∧
        q.y ≤ b.m_positionAndSize.y + b.m_positionAndSize.height)) ∧
    ((b.HandleInput q ms).2 = true → (b.HandleInput q ms).1.m_state = Button.STATE.DOWN) ∧
    ((b.HandleInput q ms).2 = false →
      ((b.m_positionAndSize.x ≤ q.x ∧
        q.x ≤ b.m_positionAndSize.x + b.m_positionAndSize.width ∧
        b.m_positionAndSize.y ≤ q.y ∧
        q.y ≤ b.m_positionAndSize.y + b.m_positionAndSize.height) →
        (b.HandleInput q ms).1.m_state = Button.STATE.HOVER) ∧
      (¬ (b.m_positionAndSize.x ≤ q.x ∧
        q.x ≤ b.m_positionAndSize.x + b.m_positionAndSize.width ∧
        b.m_positionAndSize.y ≤ q.y ∧
        q.y ≤ b.m_positionAndSize.y + b.m_positionAndSize.height) →
        (b.HandleInput q ms).1.m_state = Button.STATE.UP)) ∧
    (b.HandleInput q ms).1.m_positionAndSize = b.m_positionAndSize ∧
    (b.hitTest ⟨b.m_positionAndSize.x, b.m_positionAndSize.y⟩ = true ∧
      b.hitTest ⟨b.m_positionAndSize.x + b.m_positionAndSize.width,
        b.m_positionAndSize.y⟩ = true ∧
      b.hitTest ⟨b.m_positionAndSize.x,
        b.m_positionAndSize.y + b.m_positionAndSize.height⟩ = true ∧
      b.hitTest ⟨b.m_positionAndSize.x + b.m_positionAndSize.width,
        b.m_positionAndSize.y + b.m_positionAndSize.height⟩ = true) ∧
    (∀ c : ℚ,
      b.hitTest ⟨b.m_positionAndSize.x - 1, c⟩ = false ∧
      b.hitTest ⟨b.m_positionAndSize.x + b.m_positionAndSize.width + 1, c⟩ = false ∧
      b.hitTest ⟨c, b.m_positionAndSize.y - 1⟩ = false ∧
      b.hitTest ⟨c, b.m_positionAndSize.y + b.m_positionAndSize.height + 1⟩ = false) := by
  have hf := Button.HandleInput_fired b q ms
  have hst := Button.HandleInput_state b q ms
  have hit := Button.hitTest_iff b q
  refine ⟨?_, ?_, ?_, ?_, ?_, ?_⟩
  · rw [hf, hit]
  · intro h
    rw [hst, if_pos (hf.mp h)]
  · intro h
    have hn : ¬ (ms = MOUSE_STATE.DOWN ∧ b.hitTest q = true) := by
      intro hc; rw [hf.mpr hc] at h; cases h
    constructor
    · intro hin
      rw [hst, if_neg hn, if_pos (hit.mpr hin)]
    · intro hout
      have : ¬ b.hitTest q = true := fun hc => hout (hit.mp hc)
      rw [hst, if_neg hn, if_neg this]
  · unfold Button.HandleInput; dsimp only
    split_ifs <;> rfl
  · refine ⟨?_, ?_, ?_, ?_⟩ <;> rw [Button.hitTest_iff] <;> dsimp only <;>
      refine ⟨?_, ?_, ?_, ?_⟩ <;> linarith
  · intro c
    refine ⟨?_, ?_, ?_, ?_⟩ <;> rw [Bool.eq_false_iff, Ne, Button.hitTest_iff] <;>
      dsimp only <;> intro h <;> obtain ⟨h1, h2, h3, h4⟩ := h <;> linarith

/-- Instance of C9: the constructed play button (bounds 800, 450, 140, 65) fires on a
press at its top-left corner. -/
theorem Button.HandleInput_spec_witness :
    (PongMenu.new.m_playButton.HandleInput ⟨800, 450⟩ MOUSE_STATE.DOWN).2 = true :=
  (Button.HandleInput_spec PongMenu.new.m_playButton ⟨800, 450⟩ MOUSE_STATE.DOWN
    (by norm_num [PongMenu.new, Button.new])
    (by norm_num [PongMenu.new, Button.new])).1.mpr
    (by norm_num [PongMenu.new, Button.new, WINDOW_WIDTH, WINDOW_HEIGHT])

/-- C10: for a menu whose fired flags are both clear, `Update` returns EXIT if the exit
button fires this tick (a mouse button pressed with the pointer inside the exit button's
inclusive bounds), else IN_GAME if the play button fires this tick, else MENU. -/
theorem PongMenu.Update_result (m : PongMenu) (t : ℚ) (q : Vector2D) (mouse : MouseButtons)
    (he : m.m_shouldExit = false) (hs : m.m_shouldStart = false) :
    (m.Update t q mouse).2 =
      if (mouse.Left = true ∨ mouse.Middle = true ∨ mouse.Right = true) ∧
          m.m_exitButton.m_positionAndSize.x ≤ q.x ∧
          q.x ≤ m.m_exitButton.m_positionAndSize.x + m.m_exitButton.m_positionAndSize.width ∧
          m.m_exitButton.m_positionAndSize.y ≤ q.y ∧
          q.y ≤ m.m_exitButton.m_positionAndSize.y + m.m_exitButton.m_positionAndSize.height
      then GAME_STATE.EXIT
      else if (mouse.Left = true ∨ mouse.Middle = true ∨ mouse.Right = true) ∧
          m.m_playButton.m_positionAndSize.x ≤ q.x ∧
          q.x ≤ m.m_playButton.m_positionAndSize.x + m.m_playButton.m_positionAndSize.width ∧
          m.m_playButton.m_positionAndSize.y ≤ q.y ∧
          q.y ≤ m.m_playButton.m_positionAndSize.y + m.m_playButton.m_positionAndSize.height
      then GAME_STATE.IN_GAME
      else GAME_STATE.MENU := by
  have hdown : mouse.state = MOUSE_STATE.DOWN ↔
      (mouse.Left = true ∨ mouse.Middle = true ∨ mouse.Right = true) := by
    unfold MouseButtons.state
    split_ifs with h <;> simp [h]
  have fe := Button.HandleInput_fired m.m_exitButton q mouse.state
  have fp := Button.HandleInput_fired m.m_playButton q mouse.state
  rw [hdown, Button.hitTest_iff] at fe fp
  unfold PongMenu.Update; dsimp only
  rw [he, hs]
  by_cases hE : (m.m_exitButton.HandleInput q mouse.state).2 = true
  · rw [if_pos (fe.mp hE)]
    simp [hE]
  · have hE2 : ¬ ((mouse.Left = true ∨ mouse.Middle = true ∨ mouse.Right = true) ∧
          m.m_exitButton.m_positionAndSize.x ≤ q.x ∧
          q.x ≤ m.m_exitButton.m_positionAndSize.x + m.m_exitButton.m_positionAndSize.width ∧
          m.m_exitButton.m_positionAndSize.y ≤ q.y ∧
          q.y ≤ m.m_exitButton.m_positionAndSize.y +
            m.m_exitButton.m_positionAndSize.height) := fun h => hE (fe.mpr h)
    rw [if_neg hE2]
    by_cases hP : (m.m_playButton.HandleInput q mouse.state).2 = true
    · rw [if_pos (fp.mp hP)]
      simp [hE, hP]
    · rw [if_neg (fun h => hP (fp.mpr h))]
      simp [hE, hP]

/-- Instance of C10: on the constructed menu a left press at (810, 560), inside the
exit button, returns EXIT. -/
theorem PongMenu.Update_result_witness :
    (PongMenu.new.Update 33 ⟨810, 560⟩ ⟨true, false, false⟩).2 = GAME_STATE.EXIT := by
  rw [PongMenu.Update_result PongMenu.new 33 ⟨810, 560⟩ ⟨true, false, false⟩ rfl rfl]
  norm_num [PongMenu.new, Button.new, WINDOW_WIDTH, WINDOW_HEIGHT]

/-! ## Menu reset, paddle movement, free flight and the court bound -/

lemma MouseButtons.state_none : (⟨false, false, false⟩ : MouseButtons).state = MOUSE_STATE.UP := by
  simp [MouseButtons.state]

lemma Button.HandleInput_up (b : Button) (q : Vector2D) :
    (b.HandleInput q MOUSE_STATE.UP).2 = false := by
  unfold Button.HandleInput; dsimp only
  simp

/-- C11: for every menu state, whatever flags were fired earlier, `Reset` followed by
`Update` with no pointer button pressed returns MENU for every pointer position. -/
theorem PongMenu.Reset_then_Update (m : PongMenu) (t : ℚ) (q : Vector2D) :
    (m.Reset.Update t q ⟨false, false, false⟩).2 = GAME_STATE.MENU := by
  unfold PongMenu.Update; dsimp only
  rw [MouseButtons.state_none, Button.HandleInput_up, Button.HandleInput_up]
  simp [PongMenu.Reset]

lemma movePaddles_playerOne_rect (g : PongGame) (t : ℚ) (k : Keys) :
    (g.movePaddles t k).m_playerOne.GetPositionSize =
      { g.m_playerOne.GetPositionSize with
        y := g.m_playerOne.GetPositionSize.y - (if k.Q then PADDLE_SPEED * t else 0) +
          (if k.Z then PADDLE_SPEED * t else 0) } := by
  unfold PongGame.movePaddles; dsimp only
  split_ifs <;> simp [Paddle.SetPosition, Paddle.GetPositionSize]

lemma movePaddles_playerTwo_rect (g : PongGame) (t : ℚ) (k : Keys) :
    (g.movePaddles t k).m_playerTwo.GetPositionSize =
      { g.m_playerTwo.GetPositionSize with
        y := g.m_playerTwo.GetPositionSize.y - (if k.P then PADDLE_SPEED * t else 0) +
          (if k.Period then PADDLE_SPEED * t else 0) } := by
  unfold PongGame.movePaddles; dsimp only
  split_ifs <;> simp [Paddle.SetPosition, Paddle.GetPositionSize]

lemma Update_playerOne_rect (g : PongGame) (t : ℚ) (k : Keys) :
    (g.Update t k).1.m_playerOne.GetPositionSize =
      { g.m_playerOne.GetPositionSize with
        y := g.m_playerOne.GetPositionSize.y -
          (if k.Q then PADDLE_SPEED * (t / 1000) else 0) +
          (if k.Z then PADDLE_SPEED * (t / 1000) else 0) } := by
  rw [Update_playerOne, PongGame.served, serveStep_playerOne, movePaddles_playerOne_rect]

lemma Update_playerTwo_rect (g : PongGame) (t : ℚ) (k : Keys) :
    (g.Update t k).1.m_playerTwo.GetPositionSize =
      { g.m_playerTwo.GetPositionSize with
        y := g.m_playerTwo.GetPositionSize.y -
          (if k.P then PADDLE_SPEED * (t / 1000) else 0) +
          (if k.Period then PADDLE_SPEED * (t / 1000) else 0) } := by
  rw [Update_playerTwo, PongGame.served, serveStep_playerTwo, movePaddles_playerTwo_rect]

lemma ballPos_toward (g : PongGame) (t : ℚ) (k : Keys)
    (h : g.m_playState = PLAY_STATE.TOWARD_PLAYER_ONE ∨
      g.m_playState = PLAY_STATE.TOWARD_PLAYER_TWO) :
    g.ballPos t k =
      ⟨g.m_ball.GetPosition.x + g.m_ball.GetVelocity.x * (t / 1000),
       g.m_ball.GetPosition.y + g.m_ball.GetVelocity.y * (t / 1000)⟩ := by
  unfold PongGame.ballPos; dsimp only
  rcases h with h | h
  · rw [served_ball_toward_one g t k h]
  · rw [served_ball_toward_two g t k h]

/-- A tick in which the collision switch takes no action and the integrated ball is
strictly inside the court vertically: only the position changes. -/
lemma Update_free_flight (g : PongGame) (t : ℚ) (k : Keys)
    (hno : PongGame.collideStep
        { g.served t k with m_ball := (g.served t k).m_ball.SetPosition (g.ballPos t k) }
        (g.ballPos t k) (g.served t k).m_ball.GetVelocity =
      ({ g.served t k with m_ball := (g.served t k).m_ball.SetPosition (g.ballPos t k) },
        (g.served t k).m_ball.GetVelocity))
    (h1 : g.m_court.GetDimensions.y < (g.ballPos t k).y)
    (h2 : (g.ballPos t k).y < g.m_court.GetDimensions.y + g.m_court.GetDimensions.height) :
    (g.Update t k).1 =
      { g.served t k with m_ball := (g.served t k).m_ball.SetPosition (g.ballPos t k) } := by
  rw [Update_of_no_action g t k hno]
  apply wallStep_inside
  · simpa using h1
  · simpa using h2

/-- C15: in a Toward phase, when after integration the ball has not reached the target
paddle and its y is strictly between the court's top and bottom edges, `Update` sets the
ball's position to old position + velocity * (tickMs/1000) and leaves the velocity, the
phase and both scores unchanged. -/
theorem Update_not_reached (g : PongGame) (t : ℚ) (k : Keys)
    (h1 : g.m_court.GetDimensions.y < (g.ballPos t k).y)
    (h2 : (g.ballPos t k).y < g.m_court.GetDimensions.y + g.m_court.GetDimensions.height) :
    (g.m_playState = PLAY_STATE.TOWARD_PLAYER_ONE →
      (g.ballPos t k).x - BALL_RADIUS > (g.paddle1 t k).x + PADDLE_WIDTH →
      (g.Update t k).1.m_ball.GetPosition =
        ⟨g.m_ball.GetPosition.x + g.m_ball.GetVelocity.x * (t / 1000),
         g.m_ball.GetPosition.y + g.m_ball.GetVelocity.y * (t / 1000)⟩ ∧
      (g.Update t k).1.m_ball.GetVelocity = g.m_ball.GetVelocity ∧
      (g.Update t k).1.m_playState = PLAY_STATE.TOWARD_PLAYER_ONE ∧
      (g.Update t k).1.m_playerOneScore = g.m_playerOneScore ∧
      (g.Update t k).1.m_playerTwoScore = g.m_playerTwoScore) ∧
    (g.m_playState = PLAY_STATE.TOWARD_PLAYER_TWO →
      (g.ballPos t k).x + BALL_RADIUS < (g.paddle2 t k).x →
      (g.Update t k).1.m_ball.GetPosition =
        ⟨g.m_ball.GetPosition.x + g.m_ball.GetVelocity.x * (t / 1000),
         g.m_ball.GetPosition.y + g.m_ball.GetVelocity.y * (t / 1000)⟩ ∧
      (g.Update t k).1.m_ball.GetVelocity = g.m_ball.GetVelocity ∧
      (g.Update t k).1.m_playState = PLAY_STATE.TOWARD_PLAYER_TWO ∧
      (g.Update t k).1.m_playerOneScore = g.m_playerOneScore ∧
      (g.Update t k).1.m_playerTwoScore = g.m_playerTwoScore) := by
  constructor
  · intro hp hr
    have hno := collideStep_not_reached_one
      { g.served t k with m_ball := (g.served t k).m_ball.SetPosition (g.ballPos t k) }
      (g.ballPos t k) (g.served t k).m_ball.GetVelocity
      (served_playState_toward_one g t k hp) hr
    rw [Update_free_flight g t k hno h1 h2, ← ballPos_toward g t k (Or.inl hp)]
    simp [Ball.SetPosition, Ball.GetPosition, Ball.GetVelocity,
      served_ball_toward_one g t k hp, served_playState_toward_one g t k hp]
  · intro hp hr
    have hno := collideStep_not_reached_two
      { g.served t k with m_ball := (g.served t k).m_ball.SetPosition (g.ballPos t k) }
      (g.ballPos t k) (g.served t k).m_ball.GetVelocity
      (served_playState_toward_two g t k hp) hr
    rw [Update_free_flight g t k hno h1 h2, ← ballPos_toward g t k (Or.inr hp)]
    simp [Ball.SetPosition, Ball.GetPosition, Ball.GetVelocity,
      served_ball_toward_two g t k hp, served_playState_toward_two g t k hp]

/-- Instance of C15: one 33 ms tick of a mid-court rally toward player two, and one
toward player one, only move the ball. -/
theorem Update_not_reached_witness :
    ((gameRallyTwo.Update 33 Keys.none).1.m_ball.GetPosition = ⟨81518 / 100, 44142 / 100⟩ ∧
      (gameRallyTwo.Update 33 Keys.none).1.m_ball.GetVelocity = ⟨460, -260⟩) ∧
    ((gameRallyOne.Update 33 Keys.none).1.m_ball.GetPosition = ⟨78482 / 100, 45858 / 100⟩ ∧
      (gameRallyOne.Update 33 Keys.none).1.m_ball.GetVelocity = ⟨-460, 260⟩) := by
  have h2 := (Update_not_reached gameRallyTwo 33 Keys.none
    (by norm_num [gameRallyTwo, PongGame.new, PongGame.Update, PongGame.collided, PongGame.ballPos,
    PongGame.served, PongGame.paddle1, PongGame.paddle2, PongGame.movePaddles,
    PongGame.serveStep, PongGame.collideStep, PongGame.wallStep, hitVelocity, amplify,
    deflectY, Keys.none, Keys.serve, Ball.new, Ball.SetPosition, Ball.SetVelocity,
    Ball.GetPosition, Ball.GetVelocity, Paddle.GetPositionSize, Paddle.SetPosition,
    Court.GetDimensions, COURT_MARGIN, WINDOW_WIDTH, WINDOW_HEIGHT, BALL_RADIUS,
    PADDLE_WIDTH, PADDLE_LENGTH, PADDLE_PADDING, PADDLE_SPEED, BALL_VELOCITY,
    BALL_VEL_INCR, SCORE_MOD])
    (by norm_num [gameRallyTwo, PongGame.new, PongGame.Update, PongGame.collided, PongGame.ballPos,
    PongGame.served, PongGame.paddle1, PongGame.paddle2, PongGame.movePaddles,
    PongGame.serveStep, PongGame.collideStep, PongGame.wallStep, hitVelocity, amplify,
    deflectY, Keys.none, Keys.serve, Ball.new, Ball.SetPosition, Ball.SetVelocity,
    Ball.GetPosition, Ball.GetVelocity, Paddle.GetPositionSize, Paddle.SetPosition,
    Court.GetDimensions, COURT_MARGIN, WINDOW_WIDTH, WINDOW_HEIGHT, BALL_RADIUS,
    PADDLE_WIDTH, PADDLE_LENGTH, PADDLE_PADDING, PADDLE_SPEED, BALL_VELOCITY,
    BALL_VEL_INCR, SCORE_MOD])).2 rfl
    (by norm_num [gameRallyTwo, PongGame.new, PongGame.Update, PongGame.collided, PongGame.ballPos,
    PongGame.served, PongGame.paddle1, PongGame.paddle2, PongGame.movePaddles,
    PongGame.serveStep, PongGame.collideStep, PongGame.wallStep, hitVelocity, amplify,
    deflectY, Keys.none, Keys.serve, Ball.new, Ball.SetPosition, Ball.SetVelocity,
    Ball.GetPosition, Ball.GetVelocity, Paddle.GetPositionSize, Paddle.SetPosition,
    Court.GetDimensions, COURT_MARGIN, WINDOW_WIDTH, WINDOW_HEIGHT, BALL_RADIUS,
    PADDLE_WIDTH, PADDLE_LENGTH, PADDLE_PADDING, PADDLE_SPEED, BALL_VELOCITY,
    BALL_VEL_INCR, SCORE_MOD])
  have h1 := (Update_not_reached gameRallyOne 33 Keys.none
    (by norm_num [gameRallyOne, PongGame.new, PongGame.Update, PongGame.collided, PongGame.ballPos,
    PongGame.served, PongGame.paddle1, PongGame.paddle2, PongGame.movePaddles,
    PongGame.serveStep, PongGame.collideStep, PongGame.wallStep, hitVelocity, amplify,
    deflectY, Keys.none, Keys.serve, Ball.new, Ball.SetPosition, Ball.SetVelocity,
    Ball.GetPosition, Ball.GetVelocity, Paddle.GetPositionSize, Paddle.SetPosition,
    Court.GetDimensions, COURT_MARGIN, WINDOW_WIDTH, WINDOW_HEIGHT, BALL_RADIUS,
    PADDLE_WIDTH, PADDLE_LENGTH, PADDLE_PADDING, PADDLE_SPEED, BALL_VELOCITY,
    BALL_VEL_INCR, SCORE_MOD])
    (by norm_num [gameRallyOne, PongGame.new, PongGame.Update, PongGame.collided, PongGame.ballPos,
    PongGame.served, PongGame.paddle1, PongGame.paddle2, PongGame.movePaddles,
    PongGame.serveStep, PongGame.collideStep, PongGame.wallStep, hitVelocity, amplify,
    deflectY, Keys.none, Keys.serve, Ball.new, Ball.SetPosition, Ball.SetVelocity,
    Ball.GetPosition, Ball.GetVelocity, Paddle.GetPositionSize, Paddle.SetPosition,
    Court.GetDimensions, COURT_MARGIN, WINDOW_WIDTH, WINDOW_HEIGHT, BALL_RADIUS,
    PADDLE_WIDTH, PADDLE_LENGTH, PADDLE_PADDING, PADDLE_SPEED, BALL_VELOCITY,
    BALL_VEL_INCR, SCORE_MOD])).1 rfl
    (by norm_num [gameRallyOne, PongGame.new, PongGame.Update, PongGame.collided, PongGame.ballPos,
    PongGame.served, PongGame.paddle1, PongGame.paddle2, PongGame.movePaddles,
    PongGame.serveStep, PongGame.collideStep, PongGame.wallStep, hitVelocity, amplify,
    deflectY, Keys.none, Keys.serve, Ball.new, Ball.SetPosition, Ball.SetVelocity,
    Ball.GetPosition, Ball.GetVelocity, Paddle.GetPositionSize, Paddle.SetPosition,
    Court.GetDimensions, COURT_MARGIN, WINDOW_WIDTH, WINDOW_HEIGHT, BALL_RADIUS,
    PADDLE_WIDTH, PADDLE_LENGTH, PADDLE_PADDING, PADDLE_SPEED, BALL_VELOCITY,
    BALL_VEL_INCR, SCORE_MOD])
  refine ⟨⟨?_, h2.2.1⟩, ⟨?_, h1.2.1⟩⟩
  · rw [h2.1]; norm_num [gameRallyTwo, Ball.GetPosition, Ball.GetVelocity, PongGame.new]
  · rw [h1.1]; norm_num [gameRallyOne, Ball.GetPosition, Ball.GetVelocity, PongGame.new]

/-- The collision switch never changes the stored y of a ball stored at `ballPos`. -/
lemma collideStep_position_y (s : PongGame) (p v : Vector2D) (h : s.m_ball.m_position = p) :
    (s.collideStep p v).1.m_ball.m_position.y = p.y := by
  unfold PongGame.collideStep; dsimp only
  split <;> (try split_ifs) <;> simp [h, Ball.SetVelocity, Ball.SetPosition]

lemma collided_position_y (g : PongGame) (t : ℚ) (k : Keys) :
    (g.collided t k).1.m_ball.m_position.y = (g.ballPos t k).y := by
  unfold PongGame.collided; dsimp only
  exact collideStep_position_y _ _ _ rfl

/-- C18: for every game state with court height >= 0, every tick duration and key
input, the ball's y after `Update` satisfies court.y <= y <= court.y + court.height. -/
theorem Update_ball_in_court (g : PongGame) (t : ℚ) (k : Keys)
    (hh : 0 ≤ g.m_court.GetDimensions.height) :
    g.m_court.GetDimensions.y ≤ (g.Update t k).1.m_ball.GetPosition.y ∧
    (g.Update t k).1.m_ball.GetPosition.y ≤
      g.m_court.GetDimensions.y + g.m_court.GetDimensions.height := by
  have hc : (g.collided t k).1.m_court = g.m_court := collided_court g t k
  rw [Update_fst]
  by_cases h1 : (g.ballPos t k).y ≤ (g.collided t k).1.m_court.GetDimensions.y
  · rw [wallStep_top _ _ _ h1, hc]
    simp only [Ball.SetPosition, Ball.SetVelocity, Ball.GetPosition]
    constructor <;> linarith
  · by_cases h2 : (g.ballPos t k).y ≥ (g.collided t k).1.m_court.GetDimensions.y +
        (g.collided t k).1.m_court.GetDimensions.height
    · rw [wallStep_bottom _ _ _ h1 h2, hc]
      simp only [Ball.SetPosition, Ball.SetVelocity, Ball.GetPosition]
      constructor <;> linarith
    · rw [wallStep_inside _ _ _ h1 h2]
      have hy := collided_position_y g t k
      rw [hc] at h1 h2
      simp only [Ball.GetPosition]
      rw [hy]
      constructor <;> linarith

/-- Instance of C18: after one tick of the game whose serving paddle has left the court
the ball is on the constructed court (10 <= y <= 890). -/
theorem Update_ball_in_court_witness :
    (10 : ℚ) ≤ (gameOffCourt.Update 33 Keys.none).1.m_ball.GetPosition.y ∧
    (gameOffCourt.Update 33 Keys.none).1.m_ball.GetPosition.y ≤ 890 := by
  have h := Update_ball_in_court gameOffCourt 33 Keys.none (by norm_num [gameOffCourt, PongGame.new, PongGame.Update, PongGame.collided, PongGame.ballPos,
    PongGame.served, PongGame.paddle1, PongGame.paddle2, PongGame.movePaddles,
    PongGame.serveStep, PongGame.collideStep, PongGame.wallStep, hitVelocity, amplify,
    deflectY, Keys.none, Keys.serve, Ball.new, Ball.SetPosition, Ball.SetVelocity,
    Ball.GetPosition, Ball.GetVelocity, Paddle.GetPositionSize, Paddle.SetPosition,
    Court.GetDimensions, COURT_MARGIN, WINDOW_WIDTH, WINDOW_HEIGHT, BALL_RADIUS,
    PADDLE_WIDTH, PADDLE_LENGTH, PADDLE_PADDING, PADDLE_SPEED, BALL_VELOCITY,
    BALL_VEL_INCR, SCORE_MOD])
  have e1 : gameOffCourt.m_court.GetDimensions.y = 10 := by norm_num [gameOffCourt, PongGame.new, PongGame.Update, PongGame.collided, PongGame.ballPos,
    PongGame.served, PongGame.paddle1, PongGame.paddle2, PongGame.movePaddles,
    PongGame.serveStep, PongGame.collideStep, PongGame.wallStep, hitVelocity, amplify,
    deflectY, Keys.none, Keys.serve, Ball.new, Ball.SetPosition, Ball.SetVelocity,
    Ball.GetPosition, Ball.GetVelocity, Paddle.GetPositionSize, Paddle.SetPosition,
    Court.GetDimensions, COURT_MARGIN, WINDOW_WIDTH, WINDOW_HEIGHT, BALL_RADIUS,
    PADDLE_WIDTH, PADDLE_LENGTH, PADDLE_PADDING, PADDLE_SPEED, BALL_VELOCITY,
    BALL_VEL_INCR, SCORE_MOD]
  have e2 : gameOffCourt.m_court.GetDimensions.height = 880 := by
    norm_num [gameOffCourt, PongGame.new, PongGame.Update, PongGame.collided, PongGame.ballPos,
    PongGame.served, PongGame.paddle1, PongGame.paddle2, PongGame.movePaddles,
    PongGame.serveStep, PongGame.collideStep, PongGame.wallStep, hitVelocity, amplify,
    deflectY, Keys.none, Keys.serve, Ball.new, Ball.SetPosition, Ball.SetVelocity,
    Ball.GetPosition, Ball.GetVelocity, Paddle.GetPositionSize, Paddle.SetPosition,
    Court.GetDimensions, COURT_MARGIN, WINDOW_WIDTH, WINDOW_HEIGHT, BALL_RADIUS,
    PADDLE_WIDTH, PADDLE_LENGTH, PADDLE_PADDING, PADDLE_SPEED, BALL_VELOCITY,
    BALL_VEL_INCR, SCORE_MOD]
  rw [e1, e2] at h
  constructor
  · exact h.1
  · have := h.2; linarith

/-! ## Rounding to binary32 -/

lemma roundHalfEven_eq (x : ℚ) (k : ℤ) (h1 : (k : ℚ) - 1 / 2 < x) (h2 : x < k + 1 / 2) :
    roundHalfEven x = k := by
  unfold roundHalfEven
  by_cases hx : (k : ℚ) ≤ x
  · have hf : ⌊x⌋ = k := by
      rw [Int.floor_eq_iff]; constructor
      · exact hx
      · linarith
    rw [hf, if_pos (by linarith)]
  · have hx' : x < k := not_le.mp hx
    have hf : ⌊x⌋ = k - 1 := by
      rw [Int.floor_eq_iff]; push_cast; constructor <;> linarith
    rw [hf]
    push_cast
    rw [if_neg (by linarith), if_pos (by linarith)]
    ring

lemma roundHalfEven_intCast (k : ℤ) : roundHalfEven (k : ℚ) = k :=
  roundHalfEven_eq _ k (by linarith) (by linarith)

lemma log_abs_eq (q : ℚ) (e : ℤ) (h1 : (2 : ℚ) ^ e ≤ |q|) (h2 : |q| < 2 ^ (e + 1)) :
    Int.log 2 |q| = e := by
  have hpos : (0 : ℚ) < |q| := lt_of_lt_of_le (by positivity) h1
  have a : e ≤ Int.log 2 |q| := by
    rw [← Int.zpow_le_iff_le_log (by norm_num) hpos]; exact_mod_cast h1
  have b : Int.log 2 |q| < e + 1 := by
    rw [← Int.lt_zpow_iff_log_lt (by norm_num) hpos]; exact_mod_cast h2
  omega

lemma ne_zero_of_zpow_le_abs (q : ℚ) (e : ℤ) (h1 : (2 : ℚ) ^ e ≤ |q|) : q ≠ 0 := by
  intro h
  rw [h] at h1
  simp at h1
  have : (0 : ℚ) < 2 ^ e := by positivity
  linarith

/-- Evaluation of `roundF32` away from a tie: `q` lies in the binade of exponent `e` and
`k` is the integer nearest to `q` in units of the spacing there. -/
lemma roundF32_eq (q : ℚ) (e k : ℤ) (he : -126 ≤ e) (h1 : (2 : ℚ) ^ e ≤ |q|)
    (h2 : |q| < 2 ^ (e + 1)) (hk1 : (k : ℚ) - 1 / 2 < q / 2 ^ (e - 23))
    (hk2 : q / 2 ^ (e - 23) < k + 1 / 2) : roundF32 q = k * 2 ^ (e - 23) := by
  unfold roundF32 ulpF32
  rw [if_neg (ne_zero_of_zpow_le_abs q e h1), log_abs_eq q e h1 h2, max_eq_left he,
    roundHalfEven_eq _ k hk1 hk2]

/-- Natural numbers below 2^24 are binary32 values. -/
lemma roundF32_natCast (n : ℕ) (h : n < 2 ^ 24) : roundF32 (n : ℚ) = n := by
  by_cases h0 : n = 0
  · subst h0; simp [roundF32]
  have hq : (n : ℚ) ≠ 0 := by exact_mod_cast h0
  have hlog : Int.log 2 |(n : ℚ)| = (Nat.log 2 n : ℤ) := by
    rw [abs_of_nonneg (by positivity), Int.log_natCast]
  have hm : Nat.log 2 n < 24 := Nat.log_lt_of_lt_pow h0 h
  unfold roundF32 ulpF32
  rw [if_neg hq, hlog, max_eq_left (by omega)]
  have hu : (2 : ℚ) ^ ((Nat.log 2 n : ℤ) - 23) = 1 / 2 ^ (23 - Nat.log 2 n) := by
    have : ((Nat.log 2 n : ℤ) - 23) = -((23 - Nat.log 2 n : ℕ) : ℤ) := by omega
    rw [this, zpow_neg, zpow_natCast]; simp
  rw [hu]
  have hint : (n : ℚ) / (1 / 2 ^ (23 - Nat.log 2 n)) =
      (((n * 2 ^ (23 - Nat.log 2 n) : ℕ) : ℤ) : ℚ) := by
    push_cast; field_simp
  rw [hint, roundHalfEven_intCast]
  push_cast; field_simp

lemma App.tick_frameLag (a : App) (mp : Vector2D) (inp : TickInput) :
    (a.tick mp inp).1.frameLag = a.frameLag - UPDATE_MS := by
  unfold App.tick; dsimp only; split_ifs <;> rfl

lemma App.tickLoop_lt (a : App) (mp : Vector2D) (inputs : ℕ → TickInput) (i : ℕ)
    (h : a.frameLag < UPDATE_MS) : a.tickLoop mp inputs i = (a, []) := by
  rw [App.tickLoop, if_neg (not_le.mpr h)]

lemma App.tickLoop_ge (a : App) (mp : Vector2D) (inputs : ℕ → TickInput) (i : ℕ)
    (h : a.frameLag ≥ UPDATE_MS) :
    a.tickLoop mp inputs i =
      (((a.tick mp (inputs i)).1.tickLoop mp inputs (i + 1)).1,
       (a.tick mp (inputs i)).2 :: ((a.tick mp (inputs i)).1.tickLoop mp inputs (i + 1)).2) := by
  rw [App.tickLoop, if_pos h]

lemma App.tickF32_frameLag (a : App) (mp : Vector2D) (inp : TickInput) :
    (a.tickF32 mp inp).1.frameLag = roundF32 (a.frameLag - UPDATE_MS) := rfl

lemma App.tickLoopF32_lt (fuel : ℕ) (a : App) (mp : Vector2D) (inputs : ℕ → TickInput)
    (i : ℕ) (h : a.frameLag < UPDATE_MS) :
    App.tickLoopF32 (fuel + 1) a mp inputs i = some (a, []) := by
  rw [App.tickLoopF32, if_neg (not_le.mpr h)]

/-- A tick entered with a whole number of milliseconds below 2^24: the binary32
subtraction is exact. -/
lemma App.tickF32_natCast (a : App) (mp : Vector2D) (inp : TickInput) (L : ℕ)
    (hL : a.frameLag = L) (h33 : 33 ≤ L) (h24 : L < 2 ^ 24) :
    a.tickF32 mp inp = a.tick mp inp ∧ (a.tick mp inp).1.frameLag = ((L - 33 : ℕ) : ℚ) := by
  have hl : (a.tick mp inp).1.frameLag = ((L - 33 : ℕ) : ℚ) := by
    rw [App.tick_frameLag, hL, UPDATE_MS, Nat.cast_sub h33]; norm_num
  refine ⟨?_, hl⟩
  have hr : F32.sub a.frameLag UPDATE_MS = (a.tick mp inp).1.frameLag := by
    rw [hl, F32.sub, hL, UPDATE_MS]
    have : (L : ℚ) - 33 = ((L - 33 : ℕ) : ℚ) := by rw [Nat.cast_sub h33]; norm_num
    rw [this, roundF32_natCast _ (by omega)]
  unfold App.tickF32; dsimp only
  rw [hr]

/-- The binary32 loop and the exact loop agree on a lag that is a whole number of
milliseconds below 2^24, given fuel for all evaluations of the loop condition. -/
lemma App.tickLoopF32_eq_tickLoop (fuel : ℕ) : ∀ (a : App) (mp : Vector2D)
    (inputs : ℕ → TickInput) (i L : ℕ), a.frameLag = L → L < 2 ^ 24 → L / 33 < fuel →
    App.tickLoopF32 fuel a mp inputs i = some (a.tickLoop mp inputs i) := by
  induction fuel with
  | zero => intro a mp inputs i L _ _ hf; omega
  | succ fuel ih =>
    intro a mp inputs i L hL h24 hf
    by_cases h33 : 33 ≤ L
    · have hge : a.frameLag ≥ UPDATE_MS := by
        rw [hL, UPDATE_MS]; exact_mod_cast h33
      obtain ⟨ht, hl⟩ := App.tickF32_natCast a mp (inputs i) L hL h33 h24
      have hd : (L - 33) / 33 < fuel := by omega
      rw [App.tickLoopF32, if_pos hge, ht,
        ih (a.tick mp (inputs i)).1 mp inputs (i + 1) (L - 33) hl (by omega) hd,
        App.tickLoop_ge a mp inputs i hge]
    · have hlt : a.frameLag < UPDATE_MS := by
        rw [hL, UPDATE_MS]; exact_mod_cast not_le.mp h33
      rw [App.tickLoopF32_lt fuel a mp inputs i hlt, App.tickLoop_lt a mp inputs i hlt]

lemma App.tickLoopF32_spec (fuel : ℕ) : ∀ (a : App) (mp : Vector2D)
    (inputs : ℕ → TickInput) (i L : ℕ), a.frameLag = L → L < 2 ^ 24 → L / 33 < fuel →
    ∃ r, App.tickLoopF32 fuel a mp inputs i = some r ∧ r.2.length = L / 33 ∧
      r.1.frameLag = ((L % 33 : ℕ) : ℚ) := by
  induction fuel with
  | zero => intro a mp inputs i L _ _ hf; omega
  | succ fuel ih =>
    intro a mp inputs i L hL h24 hf
    by_cases h33 : 33 ≤ L
    · have hge : a.frameLag ≥ UPDATE_MS := by
        rw [hL, UPDATE_MS]; exact_mod_cast h33
      obtain ⟨ht, hl⟩ := App.tickF32_natCast a mp (inputs i) L hL h33 h24
      have hd : (L - 33) / 33 < fuel := by omega
      obtain ⟨r, hr, hlen, hlag⟩ :=
        ih (a.tick mp (inputs i)).1 mp inputs (i + 1) (L - 33) hl (by omega) hd
      refine ⟨(r.1, (a.tick mp (inputs i)).2 :: r.2), ?_, ?_, ?_⟩
      · rw [App.tickLoopF32, if_pos hge, ht, hr]
      · simp only [List.length_cons, hlen]; omega
      · dsimp only; rw [hlag]
        congr 1; omega
    · have hlt : a.frameLag < UPDATE_MS := by
        rw [hL, UPDATE_MS]; exact_mod_cast not_le.mp h33
      refine ⟨(a, []), App.tickLoopF32_lt fuel a mp inputs i hlt, ?_, ?_⟩
      · simp; omega
      · dsimp only; rw [hL]; congr 1; omega

/-- At a lag of 2^30 + 128 ms the binary32 subtraction of 33 returns the lag itself. -/
lemma roundF32_huge : roundF32 (2 ^ 30 + 128 - 33) = 2 ^ 30 + 128 := by
  rw [roundF32_eq _ 30 (2 ^ 23 + 1) (by norm_num) (by norm_num [abs_of_pos])
    (by norm_num [abs_of_pos]) (by norm_num) (by norm_num)]
  norm_num

lemma App.tickLoopF32_huge (fuel : ℕ) : ∀ (a : App) (mp : Vector2D)
    (inputs : ℕ → TickInput) (i : ℕ), a.frameLag = 2 ^ 30 + 128 →
    App.tickLoopF32 fuel a mp inputs i = none := by
  induction fuel with
  | zero => intro a mp inputs i _; rfl
  | succ fuel ih =>
    intro a mp inputs i hL
    have hge : a.frameLag ≥ UPDATE_MS := by rw [hL, UPDATE_MS]; norm_num
    have hl : (a.tickF32 mp (inputs i)).1.frameLag = 2 ^ 30 + 128 := by
      rw [App.tickF32_frameLag, hL, UPDATE_MS, roundF32_huge]
    rw [App.tickLoopF32, if_pos hge, ih _ mp inputs (i + 1) hl]

/-- C14 (as stated) fails for the `float` accumulator of the source: entered with a lag
of 2^30 + 128 ms, which is non-negative, the subtraction of 33 rounds back to the same
value, so the accumulator never drops below 33 and the loop does not exit, whatever the
bound on its iterations. -/
theorem App.tickLoopF32_huge_counterexample :
    0 ≤ appLagHuge.frameLag ∧
    (appLagHuge.tickF32 ⟨0, 0⟩ TickInput.none).1.frameLag = appLagHuge.frameLag ∧
    ∀ fuel : ℕ,
      App.tickLoopF32 fuel appLagHuge ⟨0, 0⟩ (fun _ => TickInput.none) 0 = none := by
  have e : appLagHuge.frameLag = 2 ^ 30 + 128 := rfl
  refine ⟨by rw [e]; norm_num, ?_, fun fuel => App.tickLoopF32_huge fuel _ _ _ _ e⟩
  rw [App.tickF32_frameLag, e, UPDATE_MS, roundF32_huge]

/-- C14 (amended): entered with an accumulated lag of L whole milliseconds, L below
2^24, the tick loop with the `float` accumulator exits (within any bound above
floor(L / 33) on its iterations), makes exactly floor(L / 33) `Update` calls, each on
one component (one entry of the returned list), and leaves the accumulator at
L - 33 * floor(L / 33) = L mod 33, which is at least 0 and below 33. -/
theorem App.tickLoopF32_count (a : App) (mp : Vector2D) (inputs : ℕ → TickInput)
    (i L fuel : ℕ) (hL : a.frameLag = L) (h24 : L < 2 ^ 24) (hf : L / 33 < fuel) :
    ∃ r, App.tickLoopF32 fuel a mp inputs i = some r ∧
      r.2.length = L / 33 ∧
      r.1.frameLag = (L : ℚ) - 33 * ((L / 33 : ℕ) : ℚ) ∧
      r.1.frameLag = ((L % 33 : ℕ) : ℚ) ∧
      0 ≤ r.1.frameLag ∧ r.1.frameLag < 33 := by
  obtain ⟨r, hr, hlen, hlag⟩ := App.tickLoopF32_spec fuel a mp inputs i L hL h24 hf
  refine ⟨r, hr, hlen, ?_, hlag, ?_, ?_⟩
  · rw [hlag]
    have := Nat.div_add_mod L 33
    have h2 : ((33 * (L / 33) + L % 33 : ℕ) : ℚ) = L := by rw [this]
    push_cast at h2
    linarith
  · rw [hlag]; positivity
  · rw [hlag]
    have : L % 33 < 33 := Nat.mod_lt _ (by norm_num)
    exact_mod_cast this

/-- Instance of C14: with 70 ms of lag the loop makes 2 updates and leaves 4 ms. -/
theorem App.tickLoopF32_count_witness :
    ∃ r, App.tickLoopF32 3 appLag70 ⟨0, 0⟩ (fun _ => TickInput.none) 0 = some r ∧
      r.2.length = 2 ∧ r.1.frameLag = 4 := by
  obtain ⟨r, hr, hlen, _, hlag, _⟩ := App.tickLoopF32_count appLag70 ⟨0, 0⟩
    (fun _ => TickInput.none) 0 70 3 (by norm_num [appLag70, App.new]) (by norm_num)
    (by norm_num)
  exact ⟨r, hr, by rw [hlen], by rw [hlag]; norm_num⟩

lemma App.tick_menu (a : App) (mp : Vector2D) (inp : TickInput)
    (h : a.gameState = GAME_STATE.MENU) :
    a.tick mp inp =
      ({ a with frameLag := a.frameLag - UPDATE_MS
                menu := (a.menu.Update UPDATE_MS mp inp.mouse).1
                gameState := (a.menu.Update UPDATE_MS mp inp.mouse).2 }, Component.MENU) := by
  unfold App.tick; dsimp only; rw [if_pos h]

lemma App.tick_game (a : App) (mp : Vector2D) (inp : TickInput)
    (h : a.gameState ≠ GAME_STATE.MENU) :
    (a.tick mp inp).1.gameState = (a.pong.Update UPDATE_MS inp.keys).2 ∧
    (a.tick mp inp).1.pong = (a.pong.Update UPDATE_MS inp.keys).1 ∧
    (a.tick mp inp).2 = Component.GAME ∧
    ((a.pong.Update UPDATE_MS inp.keys).2 = GAME_STATE.MENU →
      (a.tick mp inp).1.menu = a.menu.Reset) ∧
    ((a.pong.Update UPDATE_MS inp.keys).2 ≠ GAME_STATE.MENU →
      (a.tick mp inp).1.menu = a.menu) := by
  unfold App.tick; dsimp only; rw [if_neg h]
  split_ifs with h2 <;> simp [h2]

/-- C16 fails on the code when a frame runs two ticks: on the initial menu with 66 ms
of lag and the left button held on the exit button, the first tick's menu update returns
EXIT, and the second tick, finding a state other than MENU, updates the game and
replaces EXIT by IN_GAME. -/
theorem App.exit_overwritten :
    appLag66.gameState = GAME_STATE.MENU ∧
    (appLag66.menu.Update UPDATE_MS ⟨810, 560⟩ TickInput.leftPress.mouse).2 =
      GAME_STATE.EXIT ∧
    (appLag66.tick ⟨810, 560⟩ TickInput.leftPress).1.gameState = GAME_STATE.EXIT ∧
    (appLag66.tickLoop ⟨810, 560⟩ (fun _ => TickInput.leftPress) 0).2 =
      [Component.MENU, Component.GAME] ∧
    (appLag66.tickLoop ⟨810, 560⟩ (fun _ => TickInput.leftPress) 0).1.gameState =
      GAME_STATE.IN_GAME := by
  have hm : (appLag66.menu.Update UPDATE_MS ⟨810, 560⟩ TickInput.leftPress.mouse).2 =
      GAME_STATE.EXIT := by
    norm_num [appLag66, App.new, PongMenu.new, PongMenu.Update, Button.new,
      Button.HandleInput, Button.hitTest, MouseButtons.state, TickInput.leftPress,
      WINDOW_WIDTH, WINDOW_HEIGHT]
  have h1 := App.tick_menu appLag66 ⟨810, 560⟩ TickInput.leftPress rfl
  have hs1 : (appLag66.tick ⟨810, 560⟩ TickInput.leftPress).1.gameState =
      GAME_STATE.EXIT := by rw [h1]; exact hm
  have hl1 : (appLag66.tick ⟨810, 560⟩ TickInput.leftPress).1.frameLag = 33 := by
    rw [App.tick_frameLag]; norm_num [appLag66, App.new, UPDATE_MS]
  have hp1 : (appLag66.tick ⟨810, 560⟩ TickInput.leftPress).1.pong = PongGame.new 3 := by
    rw [h1]; rfl
  have hne : (appLag66.tick ⟨810, 560⟩ TickInput.leftPress).1.gameState ≠
      GAME_STATE.MENU := by rw [hs1]; decide
  obtain ⟨g2, _, c2, _⟩ := App.tick_game
    (appLag66.tick ⟨810, 560⟩ TickInput.leftPress).1 ⟨810, 560⟩ TickInput.leftPress hne
  have hu : ((PongGame.new 3).Update UPDATE_MS TickInput.leftPress.keys).2 =
      GAME_STATE.IN_GAME := by
    norm_num [TickInput.leftPress, UPDATE_MS, PongGame.new, PongGame.Update, PongGame.collided, PongGame.ballPos,
    PongGame.served, PongGame.paddle1, PongGame.paddle2, PongGame.movePaddles,
    PongGame.serveStep, PongGame.collideStep, PongGame.wallStep, hitVelocity, amplify,
    deflectY, Keys.none, Keys.serve, Ball.new, Ball.SetPosition, Ball.SetVelocity,
    Ball.GetPosition, Ball.GetVelocity, Paddle.GetPositionSize, Paddle.SetPosition,
    Court.GetDimensions, COURT_MARGIN, WINDOW_WIDTH, WINDOW_HEIGHT, BALL_RADIUS,
    PADDLE_WIDTH, PADDLE_LENGTH, PADDLE_PADDING, PADDLE_SPEED, BALL_VELOCITY,
    BALL_VEL_INCR, SCORE_MOD]
  rw [hp1, hu] at g2
  have hl2 : ((appLag66.tick ⟨810, 560⟩ TickInput.leftPress).1.tick ⟨810, 560⟩
      TickInput.leftPress).1.frameLag < UPDATE_MS := by
    rw [App.tick_frameLag, hl1]; norm_num [UPDATE_MS]
  have hloop : appLag66.tickLoop ⟨810, 560⟩ (fun _ => TickInput.leftPress) 0 =
      (((appLag66.tick ⟨810, 560⟩ TickInput.leftPress).1.tick ⟨810, 560⟩
          TickInput.leftPress).1,
        [(appLag66.tick ⟨810, 560⟩ TickInput.leftPress).2,
         ((appLag66.tick ⟨810, 560⟩ TickInput.leftPress).1.tick ⟨810, 560⟩
          TickInput.leftPress).2]) := by
    rw [App.tickLoop_ge _ _ _ _ (by norm_num [appLag66, App.new, UPDATE_MS]),
      App.tickLoop_ge _ _ _ _ (by rw [hl1]; norm_num [UPDATE_MS]),
      App.tickLoop_lt _ _ _ _ hl2]
  refine ⟨rfl, hm, hs1, ?_, ?_⟩
  · rw [hloop]; dsimp only; rw [c2, h1]
  · rw [hloop]; exact g2

/-! ## The menu inside the loop -/

lemma Button.HandleInput_bounds (b : Button) (q : Vector2D) (ms : MOUSE_STATE) :
    (b.HandleInput q ms).1.m_positionAndSize = b.m_positionAndSize := by
  unfold Button.HandleInput; dsimp only
  split_ifs <;> rfl

lemma PongMenu.Update_bounds (m : PongMenu) (t : ℚ) (q : Vector2D) (mouse : MouseButtons) :
    (m.Update t q mouse).1.m_playButton.m_positionAndSize =
      m.m_playButton.m_positionAndSize ∧
    (m.Update t q mouse).1.m_exitButton.m_positionAndSize =
      m.m_exitButton.m_positionAndSize := by
  unfold PongMenu.Update; dsimp only
  split_ifs <;> exact ⟨Button.HandleInput_bounds _ _ _, Button.HandleInput_bounds _ _ _⟩

/-- A menu update that returns MENU leaves both fired flags clear. -/
lemma PongMenu.Update_menu_flags (m : PongMenu) (t : ℚ) (q : Vector2D)
    (mouse : MouseButtons) (h : (m.Update t q mouse).2 = GAME_STATE.MENU) :
    (m.Update t q mouse).1.m_shouldExit = false ∧
    (m.Update t q mouse).1.m_shouldStart = false := by
  unfold PongMenu.Update at h ⊢; dsimp only at h ⊢
  revert h
  cases (m.m_exitButton.HandleInput q mouse.state).2 <;>
    cases (m.m_playButton.HandleInput q mouse.state).2 <;>
    cases m.m_shouldExit <;> cases m.m_shouldStart <;> simp

lemma Button.HandleInput_snd (b : Button) (q : Vector2D) (ms : MOUSE_STATE) :
    (b.HandleInput q ms).2 = (decide (ms = MOUSE_STATE.DOWN) && b.hitTest q) := by
  unfold Button.HandleInput; dsimp only
  by_cases hq : b.hitTest q = true <;> by_cases hm : ms = MOUSE_STATE.DOWN <;>
    simp [hq, hm]

/-- The value returned by a menu update, from the flags, the button bounds and the
tick's pointer position and press sample. -/
lemma PongMenu.Update_snd (m : PongMenu) (t : ℚ) (q : Vector2D) (mouse : MouseButtons) :
    (m.Update t q mouse).2 =
      if (m.m_shouldExit ||
          (decide (mouse.state = MOUSE_STATE.DOWN) && m.m_exitButton.hitTest q)) = true then
        GAME_STATE.EXIT
      else if (m.m_shouldStart ||
          (decide (mouse.state = MOUSE_STATE.DOWN) && m.m_playButton.hitTest q)) = true then
        GAME_STATE.IN_GAME
      else GAME_STATE.MENU := by
  rw [← Button.HandleInput_snd m.m_exitButton q mouse.state,
    ← Button.HandleInput_snd m.m_playButton q mouse.state]
  unfold PongMenu.Update; dsimp only
  cases (m.m_exitButton.HandleInput q mouse.state).2 <;>
    cases (m.m_playButton.HandleInput q mouse.state).2 <;>
    cases m.m_shouldExit <;> cases m.m_shouldStart <;> simp

lemma Button.hitTest_congr (b c : Button) (q : Vector2D)
    (h : b.m_positionAndSize = c.m_positionAndSize) : b.hitTest q = c.hitTest q := by
  unfold Button.hitTest; rw [h]

/-- Invariant of the loop: in state MENU both fired flags are clear, and the button
bounds are the constructed ones. -/
lemma App.Reachable_inv (a : App) (h : a.Reachable) :
    (a.gameState = GAME_STATE.MENU →
      a.menu.m_shouldExit = false ∧ a.menu.m_shouldStart = false) ∧
    a.menu.m_playButton.m_positionAndSize = PongMenu.new.m_playButton.m_positionAndSize ∧
    a.menu.m_exitButton.m_positionAndSize = PongMenu.new.m_exitButton.m_positionAndSize := by
  induction h with
  | init => exact ⟨fun _ => ⟨rfl, rfl⟩, rfl, rfl⟩
  | frame a elapsed _ _ _ ih => exact ih
  | tick a mp inp _ _ ih =>
    obtain ⟨ihf, ihp, ihe⟩ := ih
    by_cases hm : a.gameState = GAME_STATE.MENU
    · rw [App.tick_menu a mp inp hm]
      obtain ⟨bp, be⟩ := PongMenu.Update_bounds a.menu UPDATE_MS mp inp.mouse
      exact ⟨fun h => PongMenu.Update_menu_flags a.menu UPDATE_MS mp inp.mouse h,
        bp.trans ihp, be.trans ihe⟩
    · obtain ⟨hs, _, _, hr, hk⟩ := App.tick_game a mp inp hm
      by_cases hu : (a.pong.Update UPDATE_MS inp.keys).2 = GAME_STATE.MENU
      · rw [hr hu]
        exact ⟨fun _ => ⟨rfl, rfl⟩, ihp, ihe⟩
      · rw [hk hu]
        refine ⟨fun h => ?_, ihp, ihe⟩
        rw [hs] at h
        exact absurd h hu

/-- C20: in every state the loop reaches from its initial state, whenever the
application state is MENU at a tick boundary both fired flags of the menu are false, and
the value returned by a menu update then is the one a freshly constructed menu returns
for the same pointer position and press sample. -/
theorem App.menu_flags_clear (a : App) (h : a.Reachable)
    (hm : a.gameState = GAME_STATE.MENU) :
    a.menu.m_shouldExit = false ∧ a.menu.m_shouldStart = false ∧
    ∀ (t : ℚ) (q : Vector2D) (mouse : MouseButtons),
      (a.menu.Update t q mouse).2 = (PongMenu.new.Update t q mouse).2 := by
  obtain ⟨hf, hp, he⟩ := App.Reachable_inv a h
  obtain ⟨h1, h2⟩ := hf hm
  refine ⟨h1, h2, fun t q mouse => ?_⟩
  rw [PongMenu.Update_snd, PongMenu.Update_snd, h1, h2,
    Button.hitTest_congr _ _ q hp, Button.hitTest_congr _ _ q he]
  rfl

/-! ## Repeated presses of one button -/

lemma Button.hitTest_HandleInput (b : Button) (q r : Vector2D) (ms : MOUSE_STATE) :
    (b.HandleInput q ms).1.hitTest r = b.hitTest r :=
  Button.hitTest_congr _ _ r (Button.HandleInput_bounds b q ms)

/-- C12 (as stated) fails for a run of two calls: with the pointer held on the
constructed play button and the mouse state DOWN in both, the callback is invoked
twice, not once. -/
theorem Button.presses_twice_counterexample :
    PongMenu.new.m_playButton.hitTest ⟨800, 450⟩ = true ∧
    (PongMenu.new.m_playButton.presses
      [(⟨800, 450⟩, MOUSE_STATE.DOWN), (⟨800, 450⟩, MOUSE_STATE.DOWN)]).2 = 2 ∧
    (PongMenu.new.m_playButton.presses
      [(⟨800, 450⟩, MOUSE_STATE.DOWN), (⟨800, 450⟩, MOUSE_STATE.DOWN)]).2 ≠ 1 := by
  have hq : PongMenu.new.m_playButton.hitTest ⟨800, 450⟩ = true := by
    norm_num [PongMenu.new, Button.new, Button.hitTest, WINDOW_WIDTH, WINDOW_HEIGHT]
  have h2 : (PongMenu.new.m_playButton.presses
      [(⟨800, 450⟩, MOUSE_STATE.DOWN), (⟨800, 450⟩, MOUSE_STATE.DOWN)]).2 = 2 := by
    simp [Button.presses, Button.HandleInput_snd, Button.hitTest_HandleInput, hq]
  exact ⟨hq, h2, by rw [h2]; decide⟩

/-- C12 (amended): the callback is invoked on every `HandleInput` call made while the
pointer is inside the bounds and the mouse state is DOWN, so a run of n such consecutive
calls invokes it n times (exactly once only for n = 1). -/
theorem Button.presses_count (b : Button) (run : List (Vector2D × MOUSE_STATE))
    (h : ∀ inp ∈ run, inp.2 = MOUSE_STATE.DOWN ∧ b.hitTest inp.1 = true) :
    (b.presses run).2 = run.length := by
  induction run generalizing b with
  | nil => rfl
  | cons inp rest ih =>
    have h0 := h inp (List.mem_cons_self _ _)
    have hrest : ∀ i ∈ rest, i.2 = MOUSE_STATE.DOWN ∧
        (b.HandleInput inp.1 inp.2).1.hitTest i.1 = true := by
      intro i hi
      rw [Button.hitTest_HandleInput]
      exact h i (List.mem_cons_of_mem _ hi)
    have hf : (b.HandleInput inp.1 inp.2).2 = true :=
      (Button.HandleInput_fired b inp.1 inp.2).mpr h0
    simp only [Button.presses, hf, if_true, ih _ hrest, List.length_cons]
    omega

/-- Instance of C12: three calls with the pointer held on the play button invoke the
callback three times. -/
theorem Button.presses_count_witness :
    (PongMenu.new.m_playButton.presses
      [(⟨800, 450⟩, MOUSE_STATE.DOWN), (⟨810, 460⟩, MOUSE_STATE.DOWN),
       (⟨820, 470⟩, MOUSE_STATE.DOWN)]).2 = 3 :=
  Button.presses_count PongMenu.new.m_playButton _ (by
    intro inp hinp
    simp only [List.mem_cons, List.mem_singleton, List.not_mem_nil, or_false] at hinp
    rcases hinp with h | h | h <;> subst h <;>
      norm_num [PongMenu.new, Button.new, Button.hitTest, WINDOW_WIDTH, WINDOW_HEIGHT])

/-! ## A finished match -/

/-- Each tick leaves both scores alone or adds one point, modulo 256, to one of them. -/
lemma collideStep_scores (s : PongGame) (p v : Vector2D) :
    ((s.collideStep p v).1.m_playerOneScore = s.m_playerOneScore ∧
      (s.collideStep p v).1.m_playerTwoScore = s.m_playerTwoScore) ∨
    ((s.collideStep p v).1.m_playerOneScore = (s.m_playerOneScore + 1) % SCORE_MOD ∧
      (s.collideStep p v).1.m_playerTwoScore = s.m_playerTwoScore) ∨
    ((s.collideStep p v).1.m_playerOneScore = s.m_playerOneScore ∧
      (s.collideStep p v).1.m_playerTwoScore = (s.m_playerTwoScore + 1) % SCORE_MOD) := by
  unfold PongGame.collideStep; dsimp only
  split <;> (try split_ifs) <;> simp

lemma Update_scores (g : PongGame) (t : ℚ) (k : Keys) :
    ((g.Update t k).1.m_playerOneScore = g.m_playerOneScore ∧
      (g.Update t k).1.m_playerTwoScore = g.m_playerTwoScore) ∨
    ((g.Update t k).1.m_playerOneScore = (g.m_playerOneScore + 1) % SCORE_MOD ∧
      (g.Update t k).1.m_playerTwoScore = g.m_playerTwoScore) ∨
    ((g.Update t k).1.m_playerOneScore = g.m_playerOneScore ∧
      (g.Update t k).1.m_playerTwoScore = (g.m_playerTwoScore + 1) % SCORE_MOD) := by
  rw [Update_scoreOne, Update_scoreTwo]
  have h := collideStep_scores
    { g.served t k with m_ball := (g.served t k).m_ball.SetPosition (g.ballPos t k) }
    (g.ballPos t k) (g.served t k).m_ball.GetVelocity
  simpa [PongGame.collided] using h

/-- The returned state in terms of the scores left by the tick. -/
lemma Update_snd_menu (g : PongGame) (t : ℚ) (k : Keys) :
    (g.Update t k).2 = GAME_STATE.MENU ↔
      ((g.Update t k).1.m_playerOneScore ≥ g.m_maxScore ∨
       (g.Update t k).1.m_playerTwoScore ≥ g.m_maxScore) := by
  rw [← Update_maxScore g t k]
  unfold PongGame.Update
  dsimp only
  split_ifs with h
  · simp only [wallStep_scoreOne, wallStep_scoreTwo, wallStep_maxScore] at h ⊢
    tauto
  · simp only [wallStep_scoreOne, wallStep_scoreTwo, wallStep_maxScore] at h ⊢
    tauto

/-- One tick of a finished match whose winning counter can take `n >= 1` more points
without wrapping: it returns MENU and the counter can take `n - 1` more. -/
lemma Update_finished_step (g : PongGame) (t : ℚ) (k : Keys) (n : ℕ)
    (h : (g.m_playerOneScore ≥ g.m_maxScore ∧ g.m_playerOneScore + (n + 1) ≤ 255) ∨
      (g.m_playerTwoScore ≥ g.m_maxScore ∧ g.m_playerTwoScore + (n + 1) ≤ 255)) :
    (g.Update t k).2 = GAME_STATE.MENU ∧
    (((g.Update t k).1.m_playerOneScore ≥ (g.Update t k).1.m_maxScore ∧
        (g.Update t k).1.m_playerOneScore + n ≤ 255) ∨
      ((g.Update t k).1.m_playerTwoScore ≥ (g.Update t k).1.m_maxScore ∧
        (g.Update t k).1.m_playerTwoScore + n ≤ 255)) := by
  rw [Update_snd_menu, Update_maxScore]
  have hs := Update_scores g t k
  unfold SCORE_MOD at hs
  rcases h with ⟨h1, h2⟩ | ⟨h1, h2⟩ <;> rcases hs with ⟨a, b⟩ | ⟨a, b⟩ | ⟨a, b⟩ <;>
    rw [a, b] <;> constructor <;> omega

lemma run_finished (inputs : List (ℚ × Keys)) : ∀ g : PongGame,
    ((g.m_playerOneScore ≥ g.m_maxScore ∧ g.m_playerOneScore + inputs.length ≤ 255) ∨
      (g.m_playerTwoScore ≥ g.m_maxScore ∧ g.m_playerTwoScore + inputs.length ≤ 255)) →
    ∀ r ∈ (g.run inputs).2, r = GAME_STATE.MENU := by
  induction inputs with
  | nil => intro g _ r hr; simp [PongGame.run] at hr
  | cons inp rest ih =>
    intro g h r hr
    obtain ⟨h1, h2⟩ := Update_finished_step g inp.1 inp.2 rest.length h
    simp only [PongGame.run, List.mem_cons] at hr
    rcases hr with hr | hr
    · rw [hr]; exact h1
    · exact ih _ h2 r hr

/-- C17 (as stated) fails in the long run: the counters are 8 bits wide and wrap. From a
finished match with player one at 254 (threshold 3), three updates (a miss at paddle
two, a serve by player two returned by paddle one, another miss at paddle two) return
MENU, MENU and then IN_GAME, player one's counter having wrapped to 0. -/
theorem Update_finished_wrap_counterexample :
    gameNearWrap.m_playerOneScore ≥ gameNearWrap.m_maxScore ∧
    gameNearWrap.m_playerOneScore < 255 ∧
    (gameNearWrap.run [(33, Keys.none), (4000, Keys.serve), (4000, Keys.none)]).2 =
      [GAME_STATE.MENU, GAME_STATE.MENU, GAME_STATE.IN_GAME] ∧
    (gameNearWrap.run
      [(33, Keys.none), (4000, Keys.serve), (4000, Keys.none)]).1.m_playerOneScore = 0 := by
  refine ⟨by decide, by decide, ?_, ?_⟩
  · norm_num [PongGame.run, gameNearWrap, PongGame.new, PongGame.Update, PongGame.collided, PongGame.ballPos,
    PongGame.served, PongGame.paddle1, PongGame.paddle2, PongGame.movePaddles,
    PongGame.serveStep, PongGame.collideStep, PongGame.wallStep, hitVelocity, amplify,
    deflectY, Keys.none, Keys.serve, Ball.new, Ball.SetPosition, Ball.SetVelocity,
    Ball.GetPosition, Ball.GetVelocity, Paddle.GetPositionSize, Paddle.SetPosition,
    Court.GetDimensions, COURT_MARGIN, WINDOW_WIDTH, WINDOW_HEIGHT, BALL_RADIUS,
    PADDLE_WIDTH, PADDLE_LENGTH, PADDLE_PADDING, PADDLE_SPEED, BALL_VELOCITY,
    BALL_VEL_INCR, SCORE_MOD]
  · norm_num [PongGame.run, gameNearWrap, PongGame.new, PongGame.Update, PongGame.collided, PongGame.ballPos,
    PongGame.served, PongGame.paddle1, PongGame.paddle2, PongGame.movePaddles,
    PongGame.serveStep, PongGame.collideStep, PongGame.wallStep, hitVelocity, amplify,
    deflectY, Keys.none, Keys.serve, Ball.new, Ball.SetPosition, Ball.SetVelocity,
    Ball.GetPosition, Ball.GetVelocity, Paddle.GetPositionSize, Paddle.SetPosition,
    Court.GetDimensions, COURT_MARGIN, WINDOW_WIDTH, WINDOW_HEIGHT, BALL_RADIUS,
    PADDLE_WIDTH, PADDLE_LENGTH, PADDLE_PADDING, PADDLE_SPEED, BALL_VELOCITY,
    BALL_VEL_INCR, SCORE_MOD]

/-- C17 (amended): for every game state in which a score is at or above the win
threshold and below the counter's maximum 255, `Update` returns MENU whatever the
phase, tick duration and key input; every later `Update` on that game object also
returns MENU for as long as that counter cannot have wrapped, i.e. during the first
255 - score updates (an update adds at most one point, and a counter at 255 wraps to
0); and a second match started from the menu ends after its first tick, the loop going
back to MENU and resetting the menu. -/
theorem Update_finished_absorbing (g : PongGame) :
    (∀ (t : ℚ) (k : Keys),
      ((g.m_playerOneScore ≥ g.m_maxScore ∧ g.m_playerOneScore < 255) ∨
        (g.m_playerTwoScore ≥ g.m_maxScore ∧ g.m_playerTwoScore < 255)) →
      (g.Update t k).2 = GAME_STATE.MENU) ∧
    (∀ inputs : List (ℚ × Keys),
      ((g.m_playerOneScore ≥ g.m_maxScore ∧ g.m_playerOneScore + inputs.length ≤ 255) ∨
        (g.m_playerTwoScore ≥ g.m_maxScore ∧
          g.m_playerTwoScore + inputs.length ≤ 255)) →
      ∀ r ∈ (g.run inputs).2, r = GAME_STATE.MENU) ∧
    (∀ (a : App) (mp : Vector2D) (inp : TickInput),
      a.pong = g → a.gameState = GAME_STATE.IN_GAME →
      ((g.m_playerOneScore ≥ g.m_maxScore ∧ g.m_playerOneScore < 255) ∨
        (g.m_playerTwoScore ≥ g.m_maxScore ∧ g.m_playerTwoScore < 255)) →
      (a.tick mp inp).1.gameState = GAME_STATE.MENU ∧
      (a.tick mp inp).1.menu = a.menu.Reset) := by
  have step : ∀ (t : ℚ) (k : Keys),
      ((g.m_playerOneScore ≥ g.m_maxScore ∧ g.m_playerOneScore < 255) ∨
        (g.m_playerTwoScore ≥ g.m_maxScore ∧ g.m_playerTwoScore < 255)) →
      (g.Update t k).2 = GAME_STATE.MENU := by
    intro t k h
    refine (Update_finished_step g t k 0 ?_).1
    rcases h with ⟨a, b⟩ | ⟨a, b⟩
    · exact Or.inl ⟨a, by omega⟩
    · exact Or.inr ⟨a, by omega⟩
  refine ⟨step, fun inputs h => run_finished inputs g h, ?_⟩
  intro a mp inp hg hs h
  have hne : a.gameState ≠ GAME_STATE.MENU := by rw [hs]; decide
  obtain ⟨e1, _, _, e4, _⟩ := App.tick_game a mp inp hne
  have hu : (a.pong.Update UPDATE_MS inp.keys).2 = GAME_STATE.MENU := by
    rw [hg]; exact step _ _ h
  exact ⟨e1.trans hu, e4 hu⟩

/-- Instance of C17: the match finished at (3,1) returns MENU on its next update, on
its next five updates, and on the first tick of a second match. -/
theorem Update_finished_absorbing_witness :
    (game31.Update 33 Keys.serve).2 = GAME_STATE.MENU ∧
    (∀ r ∈ (game31.run [(33, Keys.serve), (33, Keys.none), (33, Keys.none),
        (33, Keys.none), (33, Keys.none)]).2, r = GAME_STATE.MENU) ∧
    (appFinished.tick ⟨0, 0⟩ TickInput.none).1.gameState = GAME_STATE.MENU :=
  ⟨(Update_finished_absorbing game31).1 33 Keys.serve (Or.inl (by decide)),
   (Update_finished_absorbing game31).2.1 _ (Or.inl (by decide)),
   ((Update_finished_absorbing game31).2.2 appFinished ⟨0, 0⟩ TickInput.none rfl rfl
      (Or.inl (by decide))).1⟩

/-! ## Horizontal velocity along a rally -/

lemma hitVelocity_x_of_neg (p v : Vector2D) (r : RectangleShape) (h : v.x < 0) :
    (hitVelocity p r v).x = -v.x + BALL_VEL_INCR := by
  unfold hitVelocity amplify; dsimp only
  rw [if_pos (by linarith)]

lemma hitVelocity_x_of_pos (p v : Vector2D) (r : RectangleShape) (h : 0 < v.x) :
    (hitVelocity p r v).x = -v.x - BALL_VEL_INCR := by
  unfold hitVelocity amplify; dsimp only
  rw [if_neg (by linarith)]

lemma rally_speed_pos (n : ℕ) : 0 < BALL_VELOCITY + (n : ℚ) * BALL_VEL_INCR := by
  have : (0 : ℚ) ≤ (n : ℚ) * BALL_VEL_INCR :=
    mul_nonneg (Nat.cast_nonneg n) (by norm_num [BALL_VEL_INCR])
  have : (0 : ℚ) < BALL_VELOCITY := by norm_num [BALL_VELOCITY]
  linarith

/-- The first switch keeps the agreement, restarting the hit count when it launches. -/
lemma served_rallyInv (g : PongGame) (t : ℚ) (k : Keys) (n : ℕ)
    (h : rallyInv g.m_playState g.m_ball.GetVelocity.x n) :
    rallyInv (g.served t k).m_playState (g.served t k).m_ball.GetVelocity.x
      (if (g.served t k).m_playState = g.m_playState then n else 0) := by
  cases hp : g.m_playState with
  | SERVE_PLAYER_ONE =>
    cases hk : k.Space with
    | true =>
      obtain ⟨a, b, _⟩ := served_launch_one g t k hp hk
      rw [a, Ball.GetVelocity, b]
      simp [rallyInv]
    | false =>
      obtain ⟨a, _, _⟩ := served_hold_one g t k hp hk
      rw [a]; simp [rallyInv]
  | SERVE_PLAYER_TWO =>
    cases hk : k.Space with
    | true =>
      obtain ⟨a, b, _⟩ := served_launch_two g t k hp hk
      rw [a, Ball.GetVelocity, b]
      simp [rallyInv]
    | false =>
      obtain ⟨a, _, _⟩ := served_hold_two g t k hp hk
      rw [a]; simp [rallyInv]
  | TOWARD_PLAYER_ONE =>
    rw [served_playState_toward_one g t k hp, served_ball_toward_one g t k hp]
    rw [hp] at h
    simpa using h
  | TOWARD_PLAYER_TWO =>
    rw [served_playState_toward_two g t k hp, served_ball_toward_two g t k hp]
    rw [hp] at h
    simpa using h

/-- The second switch keeps the agreement, counting one more hit when it flips the
Toward phase. -/
lemma collideStep_rallyInv (s : PongGame) (p v : Vector2D) (m : ℕ)
    (h : rallyInv s.m_playState v.x m) :
    rallyInv (s.collideStep p v).1.m_playState (s.collideStep p v).2.x
      (m + if (s.m_playState = PLAY_STATE.TOWARD_PLAYER_ONE ∧
            (s.collideStep p v).1.m_playState = PLAY_STATE.TOWARD_PLAYER_TWO) ∨
          (s.m_playState = PLAY_STATE.TOWARD_PLAYER_TWO ∧
            (s.collideStep p v).1.m_playState = PLAY_STATE.TOWARD_PLAYER_ONE)
        then 1 else 0) := by
  have hpos := rally_speed_pos m
  cases hp : s.m_playState with
  | SERVE_PLAYER_ONE =>
    rw [collideStep_serving s p v (Or.inl hp)]; simp [hp, rallyInv]
  | SERVE_PLAYER_TWO =>
    rw [collideStep_serving s p v (Or.inr hp)]; simp [hp, rallyInv]
  | TOWARD_PLAYER_ONE =>
    have hv : v.x = -(BALL_VELOCITY + m * BALL_VEL_INCR) := h.1 hp
    by_cases hr : p.x - BALL_RADIUS > s.m_playerOne.GetPositionSize.x + PADDLE_WIDTH
    · rw [collideStep_not_reached_one s p v hp hr]
      simp [hp, rallyInv, hv]
    · by_cases ho : p.y + BALL_RADIUS ≥ s.m_playerOne.GetPositionSize.y ∧
          p.y - BALL_RADIUS ≤ s.m_playerOne.GetPositionSize.y + PADDLE_LENGTH
      · rw [collideStep_hit_one s p v hp (not_lt.mp hr) ho.1 ho.2]
        have hx := hitVelocity_x_of_neg p v s.m_playerOne.GetPositionSize
          (by rw [hv]; linarith)
        simp only [rallyInv, hx, hv]
        constructor
        · intro hc; cases hc
        · intro _; simp; ring
      · by_cases hm : p.x + BALL_RADIUS < s.m_playerOne.GetPositionSize.x
        · rw [collideStep_miss_one s p v hp hm ho]
          simp [rallyInv]
        · have e : s.collideStep p v = (s, v) := by
            unfold PongGame.collideStep
            simp only [hp]
            rw [if_neg hr, if_neg ho, if_neg hm]
          rw [e]
          simp [hp, rallyInv, hv]
  | TOWARD_PLAYER_TWO =>
    have hv : v.x = BALL_VELOCITY + m * BALL_VEL_INCR := h.2 hp
    by_cases hr : p.x + BALL_RADIUS < s.m_playerTwo.GetPositionSize.x
    · rw [collideStep_not_reached_two s p v hp hr]
      simp [hp, rallyInv, hv]
    · by_cases ho : p.y + BALL_RADIUS ≥ s.m_playerTwo.GetPositionSize.y ∧
          p.y - BALL_RADIUS ≤ s.m_playerTwo.GetPositionSize.y + PADDLE_LENGTH
      · rw [collideStep_hit_two s p v hp (not_lt.mp hr) ho.1 ho.2]
        have hx := hitVelocity_x_of_pos p v s.m_playerTwo.GetPositionSize
          (by rw [hv]; linarith)
        simp only [rallyInv, hx, hv]
        constructor
        · intro _; simp; ring
        · intro hc; cases hc
      · by_cases hm : p.x - BALL_RADIUS > s.m_playerTwo.GetPositionSize.x + PADDLE_WIDTH
        · rw [collideStep_miss_two s p v hp hm ho]
          simp [rallyInv]
        · have e : s.collideStep p v = (s, v) := by
            unfold PongGame.collideStep
            simp only [hp]
            rw [if_neg hr, if_neg ho, if_neg hm]
          rw [e]
          simp [hp, rallyInv, hv]

/-- One `Update` keeps the agreement, with the hit count advanced by `rallyHits`. -/
lemma Update_rallyInv (g : PongGame) (t : ℚ) (k : Keys) (n : ℕ)
    (h : rallyInv g.m_playState g.m_ball.GetVelocity.x n) :
    rallyInv (g.Update t k).1.m_playState (g.Update t k).1.m_ball.GetVelocity.x
      (g.rallyHits n t k) := by
  have h1 := served_rallyInv g t k n h
  have h2 := collideStep_rallyInv
    { g.served t k with m_ball := (g.served t k).m_ball.SetPosition (g.ballPos t k) }
    (g.ballPos t k) (g.served t k).m_ball.GetVelocity _ h1
  rw [Update_playState, (Update_velocity g t k).1]
  unfold PongGame.rallyHits PongGame.hit
  simpa [PongGame.collided] using h2

lemma runRally_rallyInv (inputs : List (ℚ × Keys)) : ∀ (g : PongGame) (n : ℕ),
    rallyInv g.m_playState g.m_ball.GetVelocity.x n →
    rallyInv (g.runRally n inputs).1.m_playState
      (g.runRally n inputs).1.m_ball.GetVelocity.x (g.runRally n inputs).2 := by
  induction inputs with
  | nil => intro g n h; exact h
  | cons inp rest ih =>
    intro g n h
    exact ih _ _ (Update_rallyInv g inp.1 inp.2 n h)

/-- C19: in every state reached from the constructed game by any sequence of updates
(any key inputs, any tick durations), at the end of a tick in phase TOWARD_PLAYER_ONE
vx <= -BALL_VELOCITY and in phase TOWARD_PLAYER_TWO vx >= +BALL_VELOCITY; and the
horizontal speed after k paddle hits of the current rally is exactly
BALL_VELOCITY + k * BALL_VEL_INCR. -/
theorem runRally_velocity (scoreToWin : ℕ) (inputs : List (ℚ × Keys)) :
    (((PongGame.new scoreToWin).runRally 0 inputs).1.m_playState =
        PLAY_STATE.TOWARD_PLAYER_ONE →
      ((PongGame.new scoreToWin).runRally 0 inputs).1.m_ball.GetVelocity.x ≤
        -BALL_VELOCITY ∧
      ((PongGame.new scoreToWin).runRally 0 inputs).1.m_ball.GetVelocity.x =
        -(BALL_VELOCITY +
          (((PongGame.new scoreToWin).runRally 0 inputs).2 : ℚ) * BALL_VEL_INCR)) ∧
    (((PongGame.new scoreToWin).runRally 0 inputs).1.m_playState =
        PLAY_STATE.TOWARD_PLAYER_TWO →
      ((PongGame.new scoreToWin).runRally 0 inputs).1.m_ball.GetVelocity.x ≥
        BALL_VELOCITY ∧
      ((PongGame.new scoreToWin).runRally 0 inputs).1.m_ball.GetVelocity.x =
        BALL_VELOCITY +
          (((PongGame.new scoreToWin).runRally 0 inputs).2 : ℚ) * BALL_VEL_INCR) := by
  have h0 : rallyInv (PongGame.new scoreToWin).m_playState
      (PongGame.new scoreToWin).m_ball.GetVelocity.x 0 := by
    simp [rallyInv, PongGame.new]
  obtain ⟨a, b⟩ := runRally_rallyInv inputs _ _ h0
  have hn : (0 : ℚ) ≤
      (((PongGame.new scoreToWin).runRally 0 inputs).2 : ℚ) * BALL_VEL_INCR :=
    mul_nonneg (Nat.cast_nonneg _) (by norm_num [BALL_VEL_INCR])
  constructor
  · intro hp
    have := a hp
    exact ⟨by rw [this]; linarith, this⟩
  · intro hp
    have := b hp
    exact ⟨by rw [this]; linarith, this⟩

/-- Instance of C19: after a serve tick of the constructed game the phase is
TOWARD_PLAYER_TWO with vx >= 400, and after a serve whose (long) tick also reaches
paddle two the phase is TOWARD_PLAYER_ONE with vx <= -400. -/
theorem runRally_velocity_witness :
    ((PongGame.new 3).runRally 0 [(33, Keys.serve)]).1.m_ball.GetVelocity.x ≥
      BALL_VELOCITY ∧
    ((PongGame.new 3).runRally 0 [(4000, Keys.serve)]).1.m_ball.GetVelocity.x ≤
      -BALL_VELOCITY :=
  ⟨((runRally_velocity 3 [(33, Keys.serve)]).2
      (by norm_num [PongGame.runRally, PongGame.new, PongGame.Update, PongGame.collided, PongGame.ballPos,
    PongGame.served, PongGame.paddle1, PongGame.paddle2, PongGame.movePaddles,
    PongGame.serveStep, PongGame.collideStep, PongGame.wallStep, hitVelocity, amplify,
    deflectY, Keys.none, Keys.serve, Ball.new, Ball.SetPosition, Ball.SetVelocity,
    Ball.GetPosition, Ball.GetVelocity, Paddle.GetPositionSize, Paddle.SetPosition,
    Court.GetDimensions, COURT_MARGIN, WINDOW_WIDTH, WINDOW_HEIGHT, BALL_RADIUS,
    PADDLE_WIDTH, PADDLE_LENGTH, PADDLE_PADDING, PADDLE_SPEED, BALL_VELOCITY,
    BALL_VEL_INCR, SCORE_MOD])).1,
   ((runRally_velocity 3 [(4000, Keys.serve)]).1
      (by norm_num [PongGame.runRally, PongGame.new, PongGame.Update, PongGame.collided, PongGame.ballPos,
    PongGame.served, PongGame.paddle1, PongGame.paddle2, PongGame.movePaddles,
    PongGame.serveStep, PongGame.collideStep, PongGame.wallStep, hitVelocity, amplify,
    deflectY, Keys.none, Keys.serve, Ball.new, Ball.SetPosition, Ball.SetVelocity,
    Ball.GetPosition, Ball.GetVelocity, Paddle.GetPositionSize, Paddle.SetPosition,
    Court.GetDimensions, COURT_MARGIN, WINDOW_WIDTH, WINDOW_HEIGHT, BALL_RADIUS,
    PADDLE_WIDTH, PADDLE_LENGTH, PADDLE_PADDING, PADDLE_SPEED, BALL_VELOCITY,
    BALL_VEL_INCR, SCORE_MOD])).1⟩

/-! ## Scores change only on a miss -/

/-- The second switch leaves both scores alone unless it takes a miss branch: in phase
TOWARD_PLAYER_ONE with the ball beyond paddle one and no vertical overlap (player two
scores, phase SERVE_PLAYER_ONE), or the mirror case at paddle two. -/
lemma collideStep_scores_cases (s : PongGame) (p v : Vector2D) :
    ((s.collideStep p v).1.m_playerOneScore = s.m_playerOneScore ∧
      (s.collideStep p v).1.m_playerTwoScore = s.m_playerTwoScore) ∨
    (s.m_playState = PLAY_STATE.TOWARD_PLAYER_ONE ∧
      p.x + BALL_RADIUS < s.m_playerOne.GetPositionSize.x ∧
      ¬ (p.y + BALL_RADIUS ≥ s.m_playerOne.GetPositionSize.y ∧
        p.y - BALL_RADIUS ≤ s.m_playerOne.GetPositionSize.y + PADDLE_LENGTH) ∧
      (s.collideStep p v).1.m_playState = PLAY_STATE.SERVE_PLAYER_ONE) ∨
    (s.m_playState = PLAY_STATE.TOWARD_PLAYER_TWO ∧
      p.x - BALL_RADIUS > s.m_playerTwo.GetPositionSize.x + PADDLE_WIDTH ∧
      ¬ (p.y + BALL_RADIUS ≥ s.m_playerTwo.GetPositionSize.y ∧
        p.y - BALL_RADIUS ≤ s.m_playerTwo.GetPositionSize.y + PADDLE_LENGTH) ∧
      (s.collideStep p v).1.m_playState = PLAY_STATE.SERVE_PLAYER_TWO) := by
  cases hp : s.m_playState with
  | SERVE_PLAYER_ONE =>
    rw [collideStep_serving s p v (Or.inl hp)]; exact Or.inl ⟨rfl, rfl⟩
  | SERVE_PLAYER_TWO =>
    rw [collideStep_serving s p v (Or.inr hp)]; exact Or.inl ⟨rfl, rfl⟩
  | TOWARD_PLAYER_ONE =>
    by_cases hr : p.x - BALL_RADIUS > s.m_playerOne.GetPositionSize.x + PADDLE_WIDTH
    · rw [collideStep_not_reached_one s p v hp hr]; exact Or.inl ⟨rfl, rfl⟩
    · by_cases ho : p.y + BALL_RADIUS ≥ s.m_playerOne.GetPositionSize.y ∧
          p.y - BALL_RADIUS ≤ s.m_playerOne.GetPositionSize.y + PADDLE_LENGTH
      · rw [collideStep_hit_one s p v hp (not_lt.mp hr) ho.1 ho.2]
        exact Or.inl ⟨rfl, rfl⟩
      · by_cases hm : p.x + BALL_RADIUS < s.m_playerOne.GetPositionSize.x
        · rw [collideStep_miss_one s p v hp hm ho]
          exact Or.inr (Or.inl ⟨rfl, hm, ho, rfl⟩)
        · have e : s.collideStep p v = (s, v) := by
            unfold PongGame.collideStep
            simp only [hp]
            rw [if_neg hr, if_neg ho, if_neg hm]
          rw [e]; exact Or.inl ⟨rfl, rfl⟩
  | TOWARD_PLAYER_TWO =>
    by_cases hr : p.x + BALL_RADIUS < s.m_playerTwo.GetPositionSize.x
    · rw [collideStep_not_reached_two s p v hp hr]; exact Or.inl ⟨rfl, rfl⟩
    · by_cases ho : p.y + BALL_RADIUS ≥ s.m_playerTwo.GetPositionSize.y ∧
          p.y - BALL_RADIUS ≤ s.m_playerTwo.GetPositionSize.y + PADDLE_LENGTH
      · rw [collideStep_hit_two s p v hp (not_lt.mp hr) ho.1 ho.2]
        exact Or.inl ⟨rfl, rfl⟩
      · by_cases hm : p.x - BALL_RADIUS > s.m_playerTwo.GetPositionSize.x + PADDLE_WIDTH
        · rw [collideStep_miss_two s p v hp hm ho]
          exact Or.inr (Or.inr ⟨rfl, hm, ho, rfl⟩)
        · have e : s.collideStep p v = (s, v) := by
            unfold PongGame.collideStep
            simp only [hp]
            rw [if_neg hr, if_neg ho, if_neg hm]
          rw [e]; exact Or.inl ⟨rfl, rfl⟩

/-- The same, seen from `Update`: the scores are unchanged unless the tick is a miss. -/
lemma Update_scores_cases (g : PongGame) (t : ℚ) (k : Keys) :
    ((g.Update t k).1.m_playerOneScore = g.m_playerOneScore ∧
      (g.Update t k).1.m_playerTwoScore = g.m_playerTwoScore) ∨
    ((g.served t k).m_playState = PLAY_STATE.TOWARD_PLAYER_ONE ∧
      (g.ballPos t k).x + BALL_RADIUS < (g.paddle1 t k).x ∧
      ¬ ((g.ballPos t k).y + BALL_RADIUS ≥ (g.paddle1 t k).y ∧
        (g.ballPos t k).y - BALL_RADIUS ≤ (g.paddle1 t k).y + PADDLE_LENGTH) ∧
      (g.Update t k).1.m_playState = PLAY_STATE.SERVE_PLAYER_ONE) ∨
    ((g.served t k).m_playState = PLAY_STATE.TOWARD_PLAYER_TWO ∧
      (g.ballPos t k).x - BALL_RADIUS > (g.paddle2 t k).x + PADDLE_WIDTH ∧
      ¬ ((g.ballPos t k).y + BALL_RADIUS ≥ (g.paddle2 t k).y ∧
        (g.ballPos t k).y - BALL_RADIUS ≤ (g.paddle2 t k).y + PADDLE_LENGTH) ∧
      (g.Update t k).1.m_playState = PLAY_STATE.SERVE_PLAYER_TWO) := by
  rw [Update_scoreOne, Update_scoreTwo, Update_playState]
  have h := collideStep_scores_cases
    { g.served t k with m_ball := (g.served t k).m_ball.SetPosition (g.ballPos t k) }
    (g.ballPos t k) (g.served t k).m_ball.GetVelocity
  simpa [PongGame.collided, PongGame.paddle1, PongGame.paddle2] using h

/-- The phase after the first switch, for a tick that starts in a serving phase. -/
lemma served_playState_of_serving (g : PongGame) (t : ℚ) (k : Keys) :
    (g.m_playState = PLAY_STATE.SERVE_PLAYER_ONE →
      (g.served t k).m_playState = PLAY_STATE.SERVE_PLAYER_ONE ∨
      (g.served t k).m_playState = PLAY_STATE.TOWARD_PLAYER_TWO) ∧
    (g.m_playState = PLAY_STATE.SERVE_PLAYER_TWO →
      (g.served t k).m_playState = PLAY_STATE.SERVE_PLAYER_TWO ∨
      (g.served t k).m_playState = PLAY_STATE.TOWARD_PLAYER_ONE) := by
  constructor
  · intro hp
    cases hk : k.Space with
    | true => exact Or.inr (served_launch_one g t k hp hk).1
    | false => exact Or.inl (served_hold_one g t k hp hk).1
  · intro hp
    cases hk : k.Space with
    | true => exact Or.inr (served_launch_two g t k hp hk).1
    | false => exact Or.inl (served_hold_two g t k hp hk).1

/-- C21: with both counters below their maximum 255, one `Update` raises the sum of the
two scores by at most 1 and lowers neither score. Both scores are unchanged in every
tick that starts in a serving phase and ends in that same phase, in every tick that
executes a paddle hit, and in every tick in which the ball has not passed the target
paddle of the phase left by the serve switch; whenever a score changes, the tick is a
miss (ball beyond the target paddle, no vertical overlap). -/
theorem Update_scores_only_on_miss (g : PongGame) (t : ℚ) (k : Keys) :
    (g.m_playerOneScore < 255 → g.m_playerTwoScore < 255 →
      (g.Update t k).1.m_playerOneScore + (g.Update t k).1.m_playerTwoScore ≤
        g.m_playerOneScore + g.m_playerTwoScore + 1 ∧
      g.m_playerOneScore ≤ (g.Update t k).1.m_playerOneScore ∧
      g.m_playerTwoScore ≤ (g.Update t k).1.m_playerTwoScore) ∧
    ((g.m_playState = PLAY_STATE.SERVE_PLAYER_ONE ∨
        g.m_playState = PLAY_STATE.SERVE_PLAYER_TWO) →
      (g.Update t k).1.m_playState = g.m_playState →
      (g.Update t k).1.m_playerOneScore = g.m_playerOneScore ∧
      (g.Update t k).1.m_playerTwoScore = g.m_playerTwoScore) ∧
    (g.hit t k = true →
      (g.Update t k).1.m_playerOneScore = g.m_playerOneScore ∧
      (g.Update t k).1.m_playerTwoScore = g.m_playerTwoScore) ∧
    ((g.served t k).m_playState = PLAY_STATE.TOWARD_PLAYER_ONE →
      ¬ ((g.ballPos t k).x + BALL_RADIUS < (g.paddle1 t k).x) →
      (g.Update t k).1.m_playerOneScore = g.m_playerOneScore ∧
      (g.Update t k).1.m_playerTwoScore = g.m_playerTwoScore) ∧
    ((g.served t k).m_playState = PLAY_STATE.TOWARD_PLAYER_TWO →
      ¬ ((g.ballPos t k).x - BALL_RADIUS > (g.paddle2 t k).x + PADDLE_WIDTH) →
      (g.Update t k).1.m_playerOneScore = g.m_playerOneScore ∧
      (g.Update t k).1.m_playerTwoScore = g.m_playerTwoScore) ∧
    (((g.Update t k).1.m_playerOneScore ≠ g.m_playerOneScore ∨
        (g.Update t k).1.m_playerTwoScore ≠ g.m_playerTwoScore) →
      ((g.served t k).m_playState = PLAY_STATE.TOWARD_PLAYER_ONE ∧
        (g.ballPos t k).x + BALL_RADIUS < (g.paddle1 t k).x ∧
        ¬ ((g.ballPos t k).y + BALL_RADIUS ≥ (g.paddle1 t k).y ∧
          (g.ballPos t k).y - BALL_RADIUS ≤ (g.paddle1 t k).y + PADDLE_LENGTH)) ∨
      ((g.served t k).m_playState = PLAY_STATE.TOWARD_PLAYER_TWO ∧
        (g.ballPos t k).x - BALL_RADIUS > (g.paddle2 t k).x + PADDLE_WIDTH ∧
        ¬ ((g.ballPos t k).y + BALL_RADIUS ≥ (g.paddle2 t k).y ∧
          (g.ballPos t k).y - BALL_RADIUS ≤ (g.paddle2 t k).y + PADDLE_LENGTH))) := by
  have hc := Update_scores_cases g t k
  refine ⟨?_, ?_, ?_, ?_, ?_, ?_⟩
  · intro h1 h2
    have hs := Update_scores g t k
    unfold SCORE_MOD at hs
    rcases hs with ⟨a, b⟩ | ⟨a, b⟩ | ⟨a, b⟩ <;> rw [a, b] <;> omega
  · intro hp hst
    obtain ⟨s1, s2⟩ := served_playState_of_serving g t k
    rcases hc with h | ⟨hs, _, _, hph⟩ | ⟨hs, _, _, hph⟩
    · exact h
    · rcases hp with hp | hp
      · rcases s1 hp with e | e <;> rw [e] at hs <;> cases hs
      · rw [hph, hp] at hst; cases hst
    · rcases hp with hp | hp
      · rw [hph, hp] at hst; cases hst
      · rcases s2 hp with e | e <;> rw [e] at hs <;> cases hs
  · intro hh
    unfold PongGame.hit at hh
    rw [decide_eq_true_eq, ← Update_playState] at hh
    rcases hc with h | ⟨_, _, _, hph⟩ | ⟨_, _, _, hph⟩
    · exact h
    · rw [hph] at hh
      rcases hh with ⟨_, e⟩ | ⟨_, e⟩ <;> cases e
    · rw [hph] at hh
      rcases hh with ⟨_, e⟩ | ⟨_, e⟩ <;> cases e
  · intro hp hn
    rcases hc with h | ⟨_, hx, _, _⟩ | ⟨hs, _, _, _⟩
    · exact h
    · exact absurd hx hn
    · rw [hp] at hs; cases hs
  · intro hp hn
    rcases hc with h | ⟨hs, _, _, _⟩ | ⟨_, hx, _, _⟩
    · exact h
    · rw [hp] at hs; cases hs
    · exact absurd hx hn
  · intro hne
    rcases hc with h | ⟨hs, hx, ho, _⟩ | ⟨hs, hx, ho, _⟩
    · rcases hne with h' | h'
      · exact absurd h.1 h'
      · exact absurd h.2 h'
    · exact Or.inl ⟨hs, hx, ho⟩
    · exact Or.inr ⟨hs, hx, ho⟩

/-- Instance of C21: the serving game at (2,1) keeps its scores over a tick without
keys, the hit at paddle one and the mid-court rally toward player one keep (0,0), and
the miss at paddle one from (0,1) raises the sum by one. -/
theorem Update_scores_only_on_miss_witness :
    ((game21.Update 33 Keys.none).1.m_playerOneScore = 2 ∧
      (game21.Update 33 Keys.none).1.m_playerTwoScore = 1) ∧
    ((gameHitOne.Update 33 Keys.none).1.m_playerOneScore = 0 ∧
      (gameHitOne.Update 33 Keys.none).1.m_playerTwoScore = 0) ∧
    ((gameRallyOne.Update 33 Keys.none).1.m_playerOneScore = 0 ∧
      (gameRallyOne.Update 33 Keys.none).1.m_playerTwoScore = 0) ∧
    (gamePassOne.Update 33 Keys.none).1.m_playerOneScore +
        (gamePassOne.Update 33 Keys.none).1.m_playerTwoScore ≤ 2 :=
  ⟨(Update_scores_only_on_miss game21 33 Keys.none).2.1 (Or.inl rfl)
      (by norm_num [game21, PongGame.new, PongGame.Update, PongGame.collided, PongGame.ballPos,
    PongGame.served, PongGame.paddle1, PongGame.paddle2, PongGame.movePaddles,
    PongGame.serveStep, PongGame.collideStep, PongGame.wallStep, hitVelocity, amplify,
    deflectY, Keys.none, Keys.serve, Ball.new, Ball.SetPosition, Ball.SetVelocity,
    Ball.GetPosition, Ball.GetVelocity, Paddle.GetPositionSize, Paddle.SetPosition,
    Court.GetDimensions, COURT_MARGIN, WINDOW_WIDTH, WINDOW_HEIGHT, BALL_RADIUS,
    PADDLE_WIDTH, PADDLE_LENGTH, PADDLE_PADDING, PADDLE_SPEED, BALL_VELOCITY,
    BALL_VEL_INCR, SCORE_MOD]),
   (Update_scores_only_on_miss gameHitOne 33 Keys.none).2.2.1
      (by norm_num [PongGame.hit, gameHitOne, PongGame.new, PongGame.Update, PongGame.collided, PongGame.ballPos,
    PongGame.served, PongGame.paddle1, PongGame.paddle2, PongGame.movePaddles,
    PongGame.serveStep, PongGame.collideStep, PongGame.wallStep, hitVelocity, amplify,
    deflectY, Keys.none, Keys.serve, Ball.new, Ball.SetPosition, Ball.SetVelocity,
    Ball.GetPosition, Ball.GetVelocity, Paddle.GetPositionSize, Paddle.SetPosition,
    Court.GetDimensions, COURT_MARGIN, WINDOW_WIDTH, WINDOW_HEIGHT, BALL_RADIUS,
    PADDLE_WIDTH, PADDLE_LENGTH, PADDLE_PADDING, PADDLE_SPEED, BALL_VELOCITY,
    BALL_VEL_INCR, SCORE_MOD]),
   (Update_scores_only_on_miss gameRallyOne 33 Keys.none).2.2.2.1
      (by norm_num [gameRallyOne, PongGame.new, PongGame.Update, PongGame.collided, PongGame.ballPos,
    PongGame.served, PongGame.paddle1, PongGame.paddle2, PongGame.movePaddles,
    PongGame.serveStep, PongGame.collideStep, PongGame.wallStep, hitVelocity, amplify,
    deflectY, Keys.none, Keys.serve, Ball.new, Ball.SetPosition, Ball.SetVelocity,
    Ball.GetPosition, Ball.GetVelocity, Paddle.GetPositionSize, Paddle.SetPosition,
    Court.GetDimensions, COURT_MARGIN, WINDOW_WIDTH, WINDOW_HEIGHT, BALL_RADIUS,
    PADDLE_WIDTH, PADDLE_LENGTH, PADDLE_PADDING, PADDLE_SPEED, BALL_VELOCITY,
    BALL_VEL_INCR, SCORE_MOD])
      (by norm_num [gameRallyOne, PongGame.new, PongGame.Update, PongGame.collided, PongGame.ballPos,
    PongGame.served, PongGame.paddle1, PongGame.paddle2, PongGame.movePaddles,
    PongGame.serveStep, PongGame.collideStep, PongGame.wallStep, hitVelocity, amplify,
    deflectY, Keys.none, Keys.serve, Ball.new, Ball.SetPosition, Ball.SetVelocity,
    Ball.GetPosition, Ball.GetVelocity, Paddle.GetPositionSize, Paddle.SetPosition,
    Court.GetDimensions, COURT_MARGIN, WINDOW_WIDTH, WINDOW_HEIGHT, BALL_RADIUS,
    PADDLE_WIDTH, PADDLE_LENGTH, PADDLE_PADDING, PADDLE_SPEED, BALL_VELOCITY,
    BALL_VEL_INCR, SCORE_MOD]),
   ((Update_scores_only_on_miss gamePassOne 33 Keys.none).1 (by decide) (by decide)).1⟩


/-! ## Paddle movement in binary32 -/

lemma collideStep_beside_two (s : PongGame) (p v : Vector2D)
    (hp : s.m_playState = PLAY_STATE.TOWARD_PLAYER_TWO)
    (h1 : ¬ (p.y + BALL_RADIUS ≥ s.m_playerTwo.GetPositionSize.y ∧
      p.y - BALL_RADIUS ≤ s.m_playerTwo.GetPositionSize.y + PADDLE_LENGTH))
    (h2 : ¬ (p.x - BALL_RADIUS > s.m_playerTwo.GetPositionSize.x + PADDLE_WIDTH)) :
    s.collideStep p v = (s, v) := by
  unfold PongGame.collideStep
  simp only [hp]
  split_ifs <;> rfl

lemma collideStep_beside_one (s : PongGame) (p v : Vector2D)
    (hp : s.m_playState = PLAY_STATE.TOWARD_PLAYER_ONE)
    (h1 : ¬ (p.y + BALL_RADIUS ≥ s.m_playerOne.GetPositionSize.y ∧
      p.y - BALL_RADIUS ≤ s.m_playerOne.GetPositionSize.y + PADDLE_LENGTH))
    (h2 : ¬ (p.x + BALL_RADIUS < s.m_playerOne.GetPositionSize.x)) :
    s.collideStep p v = (s, v) := by
  unfold PongGame.collideStep
  simp only [hp]
  split_ifs <;> rfl

lemma movePaddles_none (g : PongGame) (t : ℚ) : g.movePaddles t Keys.none = g := by
  simp [PongGame.movePaddles, Keys.none]

/-- The returned state when no score has reached the threshold after the tick. -/
lemma Update_snd_in_game (g : PongGame) (t : ℚ) (k : Keys)
    (h1 : (g.Update t k).1.m_playerOneScore < g.m_maxScore)
    (h2 : (g.Update t k).1.m_playerTwoScore < g.m_maxScore) :
    (g.Update t k).2 = GAME_STATE.IN_GAME := by
  have h := Update_snd_menu g t k
  have hc : (g.Update t k).2 = GAME_STATE.MENU ∨ (g.Update t k).2 = GAME_STATE.IN_GAME := by
    unfold PongGame.Update; dsimp only
    split_ifs
    · exact Or.inl rfl
    · exact Or.inr rfl
  rcases hc with hc | hc
  · rcases h.mp hc with h' | h' <;> omega
  · exact hc

/-- One tick of 33 ms without keys in a Toward phase, the ball moving horizontally
strictly inside the court, when the collision switch takes no action: only the ball's x
changes. -/
lemma Update_flight (g : PongGame)
    (hp : g.m_playState = PLAY_STATE.TOWARD_PLAYER_ONE ∨
      g.m_playState = PLAY_STATE.TOWARD_PLAYER_TWO)
    (hvy : g.m_ball.m_velocity.y = 0)
    (hno : ∀ v, PongGame.collideStep
        { g with m_ball := (g.m_ball.SetPosition
          ⟨g.m_ball.m_position.x + g.m_ball.m_velocity.x * (33 / 1000),
           g.m_ball.m_position.y⟩) }
        ⟨g.m_ball.m_position.x + g.m_ball.m_velocity.x * (33 / 1000),
           g.m_ball.m_position.y⟩ v =
      ({ g with m_ball := (g.m_ball.SetPosition
          ⟨g.m_ball.m_position.x + g.m_ball.m_velocity.x * (33 / 1000),
           g.m_ball.m_position.y⟩) }, v))
    (hc1 : g.m_court.m_dimensions.y < g.m_ball.m_position.y)
    (hc2 : g.m_ball.m_position.y < g.m_court.m_dimensions.y + g.m_court.m_dimensions.height)
    (hs1 : g.m_playerOneScore < g.m_maxScore) (hs2 : g.m_playerTwoScore < g.m_maxScore) :
    g.Update 33 Keys.none =
      ({ g with m_ball := { g.m_ball with m_position :=
          ⟨g.m_ball.m_position.x + g.m_ball.m_velocity.x * (33 / 1000),
           g.m_ball.m_position.y⟩ } }, GAME_STATE.IN_GAME) := by
  have hserved : g.served 33 Keys.none = g := by
    rcases hp with hp | hp
    · rw [served_toward_one g 33 Keys.none hp, movePaddles_none]
    · rw [served_toward_two g 33 Keys.none hp, movePaddles_none]
  have hbp : g.ballPos 33 Keys.none =
      ⟨g.m_ball.m_position.x + g.m_ball.m_velocity.x * (33 / 1000),
       g.m_ball.m_position.y⟩ := by
    unfold PongGame.ballPos; dsimp only
    rw [hserved]
    simp [Ball.GetPosition, Ball.GetVelocity, hvy]
  have hU := Update_free_flight g 33 Keys.none
    (by rw [hserved, hbp]; exact hno _)
    (by rw [hbp]; exact hc1) (by rw [hbp]; exact hc2)
  rw [hserved, hbp] at hU
  have h2 : (g.Update 33 Keys.none).2 = GAME_STATE.IN_GAME := by
    apply Update_snd_in_game
    · rw [hU]; exact hs1
    · rw [hU]; exact hs2
  rw [Prod.ext_iff]
  exact ⟨hU, h2⟩

lemma Update_flight_two (g : PongGame) (hp : g.m_playState = PLAY_STATE.TOWARD_PLAYER_TWO)
    (hvy : g.m_ball.m_velocity.y = 0)
    (hno : g.m_ball.m_position.x + g.m_ball.m_velocity.x * (33 / 1000) + BALL_RADIUS <
        g.m_playerTwo.m_rect.x ∨
      (¬ (g.m_ball.m_position.y + BALL_RADIUS ≥ g.m_playerTwo.m_rect.y ∧
          g.m_ball.m_position.y - BALL_RADIUS ≤ g.m_playerTwo.m_rect.y + PADDLE_LENGTH) ∧
        ¬ (g.m_ball.m_position.x + g.m_ball.m_velocity.x * (33 / 1000) - BALL_RADIUS >
          g.m_playerTwo.m_rect.x + PADDLE_WIDTH)))
    (hc1 : g.m_court.m_dimensions.y < g.m_ball.m_position.y)
    (hc2 : g.m_ball.m_position.y < g.m_court.m_dimensions.y + g.m_court.m_dimensions.height)
    (hs1 : g.m_playerOneScore < g.m_maxScore) (hs2 : g.m_playerTwoScore < g.m_maxScore) :
    g.Update 33 Keys.none =
      ({ g with m_ball := { g.m_ball with m_position :=
          ⟨g.m_ball.m_position.x + g.m_ball.m_velocity.x * (33 / 1000),
           g.m_ball.m_position.y⟩ } }, GAME_STATE.IN_GAME) := by
  apply Update_flight g (Or.inr hp) hvy _ hc1 hc2 hs1 hs2
  intro v
  rcases hno with h | ⟨h1, h2⟩
  · exact collideStep_not_reached_two _ _ _ hp h
  · exact collideStep_beside_two _ _ _ hp h1 h2

lemma Update_flight_one (g : PongGame) (hp : g.m_playState = PLAY_STATE.TOWARD_PLAYER_ONE)
    (hvy : g.m_ball.m_velocity.y = 0)
    (hno : g.m_ball.m_position.x + g.m_ball.m_velocity.x * (33 / 1000) - BALL_RADIUS >
        g.m_playerOne.m_rect.x + PADDLE_WIDTH ∨
      (¬ (g.m_ball.m_position.y + BALL_RADIUS ≥ g.m_playerOne.m_rect.y ∧
          g.m_ball.m_position.y - BALL_RADIUS ≤ g.m_playerOne.m_rect.y + PADDLE_LENGTH) ∧
        ¬ (g.m_ball.m_position.x + g.m_ball.m_velocity.x * (33 / 1000) + BALL_RADIUS <
          g.m_playerOne.m_rect.x)))
    (hc1 : g.m_court.m_dimensions.y < g.m_ball.m_position.y)
    (hc2 : g.m_ball.m_position.y < g.m_court.m_dimensions.y + g.m_court.m_dimensions.height)
    (hs1 : g.m_playerOneScore < g.m_maxScore) (hs2 : g.m_playerTwoScore < g.m_maxScore) :
    g.Update 33 Keys.none =
      ({ g with m_ball := { g.m_ball with m_position :=
          ⟨g.m_ball.m_position.x + g.m_ball.m_velocity.x * (33 / 1000),
           g.m_ball.m_position.y⟩ } }, GAME_STATE.IN_GAME) := by
  apply Update_flight g (Or.inl hp) hvy _ hc1 hc2 hs1 hs2
  intro v
  rcases hno with h | ⟨h1, h2⟩
  · exact collideStep_not_reached_one _ _ _ hp h
  · exact collideStep_beside_one _ _ _ hp h1 h2

/-- Ticks of 33 ms without keys in phase TOWARD_PLAYER_TWO, the ball moving horizontally
toward paddle two: `n` ticks at the end of which the ball has not reached the paddle, or
is beside it without having left it behind, move the ball by `n` steps and return
IN_GAME each. -/
lemma run_flight_two (n : ℕ) : ∀ g : PongGame,
    g.m_playState = PLAY_STATE.TOWARD_PLAYER_TWO → g.m_ball.m_velocity.y = 0 →
    0 ≤ g.m_ball.m_velocity.x →
    (g.m_ball.m_position.x + n * (g.m_ball.m_velocity.x * (33 / 1000)) + BALL_RADIUS <
        g.m_playerTwo.m_rect.x ∨
      (¬ (g.m_ball.m_position.y + BALL_RADIUS ≥ g.m_playerTwo.m_rect.y ∧
          g.m_ball.m_position.y - BALL_RADIUS ≤ g.m_playerTwo.m_rect.y + PADDLE_LENGTH) ∧
        ¬ (g.m_ball.m_position.x + n * (g.m_ball.m_velocity.x * (33 / 1000)) - BALL_RADIUS >
          g.m_playerTwo.m_rect.x + PADDLE_WIDTH))) →
    g.m_court.m_dimensions.y < g.m_ball.m_position.y →
    g.m_ball.m_position.y < g.m_court.m_dimensions.y + g.m_court.m_dimensions.height →
    g.m_playerOneScore < g.m_maxScore → g.m_playerTwoScore < g.m_maxScore →
    g.run (List.replicate n (33, Keys.none)) =
      ({ g with m_ball := { g.m_ball with m_position :=
          ⟨g.m_ball.m_position.x + n * (g.m_ball.m_velocity.x * (33 / 1000)),
           g.m_ball.m_position.y⟩ } }, List.replicate n GAME_STATE.IN_GAME) := by
  induction n with
  | zero =>
    intro g _ _ _ _ _ _ _ _
    simp [PongGame.run]
  | succ n ih =>
    intro g hp hvy hvx hno hc1 hc2 hs1 hs2
    have hd : 0 ≤ (n : ℚ) * (g.m_ball.m_velocity.x * (33 / 1000)) := by positivity
    have hstep := Update_flight_two g hp hvy
      (by
        push_cast at hno
        rcases hno with h | ⟨h1, h2⟩
        · left; linarith
        · right; exact ⟨h1, by intro h; apply h2; linarith⟩)
      hc1 hc2 hs1 hs2
    have hrest := ih (g.Update 33 Keys.none).1
      (by rw [hstep]; exact hp) (by rw [hstep]; exact hvy) (by rw [hstep]; exact hvx)
      (by
        rw [hstep]
        dsimp only
        push_cast at hno
        rcases hno with h | ⟨h1, h2⟩
        · left; linarith
        · right; exact ⟨h1, by intro h; apply h2; linarith⟩)
      (by rw [hstep]; exact hc1) (by rw [hstep]; exact hc2)
      (by rw [hstep]; exact hs1) (by rw [hstep]; exact hs2)
    rw [List.replicate_succ, PongGame.run]
    dsimp only
    rw [hrest, hstep]
    simp only [List.replicate_succ, Prod.mk.injEq, and_true]
    congr 3
    push_cast
    ring

/-- The same toward paddle one. -/
lemma run_flight_one (n : ℕ) : ∀ g : PongGame,
    g.m_playState = PLAY_STATE.TOWARD_PLAYER_ONE → g.m_ball.m_velocity.y = 0 →
    g.m_ball.m_velocity.x ≤ 0 →
    (g.m_ball.m_position.x + n * (g.m_ball.m_velocity.x * (33 / 1000)) - BALL_RADIUS >
        g.m_playerOne.m_rect.x + PADDLE_WIDTH ∨
      (¬ (g.m_ball.m_position.y + BALL_RADIUS ≥ g.m_playerOne.m_rect.y ∧
          g.m_ball.m_position.y - BALL_RADIUS ≤ g.m_playerOne.m_rect.y + PADDLE_LENGTH) ∧
        ¬ (g.m_ball.m_position.x + n * (g.m_ball.m_velocity.x * (33 / 1000)) + BALL_RADIUS <
          g.m_playerOne.m_rect.x))) →
    g.m_court.m_dimensions.y < g.m_ball.m_position.y →
    g.m_ball.m_position.y < g.m_court.m_dimensions.y + g.m_court.m_dimensions.height →
    g.m_playerOneScore < g.m_maxScore → g.m_playerTwoScore < g.m_maxScore →
    g.run (List.replicate n (33, Keys.none)) =
      ({ g with m_ball := { g.m_ball with m_position :=
          ⟨g.m_ball.m_position.x + n * (g.m_ball.m_velocity.x * (33 / 1000)),
           g.m_ball.m_position.y⟩ } }, List.replicate n GAME_STATE.IN_GAME) := by
  induction n with
  | zero =>
    intro g _ _ _ _ _ _ _ _
    simp [PongGame.run]
  | succ n ih =>
    intro g hp hvy hvx hno hc1 hc2 hs1 hs2
    have hd : (n : ℚ) * (g.m_ball.m_velocity.x * (33 / 1000)) ≤ 0 := by
      have : g.m_ball.m_velocity.x * (33 / 1000) ≤ 0 := by linarith
      exact mul_nonpos_of_nonneg_of_nonpos (by positivity) this
    have hstep := Update_flight_one g hp hvy
      (by
        push_cast at hno
        rcases hno with h | ⟨h1, h2⟩
        · left; linarith
        · right; exact ⟨h1, by intro h; apply h2; linarith⟩)
      hc1 hc2 hs1 hs2
    have hrest := ih (g.Update 33 Keys.none).1
      (by rw [hstep]; exact hp) (by rw [hstep]; exact hvy) (by rw [hstep]; exact hvx)
      (by
        rw [hstep]
        dsimp only
        push_cast at hno
        rcases hno with h | ⟨h1, h2⟩
        · left; linarith
        · right; exact ⟨h1, by intro h; apply h2; linarith⟩)
      (by rw [hstep]; exact hc1) (by rw [hstep]; exact hc2)
      (by rw [hstep]; exact hs1) (by rw [hstep]; exact hs2)
    rw [List.replicate_succ, PongGame.run]
    dsimp only
    rw [hrest, hstep]
    simp only [List.replicate_succ, Prod.mk.injEq, and_true]
    congr 3
    push_cast
    ring

/-! ## Runs of ticks -/

lemma ticks_replicate (n : ℕ) (k : Keys) :
    ticks (List.replicate n k) = List.replicate n (33, k) := by
  simp [ticks]

lemma run_append (l1 : List (ℚ × Keys)) : ∀ (g : PongGame) (l2 : List (ℚ × Keys)),
    g.run (l1 ++ l2) =
      (((g.run l1).1.run l2).1, (g.run l1).2 ++ ((g.run l1).1.run l2).2) := by
  induction l1 with
  | nil => intro g l2; simp [PongGame.run]
  | cons inp rest ih => intro g l2; simp [PongGame.run, ih]

lemma run_ticks_nil {g : PongGame} :
    g.run (ticks []) = (g, List.replicate ([] : List Keys).length GAME_STATE.IN_GAME) := by
  simp [ticks, PongGame.run]

lemma run_ticks_cons {g g1 g2 : PongGame} {k : Keys} {l : List Keys}
    (h1 : g.Update 33 k = (g1, GAME_STATE.IN_GAME))
    (h2 : g1.run (ticks l) = (g2, List.replicate l.length GAME_STATE.IN_GAME)) :
    g.run (ticks (k :: l)) = (g2, List.replicate (k :: l).length GAME_STATE.IN_GAME) := by
  have e : ticks (k :: l) = (33, k) :: ticks l := by simp [ticks]
  rw [e, PongGame.run]
  dsimp only
  rw [h1]
  dsimp only
  rw [h2]
  simp [List.replicate_succ]

lemma run_ticks_append {g g1 g2 : PongGame} {l1 l2 : List Keys}
    (h1 : g.run (ticks l1) = (g1, List.replicate l1.length GAME_STATE.IN_GAME))
    (h2 : g1.run (ticks l2) = (g2, List.replicate l2.length GAME_STATE.IN_GAME)) :
    g.run (ticks (l1 ++ l2)) =
      (g2, List.replicate (l1 ++ l2).length GAME_STATE.IN_GAME) := by
  have e : ticks (l1 ++ l2) = ticks l1 ++ ticks l2 := by simp [ticks]
  rw [e, run_append, h1]
  dsimp only
  rw [h2, List.length_append, List.replicate_add]

lemma Reachable_run (inputs : List (ℚ × Keys)) : ∀ g : PongGame, g.Reachable →
    (g.run inputs).1.Reachable := by
  induction inputs with
  | nil => intro g h; exact h
  | cons inp rest ih =>
    intro g h
    exact ih _ (PongGame.Reachable.step g inp.1 inp.2 h)

/-- In every state of a game object the horizontal velocity agrees with the phase:
negative toward player one, positive toward player two. -/
lemma Reachable_velocity (g : PongGame) (h : g.Reachable) :
    (g.m_playState = PLAY_STATE.TOWARD_PLAYER_ONE → g.m_ball.GetVelocity.x < 0) ∧
    (g.m_playState = PLAY_STATE.TOWARD_PLAYER_TWO → 0 < g.m_ball.GetVelocity.x) := by
  have key : ∃ n : ℕ, rallyInv g.m_playState g.m_ball.GetVelocity.x n := by
    induction h with
    | init scoreToWin => exact ⟨0, by simp [rallyInv, PongGame.new]⟩
    | step g t k _ ih =>
      obtain ⟨n, hn⟩ := ih
      exact ⟨_, Update_rallyInv g t k n hn⟩
  obtain ⟨n, h1, h2⟩ := key
  have hpos := rally_speed_pos n
  constructor
  · intro hp; rw [h1 hp]; linarith
  · intro hp; rw [h2 hp]; linarith

/-! ## The ticks of a match

Evaluation of `Update` along a match of serves that are not returned, and along two
serves that are. -/

lemma firstAce_serve :
    (PongGame.new 3).Update 33 Keys.servePeriod =
    (matchState 0 0 (2191 / 5) (266 / 5) 450 400
      PLAY_STATE.TOWARD_PLAYER_TWO, GAME_STATE.IN_GAME) := by
  norm_num [matchState, Keys.servePeriod, PongGame.new, PongGame.Update, PongGame.collided, PongGame.ballPos,
    PongGame.served, PongGame.paddle1, PongGame.paddle2, PongGame.movePaddles,
    PongGame.serveStep, PongGame.collideStep, PongGame.wallStep, hitVelocity, amplify,
    deflectY, Keys.none, Keys.serve, Ball.new, Ball.SetPosition, Ball.SetVelocity,
    Ball.GetPosition, Ball.GetVelocity, Paddle.GetPositionSize, Paddle.SetPosition,
    Court.GetDimensions, COURT_MARGIN, WINDOW_WIDTH, WINDOW_HEIGHT, BALL_RADIUS,
    PADDLE_WIDTH, PADDLE_LENGTH, PADDLE_PADDING, PADDLE_SPEED, BALL_VELOCITY,
    BALL_VEL_INCR, SCORE_MOD]

lemma firstAce_down1 :
    (matchState 0 0 (2191 / 5) (266 / 5) 450 400
      PLAY_STATE.TOWARD_PLAYER_TWO).Update 33 Keys.period =
    (matchState 0 0 (2257 / 5) (332 / 5) 450 400
      PLAY_STATE.TOWARD_PLAYER_TWO, GAME_STATE.IN_GAME) := by
  norm_num [matchState, Keys.period, PongGame.new, PongGame.Update, PongGame.collided, PongGame.ballPos,
    PongGame.served, PongGame.paddle1, PongGame.paddle2, PongGame.movePaddles,
    PongGame.serveStep, PongGame.collideStep, PongGame.wallStep, hitVelocity, amplify,
    deflectY, Keys.none, Keys.serve, Ball.new, Ball.SetPosition, Ball.SetVelocity,
    Ball.GetPosition, Ball.GetVelocity, Paddle.GetPositionSize, Paddle.SetPosition,
    Court.GetDimensions, COURT_MARGIN, WINDOW_WIDTH, WINDOW_HEIGHT, BALL_RADIUS,
    PADDLE_WIDTH, PADDLE_LENGTH, PADDLE_PADDING, PADDLE_SPEED, BALL_VELOCITY,
    BALL_VEL_INCR, SCORE_MOD]

lemma firstAce_down2 :
    (matchState 0 0 (2257 / 5) (332 / 5) 450 400
      PLAY_STATE.TOWARD_PLAYER_TWO).Update 33 Keys.period =
    (matchState 0 0 (2323 / 5) (398 / 5) 450 400
      PLAY_STATE.TOWARD_PLAYER_TWO, GAME_STATE.IN_GAME) := by
  norm_num [matchState, Keys.period, PongGame.new, PongGame.Update, PongGame.collided, PongGame.ballPos,
    PongGame.served, PongGame.paddle1, PongGame.paddle2, PongGame.movePaddles,
    PongGame.serveStep, PongGame.collideStep, PongGame.wallStep, hitVelocity, amplify,
    deflectY, Keys.none, Keys.serve, Ball.new, Ball.SetPosition, Ball.SetVelocity,
    Ball.GetPosition, Ball.GetVelocity, Paddle.GetPositionSize, Paddle.SetPosition,
    Court.GetDimensions, COURT_MARGIN, WINDOW_WIDTH, WINDOW_HEIGHT, BALL_RADIUS,
    PADDLE_WIDTH, PADDLE_LENGTH, PADDLE_PADDING, PADDLE_SPEED, BALL_VELOCITY,
    BALL_VEL_INCR, SCORE_MOD]

lemma firstAce_flight :
    (matchState 0 0 (2323 / 5) (398 / 5) 450 400
      PLAY_STATE.TOWARD_PLAYER_TWO).run (ticks (List.replicate 113 Keys.none)) =
    (matchState 0 0 (2323 / 5) (7856 / 5) 450 400
      PLAY_STATE.TOWARD_PLAYER_TWO,
      List.replicate (List.replicate 113 Keys.none).length GAME_STATE.IN_GAME) := by
  rw [ticks_replicate, List.length_replicate,
    run_flight_two 113 _ rfl rfl (by norm_num [matchState])
      (by right; norm_num [matchState, PongGame.new, PongGame.Update, PongGame.collided, PongGame.ballPos,
    PongGame.served, PongGame.paddle1, PongGame.paddle2, PongGame.movePaddles,
    PongGame.serveStep, PongGame.collideStep, PongGame.wallStep, hitVelocity, amplify,
    deflectY, Keys.none, Keys.serve, Ball.new, Ball.SetPosition, Ball.SetVelocity,
    Ball.GetPosition, Ball.GetVelocity, Paddle.GetPositionSize, Paddle.SetPosition,
    Court.GetDimensions, COURT_MARGIN, WINDOW_WIDTH, WINDOW_HEIGHT, BALL_RADIUS,
    PADDLE_WIDTH, PADDLE_LENGTH, PADDLE_PADDING, PADDLE_SPEED, BALL_VELOCITY,
    BALL_VEL_INCR, SCORE_MOD]) (by norm_num [matchState, PongGame.new, PongGame.Update, PongGame.collided, PongGame.ballPos,
    PongGame.served, PongGame.paddle1, PongGame.paddle2, PongGame.movePaddles,
    PongGame.serveStep, PongGame.collideStep, PongGame.wallStep, hitVelocity, amplify,
    deflectY, Keys.none, Keys.serve, Ball.new, Ball.SetPosition, Ball.SetVelocity,
    Ball.GetPosition, Ball.GetVelocity, Paddle.GetPositionSize, Paddle.SetPosition,
    Court.GetDimensions, COURT_MARGIN, WINDOW_WIDTH, WINDOW_HEIGHT, BALL_RADIUS,
    PADDLE_WIDTH, PADDLE_LENGTH, PADDLE_PADDING, PADDLE_SPEED, BALL_VELOCITY,
    BALL_VEL_INCR, SCORE_MOD])
      (by norm_num [matchState, PongGame.new, PongGame.Update, PongGame.collided, PongGame.ballPos,
    PongGame.served, PongGame.paddle1, PongGame.paddle2, PongGame.movePaddles,
    PongGame.serveStep, PongGame.collideStep, PongGame.wallStep, hitVelocity, amplify,
    deflectY, Keys.none, Keys.serve, Ball.new, Ball.SetPosition, Ball.SetVelocity,
    Ball.GetPosition, Ball.GetVelocity, Paddle.GetPositionSize, Paddle.SetPosition,
    Court.GetDimensions, COURT_MARGIN, WINDOW_WIDTH, WINDOW_HEIGHT, BALL_RADIUS,
    PADDLE_WIDTH, PADDLE_LENGTH, PADDLE_PADDING, PADDLE_SPEED, BALL_VELOCITY,
    BALL_VEL_INCR, SCORE_MOD]) (by norm_num [matchState, PongGame.new, PongGame.Update, PongGame.collided, PongGame.ballPos,
    PongGame.served, PongGame.paddle1, PongGame.paddle2, PongGame.movePaddles,
    PongGame.serveStep, PongGame.collideStep, PongGame.wallStep, hitVelocity, amplify,
    deflectY, Keys.none, Keys.serve, Ball.new, Ball.SetPosition, Ball.SetVelocity,
    Ball.GetPosition, Ball.GetVelocity, Paddle.GetPositionSize, Paddle.SetPosition,
    Court.GetDimensions, COURT_MARGIN, WINDOW_WIDTH, WINDOW_HEIGHT, BALL_RADIUS,
    PADDLE_WIDTH, PADDLE_LENGTH, PADDLE_PADDING, PADDLE_SPEED, BALL_VELOCITY,
    BALL_VEL_INCR, SCORE_MOD])
      (by norm_num [matchState, PongGame.new, PongGame.Update, PongGame.collided, PongGame.ballPos,
    PongGame.served, PongGame.paddle1, PongGame.paddle2, PongGame.movePaddles,
    PongGame.serveStep, PongGame.collideStep, PongGame.wallStep, hitVelocity, amplify,
    deflectY, Keys.none, Keys.serve, Ball.new, Ball.SetPosition, Ball.SetVelocity,
    Ball.GetPosition, Ball.GetVelocity, Paddle.GetPositionSize, Paddle.SetPosition,
    Court.GetDimensions, COURT_MARGIN, WINDOW_WIDTH, WINDOW_HEIGHT, BALL_RADIUS,
    PADDLE_WIDTH, PADDLE_LENGTH, PADDLE_PADDING, PADDLE_SPEED, BALL_VELOCITY,
    BALL_VEL_INCR, SCORE_MOD])]
  norm_num [matchState]

lemma firstAce_miss :
    (matchState 0 0 (2323 / 5) (7856 / 5) 450 400
      PLAY_STATE.TOWARD_PLAYER_TWO).Update 33 Keys.none =
    (matchState 1 0 (2323 / 5) (7922 / 5) 450 400
      PLAY_STATE.SERVE_PLAYER_TWO, GAME_STATE.IN_GAME) := by
  norm_num [matchState, Keys.none, PongGame.new, PongGame.Update, PongGame.collided, PongGame.ballPos,
    PongGame.served, PongGame.paddle1, PongGame.paddle2, PongGame.movePaddles,
    PongGame.serveStep, PongGame.collideStep, PongGame.wallStep, hitVelocity, amplify,
    deflectY, Keys.none, Keys.serve, Ball.new, Ball.SetPosition, Ball.SetVelocity,
    Ball.GetPosition, Ball.GetVelocity, Paddle.GetPositionSize, Paddle.SetPosition,
    Court.GetDimensions, COURT_MARGIN, WINDOW_WIDTH, WINDOW_HEIGHT, BALL_RADIUS,
    PADDLE_WIDTH, PADDLE_LENGTH, PADDLE_PADDING, PADDLE_SPEED, BALL_VELOCITY,
    BALL_VEL_INCR, SCORE_MOD]

lemma run_keysFirstAce :
    (PongGame.new 3).run (ticks keysFirstAce) =
    (matchState 1 0 (2323 / 5) (7922 / 5) 450 400
      PLAY_STATE.SERVE_PLAYER_TWO,
      List.replicate keysFirstAce.length GAME_STATE.IN_GAME) := by
  unfold keysFirstAce
  exact run_ticks_append (run_ticks_append
    (run_ticks_cons firstAce_serve (run_ticks_cons firstAce_down1
      (run_ticks_cons firstAce_down2 run_ticks_nil))) firstAce_flight)
    (run_ticks_cons firstAce_miss run_ticks_nil)

lemma secondAce_serve :
    (matchState 1 0 (2323 / 5) (7922 / 5) 450 400
      PLAY_STATE.SERVE_PLAYER_TWO).Update 33 Keys.serve =
    (matchState 1 0 (2323 / 5) (7684 / 5) (2448 / 5) (-400)
      PLAY_STATE.TOWARD_PLAYER_ONE, GAME_STATE.IN_GAME) := by
  norm_num [matchState, Keys.serve, PongGame.new, PongGame.Update, PongGame.collided, PongGame.ballPos,
    PongGame.served, PongGame.paddle1, PongGame.paddle2, PongGame.movePaddles,
    PongGame.serveStep, PongGame.collideStep, PongGame.wallStep, hitVelocity, amplify,
    deflectY, Keys.none, Keys.serve, Ball.new, Ball.SetPosition, Ball.SetVelocity,
    Ball.GetPosition, Ball.GetVelocity, Paddle.GetPositionSize, Paddle.SetPosition,
    Court.GetDimensions, COURT_MARGIN, WINDOW_WIDTH, WINDOW_HEIGHT, BALL_RADIUS,
    PADDLE_WIDTH, PADDLE_LENGTH, PADDLE_PADDING, PADDLE_SPEED, BALL_VELOCITY,
    BALL_VEL_INCR, SCORE_MOD]

lemma secondAce_flight :
    (matchState 1 0 (2323 / 5) (7684 / 5) (2448 / 5) (-400)
      PLAY_STATE.TOWARD_PLAYER_ONE).run (ticks (List.replicate 114 Keys.none)) =
    (matchState 1 0 (2323 / 5) 32 (2448 / 5) (-400)
      PLAY_STATE.TOWARD_PLAYER_ONE,
      List.replicate (List.replicate 114 Keys.none).length GAME_STATE.IN_GAME) := by
  rw [ticks_replicate, List.length_replicate,
    run_flight_one 114 _ rfl rfl (by norm_num [matchState])
      (by right; norm_num [matchState, PongGame.new, PongGame.Update, PongGame.collided, PongGame.ballPos,
    PongGame.served, PongGame.paddle1, PongGame.paddle2, PongGame.movePaddles,
    PongGame.serveStep, PongGame.collideStep, PongGame.wallStep, hitVelocity, amplify,
    deflectY, Keys.none, Keys.serve, Ball.new, Ball.SetPosition, Ball.SetVelocity,
    Ball.GetPosition, Ball.GetVelocity, Paddle.GetPositionSize, Paddle.SetPosition,
    Court.GetDimensions, COURT_MARGIN, WINDOW_WIDTH, WINDOW_HEIGHT, BALL_RADIUS,
    PADDLE_WIDTH, PADDLE_LENGTH, PADDLE_PADDING, PADDLE_SPEED, BALL_VELOCITY,
    BALL_VEL_INCR, SCORE_MOD]) (by norm_num [matchState, PongGame.new, PongGame.Update, PongGame.collided, PongGame.ballPos,
    PongGame.served, PongGame.paddle1, PongGame.paddle2, PongGame.movePaddles,
    PongGame.serveStep, PongGame.collideStep, PongGame.wallStep, hitVelocity, amplify,
    deflectY, Keys.none, Keys.serve, Ball.new, Ball.SetPosition, Ball.SetVelocity,
    Ball.GetPosition, Ball.GetVelocity, Paddle.GetPositionSize, Paddle.SetPosition,
    Court.GetDimensions, COURT_MARGIN, WINDOW_WIDTH, WINDOW_HEIGHT, BALL_RADIUS,
    PADDLE_WIDTH, PADDLE_LENGTH, PADDLE_PADDING, PADDLE_SPEED, BALL_VELOCITY,
    BALL_VEL_INCR, SCORE_MOD])
      (by norm_num [matchState, PongGame.new, PongGame.Update, PongGame.collided, PongGame.ballPos,
    PongGame.served, PongGame.paddle1, PongGame.paddle2, PongGame.movePaddles,
    PongGame.serveStep, PongGame.collideStep, PongGame.wallStep, hitVelocity, amplify,
    deflectY, Keys.none, Keys.serve, Ball.new, Ball.SetPosition, Ball.SetVelocity,
    Ball.GetPosition, Ball.GetVelocity, Paddle.GetPositionSize, Paddle.SetPosition,
    Court.GetDimensions, COURT_MARGIN, WINDOW_WIDTH, WINDOW_HEIGHT, BALL_RADIUS,
    PADDLE_WIDTH, PADDLE_LENGTH, PADDLE_PADDING, PADDLE_SPEED, BALL_VELOCITY,
    BALL_VEL_INCR, SCORE_MOD]) (by norm_num [matchState, PongGame.new, PongGame.Update, PongGame.collided, PongGame.ballPos,
    PongGame.served, PongGame.paddle1, PongGame.paddle2, PongGame.movePaddles,
    PongGame.serveStep, PongGame.collideStep, PongGame.wallStep, hitVelocity, amplify,
    deflectY, Keys.none, Keys.serve, Ball.new, Ball.SetPosition, Ball.SetVelocity,
    Ball.GetPosition, Ball.GetVelocity, Paddle.GetPositionSize, Paddle.SetPosition,
    Court.GetDimensions, COURT_MARGIN, WINDOW_WIDTH, WINDOW_HEIGHT, BALL_RADIUS,
    PADDLE_WIDTH, PADDLE_LENGTH, PADDLE_PADDING, PADDLE_SPEED, BALL_VELOCITY,
    BALL_VEL_INCR, SCORE_MOD])
      (by norm_num [matchState, PongGame.new, PongGame.Update, PongGame.collided, PongGame.ballPos,
    PongGame.served, PongGame.paddle1, PongGame.paddle2, PongGame.movePaddles,
    PongGame.serveStep, PongGame.collideStep, PongGame.wallStep, hitVelocity, amplify,
    deflectY, Keys.none, Keys.serve, Ball.new, Ball.SetPosition, Ball.SetVelocity,
    Ball.GetPosition, Ball.GetVelocity, Paddle.GetPositionSize, Paddle.SetPosition,
    Court.GetDimensions, COURT_MARGIN, WINDOW_WIDTH, WINDOW_HEIGHT, BALL_RADIUS,
    PADDLE_WIDTH, PADDLE_LENGTH, PADDLE_PADDING, PADDLE_SPEED, BALL_VELOCITY,
    BALL_VEL_INCR, SCORE_MOD])]
  norm_num [matchState]

lemma secondAce_miss :
    (matchState 1 0 (2323 / 5) 32 (2448 / 5) (-400)
      PLAY_STATE.TOWARD_PLAYER_ONE).Update 33 Keys.none =
    (matchState 1 1 (2323 / 5) (94 / 5) (2448 / 5) (-400)
      PLAY_STATE.SERVE_PLAYER_ONE, GAME_STATE.IN_GAME) := by
  norm_num [matchState, Keys.none, PongGame.new, PongGame.Update, PongGame.collided, PongGame.ballPos,
    PongGame.served, PongGame.paddle1, PongGame.paddle2, PongGame.movePaddles,
    PongGame.serveStep, PongGame.collideStep, PongGame.wallStep, hitVelocity, amplify,
    deflectY, Keys.none, Keys.serve, Ball.new, Ball.SetPosition, Ball.SetVelocity,
    Ball.GetPosition, Ball.GetVelocity, Paddle.GetPositionSize, Paddle.SetPosition,
    Court.GetDimensions, COURT_MARGIN, WINDOW_WIDTH, WINDOW_HEIGHT, BALL_RADIUS,
    PADDLE_WIDTH, PADDLE_LENGTH, PADDLE_PADDING, PADDLE_SPEED, BALL_VELOCITY,
    BALL_VEL_INCR, SCORE_MOD]

lemma run_secondAce :
    (matchState 1 0 (2323 / 5) (7922 / 5) 450 400
      PLAY_STATE.SERVE_PLAYER_TWO).run
      (ticks (Keys.serve :: List.replicate 114 Keys.none ++ [Keys.none])) =
    (matchState 1 1 (2323 / 5) (94 / 5) (2448 / 5) (-400)
      PLAY_STATE.SERVE_PLAYER_ONE,
      List.replicate (Keys.serve :: List.replicate 114 Keys.none ++ [Keys.none]).length
        GAME_STATE.IN_GAME) := by
  exact run_ticks_append (run_ticks_cons secondAce_serve secondAce_flight)
    (run_ticks_cons secondAce_miss run_ticks_nil)

lemma thirdAce_serve :
    (matchState 1 1 (2323 / 5) (94 / 5) (2448 / 5) (-400)
      PLAY_STATE.SERVE_PLAYER_ONE).Update 33 Keys.serve =
    (matchState 1 1 (2323 / 5) (266 / 5) 450 400
      PLAY_STATE.TOWARD_PLAYER_TWO, GAME_STATE.IN_GAME) := by
  norm_num [matchState, Keys.serve, PongGame.new, PongGame.Update, PongGame.collided, PongGame.ballPos,
    PongGame.served, PongGame.paddle1, PongGame.paddle2, PongGame.movePaddles,
    PongGame.serveStep, PongGame.collideStep, PongGame.wallStep, hitVelocity, amplify,
    deflectY, Keys.none, Keys.serve, Ball.new, Ball.SetPosition, Ball.SetVelocity,
    Ball.GetPosition, Ball.GetVelocity, Paddle.GetPositionSize, Paddle.SetPosition,
    Court.GetDimensions, COURT_MARGIN, WINDOW_WIDTH, WINDOW_HEIGHT, BALL_RADIUS,
    PADDLE_WIDTH, PADDLE_LENGTH, PADDLE_PADDING, PADDLE_SPEED, BALL_VELOCITY,
    BALL_VEL_INCR, SCORE_MOD]

lemma thirdAce_flight :
    (matchState 1 1 (2323 / 5) (266 / 5) 450 400
      PLAY_STATE.TOWARD_PLAYER_TWO).run (ticks (List.replicate 115 Keys.none)) =
    (matchState 1 1 (2323 / 5) (7856 / 5) 450 400
      PLAY_STATE.TOWARD_PLAYER_TWO,
      List.replicate (List.replicate 115 Keys.none).length GAME_STATE.IN_GAME) := by
  rw [ticks_replicate, List.length_replicate,
    run_flight_two 115 _ rfl rfl (by norm_num [matchState])
      (by right; norm_num [matchState, PongGame.new, PongGame.Update, PongGame.collided, PongGame.ballPos,
    PongGame.served, PongGame.paddle1, PongGame.paddle2, PongGame.movePaddles,
    PongGame.serveStep, PongGame.collideStep, PongGame.wallStep, hitVelocity, amplify,
    deflectY, Keys.none, Keys.serve, Ball.new, Ball.SetPosition, Ball.SetVelocity,
    Ball.GetPosition, Ball.GetVelocity, Paddle.GetPositionSize, Paddle.SetPosition,
    Court.GetDimensions, COURT_MARGIN, WINDOW_WIDTH, WINDOW_HEIGHT, BALL_RADIUS,
    PADDLE_WIDTH, PADDLE_LENGTH, PADDLE_PADDING, PADDLE_SPEED, BALL_VELOCITY,
    BALL_VEL_INCR, SCORE_MOD]) (by norm_num [matchState, PongGame.new, PongGame.Update, PongGame.collided, PongGame.ballPos,
    PongGame.served, PongGame.paddle1, PongGame.paddle2, PongGame.movePaddles,
    PongGame.serveStep, PongGame.collideStep, PongGame.wallStep, hitVelocity, amplify,
    deflectY, Keys.none, Keys.serve, Ball.new, Ball.SetPosition, Ball.SetVelocity,
    Ball.GetPosition, Ball.GetVelocity, Paddle.GetPositionSize, Paddle.SetPosition,
    Court.GetDimensions, COURT_MARGIN, WINDOW_WIDTH, WINDOW_HEIGHT, BALL_RADIUS,
    PADDLE_WIDTH, PADDLE_LENGTH, PADDLE_PADDING, PADDLE_SPEED, BALL_VELOCITY,
    BALL_VEL_INCR, SCORE_MOD])
      (by norm_num [matchState, PongGame.new, PongGame.Update, PongGame.collided, PongGame.ballPos,
    PongGame.served, PongGame.paddle1, PongGame.paddle2, PongGame.movePaddles,
    PongGame.serveStep, PongGame.collideStep, PongGame.wallStep, hitVelocity, amplify,
    deflectY, Keys.none, Keys.serve, Ball.new, Ball.SetPosition, Ball.SetVelocity,
    Ball.GetPosition, Ball.GetVelocity, Paddle.GetPositionSize, Paddle.SetPosition,
    Court.GetDimensions, COURT_MARGIN, WINDOW_WIDTH, WINDOW_HEIGHT, BALL_RADIUS,
    PADDLE_WIDTH, PADDLE_LENGTH, PADDLE_PADDING, PADDLE_SPEED, BALL_VELOCITY,
    BALL_VEL_INCR, SCORE_MOD]) (by norm_num [matchState, PongGame.new, PongGame.Update, PongGame.collided, PongGame.ballPos,
    PongGame.served, PongGame.paddle1, PongGame.paddle2, PongGame.movePaddles,
    PongGame.serveStep, PongGame.collideStep, PongGame.wallStep, hitVelocity, amplify,
    deflectY, Keys.none, Keys.serve, Ball.new, Ball.SetPosition, Ball.SetVelocity,
    Ball.GetPosition, Ball.GetVelocity, Paddle.GetPositionSize, Paddle.SetPosition,
    Court.GetDimensions, COURT_MARGIN, WINDOW_WIDTH, WINDOW_HEIGHT, BALL_RADIUS,
    PADDLE_WIDTH, PADDLE_LENGTH, PADDLE_PADDING, PADDLE_SPEED, BALL_VELOCITY,
    BALL_VEL_INCR, SCORE_MOD])
      (by norm_num [matchState, PongGame.new, PongGame.Update, PongGame.collided, PongGame.ballPos,
    PongGame.served, PongGame.paddle1, PongGame.paddle2, PongGame.movePaddles,
    PongGame.serveStep, PongGame.collideStep, PongGame.wallStep, hitVelocity, amplify,
    deflectY, Keys.none, Keys.serve, Ball.new, Ball.SetPosition, Ball.SetVelocity,
    Ball.GetPosition, Ball.GetVelocity, Paddle.GetPositionSize, Paddle.SetPosition,
    Court.GetDimensions, COURT_MARGIN, WINDOW_WIDTH, WINDOW_HEIGHT, BALL_RADIUS,
    PADDLE_WIDTH, PADDLE_LENGTH, PADDLE_PADDING, PADDLE_SPEED, BALL_VELOCITY,
    BALL_VEL_INCR, SCORE_MOD])]
  norm_num [matchState]

lemma thirdAce_miss :
    (matchState 1 1 (2323 / 5) (7856 / 5) 450 400
      PLAY_STATE.TOWARD_PLAYER_TWO).Update 33 Keys.none =
    (matchState 2 1 (2323 / 5) (7922 / 5) 450 400
      PLAY_STATE.SERVE_PLAYER_TWO, GAME_STATE.IN_GAME) := by
  norm_num [matchState, Keys.none, PongGame.new, PongGame.Update, PongGame.collided, PongGame.ballPos,
    PongGame.served, PongGame.paddle1, PongGame.paddle2, PongGame.movePaddles,
    PongGame.serveStep, PongGame.collideStep, PongGame.wallStep, hitVelocity, amplify,
    deflectY, Keys.none, Keys.serve, Ball.new, Ball.SetPosition, Ball.SetVelocity,
    Ball.GetPosition, Ball.GetVelocity, Paddle.GetPositionSize, Paddle.SetPosition,
    Court.GetDimensions, COURT_MARGIN, WINDOW_WIDTH, WINDOW_HEIGHT, BALL_RADIUS,
    PADDLE_WIDTH, PADDLE_LENGTH, PADDLE_PADDING, PADDLE_SPEED, BALL_VELOCITY,
    BALL_VEL_INCR, SCORE_MOD]

lemma run_thirdAce :
    (matchState 1 1 (2323 / 5) (94 / 5) (2448 / 5) (-400)
      PLAY_STATE.SERVE_PLAYER_ONE).run
      (ticks (Keys.serve :: List.replicate 115 Keys.none ++ [Keys.none])) =
    (matchState 2 1 (2323 / 5) (7922 / 5) 450 400
      PLAY_STATE.SERVE_PLAYER_TWO,
      List.replicate (Keys.serve :: List.replicate 115 Keys.none ++ [Keys.none]).length
        GAME_STATE.IN_GAME) := by
  exact run_ticks_append (run_ticks_cons thirdAce_serve thirdAce_flight)
    (run_ticks_cons thirdAce_miss run_ticks_nil)

lemma fourthAce_serve :
    (matchState 2 1 (2323 / 5) (7922 / 5) 450 400
      PLAY_STATE.SERVE_PLAYER_TWO).Update 33 Keys.serve =
    (matchState 2 1 (2323 / 5) (7684 / 5) (2448 / 5) (-400)
      PLAY_STATE.TOWARD_PLAYER_ONE, GAME_STATE.IN_GAME) := by
  norm_num [matchState, Keys.serve, PongGame.new, PongGame.Update, PongGame.collided, PongGame.ballPos,
    PongGame.served, PongGame.paddle1, PongGame.paddle2, PongGame.movePaddles,
    PongGame.serveStep, PongGame.collideStep, PongGame.wallStep, hitVelocity, amplify,
    deflectY, Keys.none, Keys.serve, Ball.new, Ball.SetPosition, Ball.SetVelocity,
    Ball.GetPosition, Ball.GetVelocity, Paddle.GetPositionSize, Paddle.SetPosition,
    Court.GetDimensions, COURT_MARGIN, WINDOW_WIDTH, WINDOW_HEIGHT, BALL_RADIUS,
    PADDLE_WIDTH, PADDLE_LENGTH, PADDLE_PADDING, PADDLE_SPEED, BALL_VELOCITY,
    BALL_VEL_INCR, SCORE_MOD]

lemma fourthAce_flight :
    (matchState 2 1 (2323 / 5) (7684 / 5) (2448 / 5) (-400)
      PLAY_STATE.TOWARD_PLAYER_ONE).run (ticks (List.replicate 114 Keys.none)) =
    (matchState 2 1 (2323 / 5) 32 (2448 / 5) (-400)
      PLAY_STATE.TOWARD_PLAYER_ONE,
      List.replicate (List.replicate 114 Keys.none).length GAME_STATE.IN_GAME) := by
  rw [ticks_replicate, List.length_replicate,
    run_flight_one 114 _ rfl rfl (by norm_num [matchState])
      (by right; norm_num [matchState, PongGame.new, PongGame.Update, PongGame.collided, PongGame.ballPos,
    PongGame.served, PongGame.paddle1, PongGame.paddle2, PongGame.movePaddles,
    PongGame.serveStep, PongGame.collideStep, PongGame.wallStep, hitVelocity, amplify,
    deflectY, Keys.none, Keys.serve, Ball.new, Ball.SetPosition, Ball.SetVelocity,
    Ball.GetPosition, Ball.GetVelocity, Paddle.GetPositionSize, Paddle.SetPosition,
    Court.GetDimensions, COURT_MARGIN, WINDOW_WIDTH, WINDOW_HEIGHT, BALL_RADIUS,
    PADDLE_WIDTH, PADDLE_LENGTH, PADDLE_PADDING, PADDLE_SPEED, BALL_VELOCITY,
    BALL_VEL_INCR, SCORE_MOD]) (by norm_num [matchState, PongGame.new, PongGame.Update, PongGame.collided, PongGame.ballPos,
    PongGame.served, PongGame.paddle1, PongGame.paddle2, PongGame.movePaddles,
    PongGame.serveStep, PongGame.collideStep, PongGame.wallStep, hitVelocity, amplify,
    deflectY, Keys.none, Keys.serve, Ball.new, Ball.SetPosition, Ball.SetVelocity,
    Ball.GetPosition, Ball.GetVelocity, Paddle.GetPositionSize, Paddle.SetPosition,
    Court.GetDimensions, COURT_MARGIN, WINDOW_WIDTH, WINDOW_HEIGHT, BALL_RADIUS,
    PADDLE_WIDTH, PADDLE_LENGTH, PADDLE_PADDING, PADDLE_SPEED, BALL_VELOCITY,
    BALL_VEL_INCR, SCORE_MOD])
      (by norm_num [matchState, PongGame.new, PongGame.Update, PongGame.collided, PongGame.ballPos,
    PongGame.served, PongGame.paddle1, PongGame.paddle2, PongGame.movePaddles,
    PongGame.serveStep, PongGame.collideStep, PongGame.wallStep, hitVelocity, amplify,
    deflectY, Keys.none, Keys.serve, Ball.new, Ball.SetPosition, Ball.SetVelocity,
    Ball.GetPosition, Ball.GetVelocity, Paddle.GetPositionSize, Paddle.SetPosition,
    Court.GetDimensions, COURT_MARGIN, WINDOW_WIDTH, WINDOW_HEIGHT, BALL_RADIUS,
    PADDLE_WIDTH, PADDLE_LENGTH, PADDLE_PADDING, PADDLE_SPEED, BALL_VELOCITY,
    BALL_VEL_INCR, SCORE_MOD]) (by norm_num [matchState, PongGame.new, PongGame.Update, PongGame.collided, PongGame.ballPos,
    PongGame.served, PongGame.paddle1, PongGame.paddle2, PongGame.movePaddles,
    PongGame.serveStep, PongGame.collideStep, PongGame.wallStep, hitVelocity, amplify,
    deflectY, Keys.none, Keys.serve, Ball.new, Ball.SetPosition, Ball.SetVelocity,
    Ball.GetPosition, Ball.GetVelocity, Paddle.GetPositionSize, Paddle.SetPosition,
    Court.GetDimensions, COURT_MARGIN, WINDOW_WIDTH, WINDOW_HEIGHT, BALL_RADIUS,
    PADDLE_WIDTH, PADDLE_LENGTH, PADDLE_PADDING, PADDLE_SPEED, BALL_VELOCITY,
    BALL_VEL_INCR, SCORE_MOD])
      (by norm_num [matchState, PongGame.new, PongGame.Update, PongGame.collided, PongGame.ballPos,
    PongGame.served, PongGame.paddle1, PongGame.paddle2, PongGame.movePaddles,
    PongGame.serveStep, PongGame.collideStep, PongGame.wallStep, hitVelocity, amplify,
    deflectY, Keys.none, Keys.serve, Ball.new, Ball.SetPosition, Ball.SetVelocity,
    Ball.GetPosition, Ball.GetVelocity, Paddle.GetPositionSize, Paddle.SetPosition,
    Court.GetDimensions, COURT_MARGIN, WINDOW_WIDTH, WINDOW_HEIGHT, BALL_RADIUS,
    PADDLE_WIDTH, PADDLE_LENGTH, PADDLE_PADDING, PADDLE_SPEED, BALL_VELOCITY,
    BALL_VEL_INCR, SCORE_MOD])]
  norm_num [matchState]

lemma fourthAce_miss :
    (matchState 2 1 (2323 / 5) 32 (2448 / 5) (-400)
      PLAY_STATE.TOWARD_PLAYER_ONE).Update 33 Keys.none =
    (matchState 2 2 (2323 / 5) (94 / 5) (2448 / 5) (-400)
      PLAY_STATE.SERVE_PLAYER_ONE, GAME_STATE.IN_GAME) := by
  norm_num [matchState, Keys.none, PongGame.new, PongGame.Update, PongGame.collided, PongGame.ballPos,
    PongGame.served, PongGame.paddle1, PongGame.paddle2, PongGame.movePaddles,
    PongGame.serveStep, PongGame.collideStep, PongGame.wallStep, hitVelocity, amplify,
    deflectY, Keys.none, Keys.serve, Ball.new, Ball.SetPosition, Ball.SetVelocity,
    Ball.GetPosition, Ball.GetVelocity, Paddle.GetPositionSize, Paddle.SetPosition,
    Court.GetDimensions, COURT_MARGIN, WINDOW_WIDTH, WINDOW_HEIGHT, BALL_RADIUS,
    PADDLE_WIDTH, PADDLE_LENGTH, PADDLE_PADDING, PADDLE_SPEED, BALL_VELOCITY,
    BALL_VEL_INCR, SCORE_MOD]

lemma run_fourthAce :
    (matchState 2 1 (2323 / 5) (7922 / 5) 450 400
      PLAY_STATE.SERVE_PLAYER_TWO).run
      (ticks (Keys.serve :: List.replicate 114 Keys.none ++ [Keys.none])) =
    (matchState 2 2 (2323 / 5) (94 / 5) (2448 / 5) (-400)
      PLAY_STATE.SERVE_PLAYER_ONE,
      List.replicate (Keys.serve :: List.replicate 114 Keys.none ++ [Keys.none]).length
        GAME_STATE.IN_GAME) := by
  exact run_ticks_append (run_ticks_cons fourthAce_serve fourthAce_flight)
    (run_ticks_cons fourthAce_miss run_ticks_nil)

lemma lastAce_serve :
    (matchState 2 2 (2323 / 5) (94 / 5) (2448 / 5) (-400)
      PLAY_STATE.SERVE_PLAYER_ONE).Update 33 Keys.serve =
    (matchState 2 2 (2323 / 5) (266 / 5) 450 400
      PLAY_STATE.TOWARD_PLAYER_TWO, GAME_STATE.IN_GAME) := by
  norm_num [matchState, Keys.serve, PongGame.new, PongGame.Update, PongGame.collided, PongGame.ballPos,
    PongGame.served, PongGame.paddle1, PongGame.paddle2, PongGame.movePaddles,
    PongGame.serveStep, PongGame.collideStep, PongGame.wallStep, hitVelocity, amplify,
    deflectY, Keys.none, Keys.serve, Ball.new, Ball.SetPosition, Ball.SetVelocity,
    Ball.GetPosition, Ball.GetVelocity, Paddle.GetPositionSize, Paddle.SetPosition,
    Court.GetDimensions, COURT_MARGIN, WINDOW_WIDTH, WINDOW_HEIGHT, BALL_RADIUS,
    PADDLE_WIDTH, PADDLE_LENGTH, PADDLE_PADDING, PADDLE_SPEED, BALL_VELOCITY,
    BALL_VEL_INCR, SCORE_MOD]

lemma lastAce_flight :
    (matchState 2 2 (2323 / 5) (266 / 5) 450 400
      PLAY_STATE.TOWARD_PLAYER_TWO).run (ticks (List.replicate 115 Keys.none)) =
    (matchState 2 2 (2323 / 5) (7856 / 5) 450 400
      PLAY_STATE.TOWARD_PLAYER_TWO,
      List.replicate (List.replicate 115 Keys.none).length GAME_STATE.IN_GAME) := by
  rw [ticks_replicate, List.length_replicate,
    run_flight_two 115 _ rfl rfl (by norm_num [matchState])
      (by right; norm_num [matchState, PongGame.new, PongGame.Update, PongGame.collided, PongGame.ballPos,
    PongGame.served, PongGame.paddle1, PongGame.paddle2, PongGame.movePaddles,
    PongGame.serveStep, PongGame.collideStep, PongGame.wallStep, hitVelocity, amplify,
    deflectY, Keys.none, Keys.serve, Ball.new, Ball.SetPosition, Ball.SetVelocity,
    Ball.GetPosition, Ball.GetVelocity, Paddle.GetPositionSize, Paddle.SetPosition,
    Court.GetDimensions, COURT_MARGIN, WINDOW_WIDTH, WINDOW_HEIGHT, BALL_RADIUS,
    PADDLE_WIDTH, PADDLE_LENGTH, PADDLE_PADDING, PADDLE_SPEED, BALL_VELOCITY,
    BALL_VEL_INCR, SCORE_MOD]) (by norm_num [matchState, PongGame.new, PongGame.Update, PongGame.collided, PongGame.ballPos,
    PongGame.served, PongGame.paddle1, PongGame.paddle2, PongGame.movePaddles,
    PongGame.serveStep, PongGame.collideStep, PongGame.wallStep, hitVelocity, amplify,
    deflectY, Keys.none, Keys.serve, Ball.new, Ball.SetPosition, Ball.SetVelocity,
    Ball.GetPosition, Ball.GetVelocity, Paddle.GetPositionSize, Paddle.SetPosition,
    Court.GetDimensions, COURT_MARGIN, WINDOW_WIDTH, WINDOW_HEIGHT, BALL_RADIUS,
    PADDLE_WIDTH, PADDLE_LENGTH, PADDLE_PADDING, PADDLE_SPEED, BALL_VELOCITY,
    BALL_VEL_INCR, SCORE_MOD])
      (by norm_num [matchState, PongGame.new, PongGame.Update, PongGame.collided, PongGame.ballPos,
    PongGame.served, PongGame.paddle1, PongGame.paddle2, PongGame.movePaddles,
    PongGame.serveStep, PongGame.collideStep, PongGame.wallStep, hitVelocity, amplify,
    deflectY, Keys.none, Keys.serve, Ball.new, Ball.SetPosition, Ball.SetVelocity,
    Ball.GetPosition, Ball.GetVelocity, Paddle.GetPositionSize, Paddle.SetPosition,
    Court.GetDimensions, COURT_MARGIN, WINDOW_WIDTH, WINDOW_HEIGHT, BALL_RADIUS,
    PADDLE_WIDTH, PADDLE_LENGTH, PADDLE_PADDING, PADDLE_SPEED, BALL_VELOCITY,
    BALL_VEL_INCR, SCORE_MOD]) (by norm_num [matchState, PongGame.new, PongGame.Update, PongGame.collided, PongGame.ballPos,
    PongGame.served, PongGame.paddle1, PongGame.paddle2, PongGame.movePaddles,
    PongGame.serveStep, PongGame.collideStep, PongGame.wallStep, hitVelocity, amplify,
    deflectY, Keys.none, Keys.serve, Ball.new, Ball.SetPosition, Ball.SetVelocity,
    Ball.GetPosition, Ball.GetVelocity, Paddle.GetPositionSize, Paddle.SetPosition,
    Court.GetDimensions, COURT_MARGIN, WINDOW_WIDTH, WINDOW_HEIGHT, BALL_RADIUS,
    PADDLE_WIDTH, PADDLE_LENGTH, PADDLE_PADDING, PADDLE_SPEED, BALL_VELOCITY,
    BALL_VEL_INCR, SCORE_MOD])
      (by norm_num [matchState, PongGame.new, PongGame.Update, PongGame.collided, PongGame.ballPos,
    PongGame.served, PongGame.paddle1, PongGame.paddle2, PongGame.movePaddles,
    PongGame.serveStep, PongGame.collideStep, PongGame.wallStep, hitVelocity, amplify,
    deflectY, Keys.none, Keys.serve, Ball.new, Ball.SetPosition, Ball.SetVelocity,
    Ball.GetPosition, Ball.GetVelocity, Paddle.GetPositionSize, Paddle.SetPosition,
    Court.GetDimensions, COURT_MARGIN, WINDOW_WIDTH, WINDOW_HEIGHT, BALL_RADIUS,
    PADDLE_WIDTH, PADDLE_LENGTH, PADDLE_PADDING, PADDLE_SPEED, BALL_VELOCITY,
    BALL_VEL_INCR, SCORE_MOD])]
  norm_num [matchState]

lemma run_lastAce :
    (matchState 2 2 (2323 / 5) (94 / 5) (2448 / 5) (-400)
      PLAY_STATE.SERVE_PLAYER_ONE).run
      (ticks (Keys.serve :: List.replicate 115 Keys.none)) =
    (matchState 2 2 (2323 / 5) (7856 / 5) 450 400
      PLAY_STATE.TOWARD_PLAYER_TWO,
      List.replicate (Keys.serve :: List.replicate 115 Keys.none).length
        GAME_STATE.IN_GAME) := by
  exact run_ticks_cons lastAce_serve lastAce_flight

/-- The match up to the tick before its last point: every update returns IN_GAME and
the score is 2 to 2, the ball one tick from leaving paddle two behind. -/
lemma run_keysMatch :
    (PongGame.new 3).run (ticks keysMatch) =
    (matchState 2 2 (2323 / 5) (7856 / 5) 450 400
      PLAY_STATE.TOWARD_PLAYER_TWO,
      List.replicate keysMatch.length GAME_STATE.IN_GAME) := by
  unfold keysMatch
  exact run_ticks_append (run_ticks_append (run_ticks_append (run_ticks_append
    run_keysFirstAce run_secondAce) run_thirdAce) run_fourthAce) run_lastAce

lemma lastAce_miss :
    (matchState 2 2 (2323 / 5) (7856 / 5) 450 400
      PLAY_STATE.TOWARD_PLAYER_TWO).Update 33 Keys.none =
    (matchState 3 2 (2323 / 5) (7922 / 5) 450 400
      PLAY_STATE.SERVE_PLAYER_TWO, GAME_STATE.MENU) := by
  norm_num [matchState, Keys.none, PongGame.new, PongGame.Update, PongGame.collided, PongGame.ballPos,
    PongGame.served, PongGame.paddle1, PongGame.paddle2, PongGame.movePaddles,
    PongGame.serveStep, PongGame.collideStep, PongGame.wallStep, hitVelocity, amplify,
    deflectY, Keys.none, Keys.serve, Ball.new, Ball.SetPosition, Ball.SetVelocity,
    Ball.GetPosition, Ball.GetVelocity, Paddle.GetPositionSize, Paddle.SetPosition,
    Court.GetDimensions, COURT_MARGIN, WINDOW_WIDTH, WINDOW_HEIGHT, BALL_RADIUS,
    PADDLE_WIDTH, PADDLE_LENGTH, PADDLE_PADDING, PADDLE_SPEED, BALL_VELOCITY,
    BALL_VEL_INCR, SCORE_MOD]

lemma toPaddleTwo_serve :
    (PongGame.new 3).Update 33 Keys.serve =
    (matchState 0 0 425 (266 / 5) 450 400
      PLAY_STATE.TOWARD_PLAYER_TWO, GAME_STATE.IN_GAME) := by
  norm_num [matchState, Keys.serve, PongGame.new, PongGame.Update, PongGame.collided, PongGame.ballPos,
    PongGame.served, PongGame.paddle1, PongGame.paddle2, PongGame.movePaddles,
    PongGame.serveStep, PongGame.collideStep, PongGame.wallStep, hitVelocity, amplify,
    deflectY, Keys.none, Keys.serve, Ball.new, Ball.SetPosition, Ball.SetVelocity,
    Ball.GetPosition, Ball.GetVelocity, Paddle.GetPositionSize, Paddle.SetPosition,
    Court.GetDimensions, COURT_MARGIN, WINDOW_WIDTH, WINDOW_HEIGHT, BALL_RADIUS,
    PADDLE_WIDTH, PADDLE_LENGTH, PADDLE_PADDING, PADDLE_SPEED, BALL_VELOCITY,
    BALL_VEL_INCR, SCORE_MOD]

lemma toPaddleTwo_flight :
    (matchState 0 0 425 (266 / 5) 450 400
      PLAY_STATE.TOWARD_PLAYER_TWO).run (ticks (List.replicate 113 Keys.none)) =
    (matchState 0 0 425 (7724 / 5) 450 400
      PLAY_STATE.TOWARD_PLAYER_TWO,
      List.replicate (List.replicate 113 Keys.none).length GAME_STATE.IN_GAME) := by
  rw [ticks_replicate, List.length_replicate,
    run_flight_two 113 _ rfl rfl (by norm_num [matchState])
      (by left; norm_num [matchState, PongGame.new, PongGame.Update, PongGame.collided, PongGame.ballPos,
    PongGame.served, PongGame.paddle1, PongGame.paddle2, PongGame.movePaddles,
    PongGame.serveStep, PongGame.collideStep, PongGame.wallStep, hitVelocity, amplify,
    deflectY, Keys.none, Keys.serve, Ball.new, Ball.SetPosition, Ball.SetVelocity,
    Ball.GetPosition, Ball.GetVelocity, Paddle.GetPositionSize, Paddle.SetPosition,
    Court.GetDimensions, COURT_MARGIN, WINDOW_WIDTH, WINDOW_HEIGHT, BALL_RADIUS,
    PADDLE_WIDTH, PADDLE_LENGTH, PADDLE_PADDING, PADDLE_SPEED, BALL_VELOCITY,
    BALL_VEL_INCR, SCORE_MOD]) (by norm_num [matchState, PongGame.new, PongGame.Update, PongGame.collided, PongGame.ballPos,
    PongGame.served, PongGame.paddle1, PongGame.paddle2, PongGame.movePaddles,
    PongGame.serveStep, PongGame.collideStep, PongGame.wallStep, hitVelocity, amplify,
    deflectY, Keys.none, Keys.serve, Ball.new, Ball.SetPosition, Ball.SetVelocity,
    Ball.GetPosition, Ball.GetVelocity, Paddle.GetPositionSize, Paddle.SetPosition,
    Court.GetDimensions, COURT_MARGIN, WINDOW_WIDTH, WINDOW_HEIGHT, BALL_RADIUS,
    PADDLE_WIDTH, PADDLE_LENGTH, PADDLE_PADDING, PADDLE_SPEED, BALL_VELOCITY,
    BALL_VEL_INCR, SCORE_MOD])
      (by norm_num [matchState, PongGame.new, PongGame.Update, PongGame.collided, PongGame.ballPos,
    PongGame.served, PongGame.paddle1, PongGame.paddle2, PongGame.movePaddles,
    PongGame.serveStep, PongGame.collideStep, PongGame.wallStep, hitVelocity, amplify,
    deflectY, Keys.none, Keys.serve, Ball.new, Ball.SetPosition, Ball.SetVelocity,
    Ball.GetPosition, Ball.GetVelocity, Paddle.GetPositionSize, Paddle.SetPosition,
    Court.GetDimensions, COURT_MARGIN, WINDOW_WIDTH, WINDOW_HEIGHT, BALL_RADIUS,
    PADDLE_WIDTH, PADDLE_LENGTH, PADDLE_PADDING, PADDLE_SPEED, BALL_VELOCITY,
    BALL_VEL_INCR, SCORE_MOD]) (by norm_num [matchState, PongGame.new, PongGame.Update, PongGame.collided, PongGame.ballPos,
    PongGame.served, PongGame.paddle1, PongGame.paddle2, PongGame.movePaddles,
    PongGame.serveStep, PongGame.collideStep, PongGame.wallStep, hitVelocity, amplify,
    deflectY, Keys.none, Keys.serve, Ball.new, Ball.SetPosition, Ball.SetVelocity,
    Ball.GetPosition, Ball.GetVelocity, Paddle.GetPositionSize, Paddle.SetPosition,
    Court.GetDimensions, COURT_MARGIN, WINDOW_WIDTH, WINDOW_HEIGHT, BALL_RADIUS,
    PADDLE_WIDTH, PADDLE_LENGTH, PADDLE_PADDING, PADDLE_SPEED, BALL_VELOCITY,
    BALL_VEL_INCR, SCORE_MOD])
      (by norm_num [matchState, PongGame.new, PongGame.Update, PongGame.collided, PongGame.ballPos,
    PongGame.served, PongGame.paddle1, PongGame.paddle2, PongGame.movePaddles,
    PongGame.serveStep, PongGame.collideStep, PongGame.wallStep, hitVelocity, amplify,
    deflectY, Keys.none, Keys.serve, Ball.new, Ball.SetPosition, Ball.SetVelocity,
    Ball.GetPosition, Ball.GetVelocity, Paddle.GetPositionSize, Paddle.SetPosition,
    Court.GetDimensions, COURT_MARGIN, WINDOW_WIDTH, WINDOW_HEIGHT, BALL_RADIUS,
    PADDLE_WIDTH, PADDLE_LENGTH, PADDLE_PADDING, PADDLE_SPEED, BALL_VELOCITY,
    BALL_VEL_INCR, SCORE_MOD])]
  norm_num [matchState]

lemma run_keysToPaddleTwo :
    (PongGame.new 3).run (ticks keysToPaddleTwo) =
    (matchState 0 0 425 (7724 / 5) 450 400
      PLAY_STATE.TOWARD_PLAYER_TWO,
      List.replicate keysToPaddleTwo.length GAME_STATE.IN_GAME) := by
  unfold keysToPaddleTwo
  exact run_ticks_cons toPaddleTwo_serve toPaddleTwo_flight

lemma toPaddleOne_serve :
    (matchState 1 0 (2323 / 5) (7922 / 5) 450 400
      PLAY_STATE.SERVE_PLAYER_TWO).Update 33 Keys.serveP =
    (matchState 1 0 (2257 / 5) (7684 / 5) (2382 / 5) (-400)
      PLAY_STATE.TOWARD_PLAYER_ONE, GAME_STATE.IN_GAME) := by
  norm_num [matchState, Keys.serveP, PongGame.new, PongGame.Update, PongGame.collided, PongGame.ballPos,
    PongGame.served, PongGame.paddle1, PongGame.paddle2, PongGame.movePaddles,
    PongGame.serveStep, PongGame.collideStep, PongGame.wallStep, hitVelocity, amplify,
    deflectY, Keys.none, Keys.serve, Ball.new, Ball.SetPosition, Ball.SetVelocity,
    Ball.GetPosition, Ball.GetVelocity, Paddle.GetPositionSize, Paddle.SetPosition,
    Court.GetDimensions, COURT_MARGIN, WINDOW_WIDTH, WINDOW_HEIGHT, BALL_RADIUS,
    PADDLE_WIDTH, PADDLE_LENGTH, PADDLE_PADDING, PADDLE_SPEED, BALL_VELOCITY,
    BALL_VEL_INCR, SCORE_MOD]

lemma toPaddleOne_flight :
    (matchState 1 0 (2257 / 5) (7684 / 5) (2382 / 5) (-400)
      PLAY_STATE.TOWARD_PLAYER_ONE).run (ticks (List.replicate 112 Keys.none)) =
    (matchState 1 0 (2257 / 5) (292 / 5) (2382 / 5) (-400)
      PLAY_STATE.TOWARD_PLAYER_ONE,
      List.replicate (List.replicate 112 Keys.none).length GAME_STATE.IN_GAME) := by
  rw [ticks_replicate, List.length_replicate,
    run_flight_one 112 _ rfl rfl (by norm_num [matchState])
      (by left; norm_num [matchState, PongGame.new, PongGame.Update, PongGame.collided, PongGame.ballPos,
    PongGame.served, PongGame.paddle1, PongGame.paddle2, PongGame.movePaddles,
    PongGame.serveStep, PongGame.collideStep, PongGame.wallStep, hitVelocity, amplify,
    deflectY, Keys.none, Keys.serve, Ball.new, Ball.SetPosition, Ball.SetVelocity,
    Ball.GetPosition, Ball.GetVelocity, Paddle.GetPositionSize, Paddle.SetPosition,
    Court.GetDimensions, COURT_MARGIN, WINDOW_WIDTH, WINDOW_HEIGHT, BALL_RADIUS,
    PADDLE_WIDTH, PADDLE_LENGTH, PADDLE_PADDING, PADDLE_SPEED, BALL_VELOCITY,
    BALL_VEL_INCR, SCORE_MOD]) (by norm_num [matchState, PongGame.new, PongGame.Update, PongGame.collided, PongGame.ballPos,
    PongGame.served, PongGame.paddle1, PongGame.paddle2, PongGame.movePaddles,
    PongGame.serveStep, PongGame.collideStep, PongGame.wallStep, hitVelocity, amplify,
    deflectY, Keys.none, Keys.serve, Ball.new, Ball.SetPosition, Ball.SetVelocity,
    Ball.GetPosition, Ball.GetVelocity, Paddle.GetPositionSize, Paddle.SetPosition,
    Court.GetDimensions, COURT_MARGIN, WINDOW_WIDTH, WINDOW_HEIGHT, BALL_RADIUS,
    PADDLE_WIDTH, PADDLE_LENGTH, PADDLE_PADDING, PADDLE_SPEED, BALL_VELOCITY,
    BALL_VEL_INCR, SCORE_MOD])
      (by norm_num [matchState, PongGame.new, PongGame.Update, PongGame.collided, PongGame.ballPos,
    PongGame.served, PongGame.paddle1, PongGame.paddle2, PongGame.movePaddles,
    PongGame.serveStep, PongGame.collideStep, PongGame.wallStep, hitVelocity, amplify,
    deflectY, Keys.none, Keys.serve, Ball.new, Ball.SetPosition, Ball.SetVelocity,
    Ball.GetPosition, Ball.GetVelocity, Paddle.GetPositionSize, Paddle.SetPosition,
    Court.GetDimensions, COURT_MARGIN, WINDOW_WIDTH, WINDOW_HEIGHT, BALL_RADIUS,
    PADDLE_WIDTH, PADDLE_LENGTH, PADDLE_PADDING, PADDLE_SPEED, BALL_VELOCITY,
    BALL_VEL_INCR, SCORE_MOD]) (by norm_num [matchState, PongGame.new, PongGame.Update, PongGame.collided, PongGame.ballPos,
    PongGame.served, PongGame.paddle1, PongGame.paddle2, PongGame.movePaddles,
    PongGame.serveStep, PongGame.collideStep, PongGame.wallStep, hitVelocity, amplify,
    deflectY, Keys.none, Keys.serve, Ball.new, Ball.SetPosition, Ball.SetVelocity,
    Ball.GetPosition, Ball.GetVelocity, Paddle.GetPositionSize, Paddle.SetPosition,
    Court.GetDimensions, COURT_MARGIN, WINDOW_WIDTH, WINDOW_HEIGHT, BALL_RADIUS,
    PADDLE_WIDTH, PADDLE_LENGTH, PADDLE_PADDING, PADDLE_SPEED, BALL_VELOCITY,
    BALL_VEL_INCR, SCORE_MOD])
      (by norm_num [matchState, PongGame.new, PongGame.Update, PongGame.collided, PongGame.ballPos,
    PongGame.served, PongGame.paddle1, PongGame.paddle2, PongGame.movePaddles,
    PongGame.serveStep, PongGame.collideStep, PongGame.wallStep, hitVelocity, amplify,
    deflectY, Keys.none, Keys.serve, Ball.new, Ball.SetPosition, Ball.SetVelocity,
    Ball.GetPosition, Ball.GetVelocity, Paddle.GetPositionSize, Paddle.SetPosition,
    Court.GetDimensions, COURT_MARGIN, WINDOW_WIDTH, WINDOW_HEIGHT, BALL_RADIUS,
    PADDLE_WIDTH, PADDLE_LENGTH, PADDLE_PADDING, PADDLE_SPEED, BALL_VELOCITY,
    BALL_VEL_INCR, SCORE_MOD])]
  norm_num [matchState]

lemma run_keysToPaddleOne :
    (PongGame.new 3).run (ticks keysToPaddleOne) =
    (matchState 1 0 (2257 / 5) (292 / 5) (2382 / 5) (-400)
      PLAY_STATE.TOWARD_PLAYER_ONE,
      List.replicate keysToPaddleOne.length GAME_STATE.IN_GAME) := by
  unfold keysToPaddleOne
  exact run_ticks_append (run_ticks_append run_keysFirstAce
    (run_ticks_cons toPaddleOne_serve run_ticks_nil)) toPaddleOne_flight

/-! ## Paddle hits in reachable states -/

/-- C2: in every state of a game object (constructed, then updated any number of
times) that is in phase TOWARD_PLAYER_ONE and in which, after the tick's integration,
the ball has reached paddle one and vertically overlaps it, `Update` leaves an x
velocity of the opposite sign to the pre-collision one (negative before, positive
after), with |vx'| = |vx| + BALL_VEL_INCR and |vy'| = |vy + d| + BALL_VEL_INCR for a
deflection d among -BALL_VELOCITY/2, 0, +BALL_VELOCITY/2, and the phase becomes
TOWARD_PLAYER_TWO; symmetrically for TOWARD_PLAYER_TWO against paddle two (positive
before, negative after), ending in TOWARD_PLAYER_ONE. -/
theorem Update_paddle_hit (g : PongGame) (hg : g.Reachable) (t : ℚ) (k : Keys) :
    (g.m_playState = PLAY_STATE.TOWARD_PLAYER_ONE →
      (g.ballPos t k).x - BALL_RADIUS ≤ (g.paddle1 t k).x + PADDLE_WIDTH →
      (g.ballPos t k).y + BALL_RADIUS ≥ (g.paddle1 t k).y →
      (g.ballPos t k).y - BALL_RADIUS ≤ (g.paddle1 t k).y + PADDLE_LENGTH →
      SignType.sign (g.Update t k).1.m_ball.GetVelocity.x =
        -SignType.sign g.m_ball.GetVelocity.x ∧
      g.m_ball.GetVelocity.x < 0 ∧ 0 < (g.Update t k).1.m_ball.GetVelocity.x ∧
      |(g.Update t k).1.m_ball.GetVelocity.x| = |g.m_ball.GetVelocity.x| + BALL_VEL_INCR ∧
      (∃ d : ℚ, (d = -(BALL_VELOCITY / 2) ∨ d = 0 ∨ d = BALL_VELOCITY / 2) ∧
        |(g.Update t k).1.m_ball.GetVelocity.y| =
          |g.m_ball.GetVelocity.y + d| + BALL_VEL_INCR) ∧
      (g.Update t k).1.m_playState = PLAY_STATE.TOWARD_PLAYER_TWO) ∧
    (g.m_playState = PLAY_STATE.TOWARD_PLAYER_TWO →
      (g.ballPos t k).x + BALL_RADIUS ≥ (g.paddle2 t k).x →
      (g.ballPos t k).y + BALL_RADIUS ≥ (g.paddle2 t k).y →
      (g.ballPos t k).y - BALL_RADIUS ≤ (g.paddle2 t k).y + PADDLE_LENGTH →
      SignType.sign (g.Update t k).1.m_ball.GetVelocity.x =
        -SignType.sign g.m_ball.GetVelocity.x ∧
      0 < g.m_ball.GetVelocity.x ∧ (g.Update t k).1.m_ball.GetVelocity.x < 0 ∧
      |(g.Update t k).1.m_ball.GetVelocity.x| = |g.m_ball.GetVelocity.x| + BALL_VEL_INCR ∧
      (∃ d : ℚ, (d = -(BALL_VELOCITY / 2) ∨ d = 0 ∨ d = BALL_VELOCITY / 2) ∧
        |(g.Update t k).1.m_ball.GetVelocity.y| =
          |g.m_ball.GetVelocity.y + d| + BALL_VEL_INCR) ∧
      (g.Update t k).1.m_playState = PLAY_STATE.TOWARD_PLAYER_ONE) := by
  obtain ⟨hv1, hv2⟩ := Reachable_velocity g hg
  obtain ⟨H1, H2⟩ := Update_hit_velocity g t k
  constructor
  · intro hp hr h1 h2
    obtain ⟨a, _, _, d, e, f⟩ := H1 hp hr h1 h2
    have hneg := hv1 hp
    have hpos := a hneg
    refine ⟨?_, hneg, hpos, d, e, f⟩
    rw [sign_pos hpos, sign_neg hneg, neg_neg]
  · intro hp hr h1 h2
    obtain ⟨_, b, _, d, e, f⟩ := H2 hp hr h1 h2
    have hpos := hv2 hp
    have hneg := b hpos
    refine ⟨?_, hpos, hneg, d, e, f⟩
    rw [sign_pos hpos, sign_neg hneg]

lemma gameAtPaddleTwo_eq :
    gameAtPaddleTwo = matchState 0 0 425 (7724 / 5) 450 400 PLAY_STATE.TOWARD_PLAYER_TWO := by
  unfold gameAtPaddleTwo; rw [run_keysToPaddleTwo]

lemma gameAtPaddleOne_eq :
    gameAtPaddleOne =
      matchState 1 0 (2257 / 5) (292 / 5) (2382 / 5) (-400) PLAY_STATE.TOWARD_PLAYER_ONE := by
  unfold gameAtPaddleOne; rw [run_keysToPaddleOne]

/-- Instance of C2, on states reached from the constructed game by ticks of 33 ms: the
first serve arrives at paddle two with x velocity 400 and leaves it with a negative one
in phase TOWARD_PLAYER_ONE; player two's serve after a lost point arrives at paddle one
with x velocity -400 and leaves it with a positive one in phase TOWARD_PLAYER_TWO. -/
theorem Update_paddle_hit_witness :
    (gameAtPaddleTwo.Reachable ∧
      gameAtPaddleTwo.m_playState = PLAY_STATE.TOWARD_PLAYER_TWO ∧
      gameAtPaddleTwo.m_ball.GetVelocity.x = 400 ∧
      (gameAtPaddleTwo.Update 33 Keys.none).1.m_ball.GetVelocity.x < 0 ∧
      |(gameAtPaddleTwo.Update 33 Keys.none).1.m_ball.GetVelocity.x| = 460 ∧
      (gameAtPaddleTwo.Update 33 Keys.none).1.m_playState = PLAY_STATE.TOWARD_PLAYER_ONE) ∧
    (gameAtPaddleOne.Reachable ∧
      gameAtPaddleOne.m_playState = PLAY_STATE.TOWARD_PLAYER_ONE ∧
      gameAtPaddleOne.m_ball.GetVelocity.x = -400 ∧
      0 < (gameAtPaddleOne.Update 33 Keys.none).1.m_ball.GetVelocity.x ∧
      |(gameAtPaddleOne.Update 33 Keys.none).1.m_ball.GetVelocity.x| = 460 ∧
      (gameAtPaddleOne.Update 33 Keys.none).1.m_playState = PLAY_STATE.TOWARD_PLAYER_TWO) := by
  have r2 : gameAtPaddleTwo.Reachable :=
    Reachable_run _ _ (PongGame.Reachable.init 3)
  have r1 : gameAtPaddleOne.Reachable :=
    Reachable_run _ _ (PongGame.Reachable.init 3)
  have p2 : gameAtPaddleTwo.m_playState = PLAY_STATE.TOWARD_PLAYER_TWO := by
    rw [gameAtPaddleTwo_eq]; rfl
  have p1 : gameAtPaddleOne.m_playState = PLAY_STATE.TOWARD_PLAYER_ONE := by
    rw [gameAtPaddleOne_eq]; rfl
  have v2 : gameAtPaddleTwo.m_ball.GetVelocity.x = 400 := by
    rw [gameAtPaddleTwo_eq]; rfl
  have v1 : gameAtPaddleOne.m_ball.GetVelocity.x = -400 := by
    rw [gameAtPaddleOne_eq]; rfl
  have h2 := (Update_paddle_hit gameAtPaddleTwo r2 33 Keys.none).2 p2
    (by rw [gameAtPaddleTwo_eq]; norm_num [matchState, PongGame.new, PongGame.Update, PongGame.collided, PongGame.ballPos,
    PongGame.served, PongGame.paddle1, PongGame.paddle2, PongGame.movePaddles,
    PongGame.serveStep, PongGame.collideStep, PongGame.wallStep, hitVelocity, amplify,
    deflectY, Keys.none, Keys.serve, Ball.new, Ball.SetPosition, Ball.SetVelocity,
    Ball.GetPosition, Ball.GetVelocity, Paddle.GetPositionSize, Paddle.SetPosition,
    Court.GetDimensions, COURT_MARGIN, WINDOW_WIDTH, WINDOW_HEIGHT, BALL_RADIUS,
    PADDLE_WIDTH, PADDLE_LENGTH, PADDLE_PADDING, PADDLE_SPEED, BALL_VELOCITY,
    BALL_VEL_INCR, SCORE_MOD])
    (by rw [gameAtPaddleTwo_eq]; norm_num [matchState, PongGame.new, PongGame.Update, PongGame.collided, PongGame.ballPos,
    PongGame.served, PongGame.paddle1, PongGame.paddle2, PongGame.movePaddles,
    PongGame.serveStep, PongGame.collideStep, PongGame.wallStep, hitVelocity, amplify,
    deflectY, Keys.none, Keys.serve, Ball.new, Ball.SetPosition, Ball.SetVelocity,
    Ball.GetPosition, Ball.GetVelocity, Paddle.GetPositionSize, Paddle.SetPosition,
    Court.GetDimensions, COURT_MARGIN, WINDOW_WIDTH, WINDOW_HEIGHT, BALL_RADIUS,
    PADDLE_WIDTH, PADDLE_LENGTH, PADDLE_PADDING, PADDLE_SPEED, BALL_VELOCITY,
    BALL_VEL_INCR, SCORE_MOD])
    (by rw [gameAtPaddleTwo_eq]; norm_num [matchState, PongGame.new, PongGame.Update, PongGame.collided, PongGame.ballPos,
    PongGame.served, PongGame.paddle1, PongGame.paddle2, PongGame.movePaddles,
    PongGame.serveStep, PongGame.collideStep, PongGame.wallStep, hitVelocity, amplify,
    deflectY, Keys.none, Keys.serve, Ball.new, Ball.SetPosition, Ball.SetVelocity,
    Ball.GetPosition, Ball.GetVelocity, Paddle.GetPositionSize, Paddle.SetPosition,
    Court.GetDimensions, COURT_MARGIN, WINDOW_WIDTH, WINDOW_HEIGHT, BALL_RADIUS,
    PADDLE_WIDTH, PADDLE_LENGTH, PADDLE_PADDING, PADDLE_SPEED, BALL_VELOCITY,
    BALL_VEL_INCR, SCORE_MOD])
  have h1 := (Update_paddle_hit gameAtPaddleOne r1 33 Keys.none).1 p1
    (by rw [gameAtPaddleOne_eq]; norm_num [matchState, PongGame.new, PongGame.Update, PongGame.collided, PongGame.ballPos,
    PongGame.served, PongGame.paddle1, PongGame.paddle2, PongGame.movePaddles,
    PongGame.serveStep, PongGame.collideStep, PongGame.wallStep, hitVelocity, amplify,
    deflectY, Keys.none, Keys.serve, Ball.new, Ball.SetPosition, Ball.SetVelocity,
    Ball.GetPosition, Ball.GetVelocity, Paddle.GetPositionSize, Paddle.SetPosition,
    Court.GetDimensions, COURT_MARGIN, WINDOW_WIDTH, WINDOW_HEIGHT, BALL_RADIUS,
    PADDLE_WIDTH, PADDLE_LENGTH, PADDLE_PADDING, PADDLE_SPEED, BALL_VELOCITY,
    BALL_VEL_INCR, SCORE_MOD])
    (by rw [gameAtPaddleOne_eq]; norm_num [matchState, PongGame.new, PongGame.Update, PongGame.collided, PongGame.ballPos,
    PongGame.served, PongGame.paddle1, PongGame.paddle2, PongGame.movePaddles,
    PongGame.serveStep, PongGame.collideStep, PongGame.wallStep, hitVelocity, amplify,
    deflectY, Keys.none, Keys.serve, Ball.new, Ball.SetPosition, Ball.SetVelocity,
    Ball.GetPosition, Ball.GetVelocity, Paddle.GetPositionSize, Paddle.SetPosition,
    Court.GetDimensions, COURT_MARGIN, WINDOW_WIDTH, WINDOW_HEIGHT, BALL_RADIUS,
    PADDLE_WIDTH, PADDLE_LENGTH, PADDLE_PADDING, PADDLE_SPEED, BALL_VELOCITY,
    BALL_VEL_INCR, SCORE_MOD])
    (by rw [gameAtPaddleOne_eq]; norm_num [matchState, PongGame.new, PongGame.Update, PongGame.collided, PongGame.ballPos,
    PongGame.served, PongGame.paddle1, PongGame.paddle2, PongGame.movePaddles,
    PongGame.serveStep, PongGame.collideStep, PongGame.wallStep, hitVelocity, amplify,
    deflectY, Keys.none, Keys.serve, Ball.new, Ball.SetPosition, Ball.SetVelocity,
    Ball.GetPosition, Ball.GetVelocity, Paddle.GetPositionSize, Paddle.SetPosition,
    Court.GetDimensions, COURT_MARGIN, WINDOW_WIDTH, WINDOW_HEIGHT, BALL_RADIUS,
    PADDLE_WIDTH, PADDLE_LENGTH, PADDLE_PADDING, PADDLE_SPEED, BALL_VELOCITY,
    BALL_VEL_INCR, SCORE_MOD])
  refine ⟨⟨r2, p2, v2, h2.2.2.1, ?_, h2.2.2.2.2.2⟩, ⟨r1, p1, v1, h1.2.2.1, ?_, h1.2.2.2.2.2⟩⟩
  · rw [h2.2.2.2.1, v2]; norm_num [BALL_VEL_INCR]
  · rw [h1.2.2.2.1, v1]; norm_num [BALL_VEL_INCR]

/-! ## A whole match inside the loop -/

/-- A frame of 33 ms entered without lag runs one tick. -/
lemma App.frame_tick (a : App) (mp : Vector2D) (f : ℕ → TickInput) (h0 : a.frameLag = 0) :
    (a.frame 33 mp f).1 = (App.tick { a with frameLag := 33 } mp (f 0)).1 := by
  unfold App.frame
  have e : a.frameLag + ((33 : ℤ) : ℚ) = 33 := by rw [h0]; norm_num
  rw [e, App.tickLoop_ge _ _ _ _ (by simp [UPDATE_MS]),
    App.tickLoop_lt _ _ _ _ (by rw [App.tick_frameLag]; simp [UPDATE_MS])]

lemma App.frame_reachable (a : App) (mp : Vector2D) (f : ℕ → TickInput) (hr : a.Reachable)
    (h0 : a.frameLag = 0) (hne : a.gameState ≠ GAME_STATE.EXIT) :
    (a.frame 33 mp f).1.Reachable := by
  rw [App.frame_tick a mp f h0]
  have h1 := App.Reachable.frame a 33 hr (by rw [h0]; norm_num [UPDATE_MS]) hne
  have e : a.frameLag + ((33 : ℤ) : ℚ) = 33 := by rw [h0]; norm_num
  rw [e] at h1
  exact App.Reachable.tick _ mp (f 0) h1 (by simp [UPDATE_MS])

/-- A frame in the game whose update returns IN_GAME changes the game object only. -/
lemma App.frame_game (a : App) (mp : Vector2D) (inp : TickInput) (g1 : PongGame)
    (h0 : a.frameLag = 0) (hs : a.gameState = GAME_STATE.IN_GAME)
    (hu : a.pong.Update 33 inp.keys = (g1, GAME_STATE.IN_GAME)) :
    (a.frame 33 mp (fun _ => inp)).1 = { a with pong := g1 } := by
  rw [App.frame_tick a mp _ h0]
  unfold App.tick
  simp only [hs, UPDATE_MS, hu]
  cases a
  simp_all

/-- A frame in the game whose update returns MENU also resets the menu. -/
lemma App.frame_game_over (a : App) (mp : Vector2D) (inp : TickInput) (g1 : PongGame)
    (h0 : a.frameLag = 0) (hs : a.gameState = GAME_STATE.IN_GAME)
    (hu : a.pong.Update 33 inp.keys = (g1, GAME_STATE.MENU)) :
    (a.frame 33 mp (fun _ => inp)).1 =
      { a with pong := g1, gameState := GAME_STATE.MENU, menu := a.menu.Reset } := by
  rw [App.frame_tick a mp _ h0]
  unfold App.tick
  simp only [hs, UPDATE_MS, hu]
  cases a
  simp_all

/-- A frame in the menu updates the menu and takes the state it returns. -/
lemma App.frame_menu (a : App) (mp : Vector2D) (inp : TickInput)
    (h0 : a.frameLag = 0) (hs : a.gameState = GAME_STATE.MENU) :
    (a.frame 33 mp (fun _ => inp)).1 =
      { a with menu := (a.menu.Update 33 mp inp.mouse).1
               gameState := (a.menu.Update 33 mp inp.mouse).2 } := by
  rw [App.frame_tick a mp _ h0]
  unfold App.tick
  simp only [hs, UPDATE_MS]
  cases a
  simp_all

lemma App.frames_nil (a : App) (mp : Vector2D) : a.frames mp [] = a := rfl

lemma App.frames_cons (a : App) (mp : Vector2D) (inp : TickInput) (rest : List TickInput) :
    a.frames mp (inp :: rest) = (a.frame 33 mp (fun _ => inp)).1.frames mp rest := rfl

lemma App.frames_append (mp : Vector2D) (l1 : List TickInput) :
    ∀ (a : App) (l2 : List TickInput),
    a.frames mp (l1 ++ l2) = (a.frames mp l1).frames mp l2 := by
  induction l1 with
  | nil => intro a l2; rfl
  | cons inp rest ih =>
    intro a l2
    rw [List.cons_append, App.frames_cons, App.frames_cons, ih]

/-- Frames in the game whose updates all return IN_GAME: the loop state follows the run
of the game object and stays reachable. -/
lemma App.frames_game (mp : Vector2D) (ks : List Keys) : ∀ (a : App) (g1 : PongGame),
    a.Reachable → a.frameLag = 0 → a.gameState = GAME_STATE.IN_GAME →
    a.pong.run (ticks ks) = (g1, List.replicate ks.length GAME_STATE.IN_GAME) →
    a.frames mp (ks.map (fun k => ⟨k, ⟨false, false, false⟩⟩)) = { a with pong := g1 } ∧
    App.Reachable { a with pong := g1 } := by
  induction ks with
  | nil =>
    intro a g1 hr _ _ hrun
    have e : g1 = a.pong := by
      simp [ticks, PongGame.run] at hrun
      exact hrun.symm
    subst e
    exact ⟨rfl, hr⟩
  | cons k rest ih =>
    intro a g1 hr h0 hs hrun
    have e : ticks (k :: rest) = (33, k) :: ticks rest := by simp [ticks]
    rw [e, PongGame.run] at hrun
    dsimp only at hrun
    rw [Prod.ext_iff] at hrun
    obtain ⟨hfst, hsnd⟩ := hrun
    dsimp only at hfst hsnd
    rw [List.length_cons, List.replicate_succ, List.cons.injEq] at hsnd
    have hu : a.pong.Update 33 k = ((a.pong.Update 33 k).1, GAME_STATE.IN_GAME) := by
      rw [Prod.ext_iff]; exact ⟨rfl, hsnd.1⟩
    have hf := App.frame_game a mp ⟨k, ⟨false, false, false⟩⟩ _ h0 hs hu
    have hr1 := App.frame_reachable a mp (fun _ => ⟨k, ⟨false, false, false⟩⟩) hr h0
      (by rw [hs]; decide)
    rw [hf] at hr1
    have hrest := ih { a with pong := (a.pong.Update 33 k).1 } g1 hr1 h0 hs
      (by rw [Prod.ext_iff]; exact ⟨hfst, hsnd.2⟩)
    rw [List.map_cons, App.frames_cons, hf]
    exact hrest

/-- The loop state on the tick before the last point. -/
lemma appMatchPoint_eq :
    appMatchPoint =
      { gameState := GAME_STATE.IN_GAME
        pong := matchState 2 2 (2323 / 5) (7856 / 5) 450 400 PLAY_STATE.TOWARD_PLAYER_TWO
        menu := (PongMenu.new.Update 33 ⟨810, 460⟩ ⟨true, false, false⟩).1
        frameLag := 0 } ∧
    appMatchPoint.Reachable := by
  have hm : (PongMenu.new.Update 33 ⟨810, 460⟩ ⟨true, false, false⟩).2 =
      GAME_STATE.IN_GAME := by
    norm_num [PongMenu.new, PongMenu.Update, Button.new, Button.HandleInput,
      Button.hitTest, MouseButtons.state, WINDOW_WIDTH, WINDOW_HEIGHT,
      (by decide : ¬ Button.STATE.UP = Button.STATE.HOVER)]
  have h1 : (App.new.frame 33 ⟨810, 460⟩ (fun _ => TickInput.leftPress)).1 =
      { gameState := GAME_STATE.IN_GAME
        pong := PongGame.new 3
        menu := (PongMenu.new.Update 33 ⟨810, 460⟩ ⟨true, false, false⟩).1
        frameLag := 0 } := by
    rw [App.frame_menu App.new ⟨810, 460⟩ TickInput.leftPress rfl rfl]
    show ({ gameState := (PongMenu.new.Update 33 ⟨810, 460⟩ ⟨true, false, false⟩).2
            pong := PongGame.new 3
            menu := (PongMenu.new.Update 33 ⟨810, 460⟩ ⟨true, false, false⟩).1
            frameLag := 0 } : App) = _
    rw [hm]
  have r1 := App.frame_reachable App.new ⟨810, 460⟩ (fun _ => TickInput.leftPress)
    App.Reachable.init rfl (by decide)
  rw [h1] at r1
  obtain ⟨h2, r2⟩ := App.frames_game ⟨810, 460⟩ keysMatch _ _ r1 rfl rfl run_keysMatch
  unfold appMatchPoint inputsMatch
  rw [App.frames_cons, h1, h2]
  exact ⟨rfl, r2⟩

/-- The loop state after the last point. -/
lemma appMatchEnd_eq :
    appMatchEnd =
      { gameState := GAME_STATE.MENU
        pong := matchState 3 2 (2323 / 5) (7922 / 5) 450 400 PLAY_STATE.SERVE_PLAYER_TWO
        menu := (PongMenu.new.Update 33 ⟨810, 460⟩ ⟨true, false, false⟩).1.Reset
        frameLag := 0 } ∧
    appMatchEnd.Reachable := by
  obtain ⟨h1, r1⟩ := appMatchPoint_eq
  have hs : appMatchPoint.gameState = GAME_STATE.IN_GAME := by rw [h1]
  have h0 : appMatchPoint.frameLag = 0 := by rw [h1]
  have hu : appMatchPoint.pong.Update 33 TickInput.none.keys =
      (matchState 3 2 (2323 / 5) (7922 / 5) 450 400 PLAY_STATE.SERVE_PLAYER_TWO,
        GAME_STATE.MENU) := by
    rw [h1]; exact lastAce_miss
  have h2 := App.frame_game_over appMatchPoint ⟨810, 460⟩ TickInput.none _ h0 hs hu
  have r2 := App.frame_reachable appMatchPoint ⟨810, 460⟩ (fun _ => TickInput.none) r1 h0
    (by rw [hs]; decide)
  have e : appMatchEnd =
      (appMatchPoint.frame 33 ⟨810, 460⟩ (fun _ => TickInput.none)).1 := by
    unfold appMatchEnd
    rw [App.frames_cons, App.frames_nil]
  rw [e]
  refine ⟨?_, r2⟩
  rw [h2, h1]

/-- Instance of C20: a whole session from the initial state of the loop. A press on the
play button starts the game with the menu's play flag fired; five serves are played,
none returned; on the last point the game returns MENU and the loop resets the menu.
The state then reached is in MENU with both flags clear. -/
theorem App.menu_flags_clear_witness :
    (appMatchPoint.Reachable ∧ appMatchPoint.gameState = GAME_STATE.IN_GAME ∧
      appMatchPoint.menu.m_shouldStart = true) ∧
    (appMatchEnd.Reachable ∧ appMatchEnd.gameState = GAME_STATE.MENU ∧
      appMatchEnd.pong.m_playerOneScore = 3) ∧
    appMatchEnd.menu.m_shouldExit = false ∧ appMatchEnd.menu.m_shouldStart = false ∧
    ∀ (t : ℚ) (q : Vector2D) (mouse : MouseButtons),
      (appMatchEnd.menu.Update t q mouse).2 = (PongMenu.new.Update t q mouse).2 := by
  obtain ⟨h1, r1⟩ := appMatchPoint_eq
  obtain ⟨h2, r2⟩ := appMatchEnd_eq
  have hm : appMatchEnd.gameState = GAME_STATE.MENU := by rw [h2]
  obtain ⟨f1, f2, f3⟩ := App.menu_flags_clear appMatchEnd r2 hm
  refine ⟨⟨r1, by rw [h1], ?_⟩, ⟨r2, hm, by rw [h2]; rfl⟩, f1, f2, f3⟩
  rw [h1]
  norm_num [PongMenu.new, PongMenu.Update, Button.new, Button.HandleInput,
    Button.hitTest, MouseButtons.state, WINDOW_WIDTH, WINDOW_HEIGHT,
    (by decide : ¬ Button.STATE.UP = Button.STATE.HOVER)]

end Pong
